import Mathlib

/-!
Verification development for the MDL text-format parser (src/parsers/mdl.ts).

The parser is embedded shallowly:

* The scanner state is the list of characters not yet consumed (the scanner in
  the source is forward-only: `pos` never moves backwards).  The byte offset of
  an error is recovered at the top level as `input length - remaining length`.
* JavaScript numbers produced by `parseFloat` on the tokens this scanner can
  produce are modelled exactly as signed decimal values `m * 10 ^ e`
  (constructor `JsNum.fin m e`) together with `JsNum.nan`.  IEEE-754 rounding
  (doubles, `Float32Array` storage) is not modelled; no claim under scrutiny
  depends on rounding.
* JavaScript objects built from dynamic string keys are association lists
  (`Obj`), with insertion-ordered update-in-place semantics, and `none` lookup
  playing the role of `undefined` while `Val.vnull` plays the role of `null`.
* Genuine non-termination of the source is modelled by the dedicated result
  `Res.div`: a scanning loop of the source that can never exit (for example
  `parseString` when no closing quote exists: past the end of the string
  `state.char()` is `undefined`, which is never `'"'`, and the JS regular
  expression tests coerce `undefined` to the string "undefined", which keeps
  keyword and number runs alive forever) is translated to `.div`.  Block-body
  loops whose single iteration consumes no character and does not exit repeat
  the very same deterministic state forever in the source; the loop combinator
  detects this (no strict decrease of the remaining input) and yields `.div`.
* `Res.oof` is fuel exhaustion of the loop combinator.  Every loop is run with
  fuel `remaining length + 1`, and every productive iteration strictly consumes
  input, so `oof` is unreachable; it exists only to keep the definitions
  structurally recursive (and hence kernel-computable).
-/

namespace Mdl

/-- A JavaScript number as produced by `parseFloat` on the tokens of this
grammar: either NaN or an exact decimal `m * 10 ^ e`.  Double rounding is not
modelled. -/
inductive JsNum : Type where
  | nan : JsNum
  | fin : Int → Int → JsNum
deriving DecidableEq, Repr

/-- The numeric value zero. -/
def jzero : JsNum := JsNum.fin 0 0

/-- Scanner state: the characters not yet consumed. -/
abbrev St := List Char

/-- Result of running one parsing function of the source:
`ok` carries the produced value and the remaining input; `err` is a
`SyntaxError` thrown by `throwError` (it carries the remaining length, from
which the reported byte offset is computed, and the extra message text);
`jerr` is a plain `throw new Error(...)` carrying no offset; `div` is genuine
non-termination of the source; `oof` is fuel exhaustion (unreachable, see the
file header). -/
inductive Res (α : Type) : Type where
  | ok : α → St → Res α
  | err : Nat → String → Res α
  | jerr : String → Res α
  | div : Res α
  | oof : Res α
deriving DecidableEq, Repr

/-- Sequencing of results: propagate errors, divergence and fuel exhaustion. -/
def andThen {α β : Type} (r : Res α) (f : α → St → Res β) : Res β :=
  match r with
  | .ok a s => f a s
  | .err n m => .err n m
  | .jerr m => .jerr m
  | .div => .div
  | .oof => .oof

/-- Character class of the JS regex `/\s/i` restricted to ASCII (the inputs in
this development are ASCII). -/
def isSpaceJS (c : Char) : Bool :=
  c = ' ' ∨ c = '\t' ∨ c = '\n' ∨ c = '\r' ∨ c = '\x0b' ∨ c = '\x0c'

/-- Character class of `/[a-z]/i` (first character of a keyword). -/
def isKwFirst (c : Char) : Bool :=
  ('a' ≤ c ∧ c ≤ 'z') ∨ ('A' ≤ c ∧ c ≤ 'Z')

/-- Character class of `/[a-z0-9]/i` (subsequent characters of a keyword). -/
def isKwOther (c : Char) : Bool :=
  isKwFirst c ∨ ('0' ≤ c ∧ c ≤ '9')

/-- Character class of `/[-0-9]/` (first character of a number). -/
def isNumFirst (c : Char) : Bool :=
  c = '-' ∨ ('0' ≤ c ∧ c ≤ '9')

/-- Character class of `/[-+.0-9e]/i` (subsequent characters of a number). -/
def isNumOther (c : Char) : Bool :=
  c = '-' ∨ c = '+' ∨ c = '.' ∨ c = 'e' ∨ c = 'E' ∨ ('0' ≤ c ∧ c ≤ '9')

def isDigitC (c : Char) : Bool := '0' ≤ c ∧ c ≤ '9'

def digitVal (c : Char) : Nat := c.toNat - '0'.toNat

def digitsToNat (ds : List Char) : Nat :=
  ds.foldl (fun a c => a * 10 + digitVal c) 0

/-- ECMAScript `parseFloat` on the kind of token `parseNumber` can cut out:
longest valid `StrDecimalLiteral` prefix (optional sign, digits with optional
fraction, optional exponent whose digits must be non-empty), NaN when no
mantissa digit is found.  Exact decimal value, no double rounding. -/
def jsParseFloat (cs : List Char) : JsNum :=
  let (sgn, cs1) : Int × List Char :=
    match cs with
    | '-' :: t => (-1, t)
    | '+' :: t => (1, t)
    | _ => (1, cs)
  let intDs := cs1.takeWhile isDigitC
  let cs2 := cs1.dropWhile isDigitC
  let (fracDs, cs3) : List Char × List Char :=
    match cs2 with
    | '.' :: t => (t.takeWhile isDigitC, t.dropWhile isDigitC)
    | _ => ([], cs2)
  if intDs.isEmpty ∧ fracDs.isEmpty then JsNum.nan
  else
    let expVal : Int :=
      match cs3 with
      | 'e' :: t | 'E' :: t =>
        let (esgn, t1) : Int × List Char :=
          match t with
          | '-' :: u => (-1, u)
          | '+' :: u => (1, u)
          | _ => (1, t)
        let eds := t1.takeWhile isDigitC
        if eds.isEmpty then 0 else esgn * (digitsToNat eds : Int)
      | _ => 0
    JsNum.fin (sgn * (digitsToNat (intDs ++ fracDs) : Int))
      (expVal - (fracDs.length : Int))

/-- Truncation toward zero of `m * 10 ^ e` (ECMAScript `ToIntegerOrInfinity`
on finite values). -/
def jsTrunc (m e : Int) : Int :=
  if 0 ≤ e then m * (10 : Int) ^ e.toNat
  else Int.tdiv m ((10 : Int) ^ (-e).toNat)

/-- ECMAScript `ToInt32` of a parsed number, as an exact value. -/
def toInt32 (x : JsNum) : JsNum :=
  match x with
  | .nan => jzero
  | .fin m e =>
    let u := (jsTrunc m e).emod (2 ^ 32)
    JsNum.fin (if u < 2 ^ 31 then u else u - 2 ^ 32) 0

/-- ECMAScript `ToUintN` (N = 8, 16, 32) of a parsed number. -/
def toUintW (w : Nat) (x : JsNum) : JsNum :=
  match x with
  | .nan => jzero
  | .fin m e => JsNum.fin ((jsTrunc m e).emod (2 ^ w)) 0

/-- Unsigned 32-bit view of a number (used for JS bitwise `|`). -/
def i32u (x : JsNum) : Nat :=
  match x with
  | .nan => 0
  | .fin m e => ((jsTrunc m e).emod (2 ^ 32)).toNat

/-- JS bitwise OR of two numbers (`a | b`). -/
def jsOr (a b : JsNum) : JsNum :=
  let u := Nat.lor (i32u a) (i32u b)
  JsNum.fin (if u < 2 ^ 31 then (u : Int) else (u : Int) - 2 ^ 32) 0

/-- JS addition restricted to the finite uses in this parser. -/
def jsAdd (a b : JsNum) : JsNum :=
  match a, b with
  | .nan, _ => .nan
  | _, .nan => .nan
  | .fin m1 e1, .fin m2 e2 =>
    let e := min e1 e2
    JsNum.fin (m1 * 10 ^ (e1 - e).toNat + m2 * 10 ^ (e2 - e).toNat) e

/-- JS multiplication (used for `count * countPerObj`). -/
def jsMul (a b : JsNum) : JsNum :=
  match a, b with
  | .nan, _ => .nan
  | _, .nan => .nan
  | .fin m1 e1, .fin m2 e2 => JsNum.fin (m1 * m2) (e1 + e2)

/-- Number of iterations of `for (let i = 0; i < count; ++i)` when `count` is
the given JS number: NaN compares false, otherwise the count is the ceiling of
the value clamped at zero. -/
def jsLoopCount (x : JsNum) : Nat :=
  match x with
  | .nan => 0
  | .fin m e =>
    if m ≤ 0 then 0
    else if 0 ≤ e then (m * (10 : Int) ^ e.toNat).toNat
    else
      let d := (10 : Nat) ^ (-e).toNat
      (m.toNat + d - 1) / d

/-- The exact integer value of a JS number when it is integral, else `none`. -/
def jsIntVal (x : JsNum) : Option Int :=
  match x with
  | .nan => none
  | .fin m e =>
    if 0 ≤ e then some (m * (10 : Int) ^ e.toNat)
    else
      let d := (10 : Int) ^ (-e).toNat
      if d ∣ m then some (Int.ediv m d) else none

/-- Skip whitespace (`parseSpace`): JS `/\s/` fails on `undefined`
("undefined" has no whitespace), so this always terminates. -/
def dropSpace (s : St) : St := s.dropWhile isSpaceJS

/-- `parseComment`.  After consuming `//` the source does
`while (pos < len && str[++pos] !== '\n');` — the pre-increment means the
character immediately after `//` is skipped without ever being examined; the
scan then stops at the next `'\n'` (consuming it) or at the end of input.
Returns `none` when the input does not start with `//` (the JS function
returns `false`). -/
def parseComment (s : St) : Option St :=
  match s with
  | '/' :: '/' :: t =>
    match t with
    | [] => some []
    | _ :: t1 =>
      let rest := t1.dropWhile (fun c => ¬ (c = '\n'))
      match rest with
      | [] => some []
      | _ :: r => some r
  | _ => none

/-- The repeated `while (parseComment(state));` at the head of the driver
loop.  Each successful `parseComment` consumes at least two characters, so the
structural fuel `s.length` suffices. -/
def skipComments : Nat → St → St
  | 0, s => s
  | fuel + 1, s =>
    match parseComment s with
    | some s1 => skipComments fuel s1
    | none => s

/-- `parseKeyword`.  At end of input the JS regex test coerces `undefined` to
the string "undefined", which passes `/[a-z]/i`, and the accumulation loop then
never stops: this is `.div`.  Likewise a keyword run that reaches the end of
input never stops. -/
def parseKeyword (s : St) : Res (Option String) :=
  match s with
  | [] => .div
  | c :: t =>
    if isKwFirst c then
      let run := t.takeWhile isKwOther
      let rem := t.dropWhile isKwOther
      match rem with
      | [] => .div
      | _ => .ok (some (String.mk (c :: run))) (dropSpace rem)
    else .ok none s

/-- `parseSymbol` (non-strict): consume the symbol and trailing whitespace if
present, otherwise do nothing. -/
def parseSymbol (sym : Char) (s : St) : St :=
  match s with
  | c :: t => if c = sym then dropSpace t else s
  | [] => s

/-- `strictParseSymbol`: as `parseSymbol` but a missing symbol raises
`SyntaxError, near pos, extected <sym>` (the typo is the source's). -/
def strictParseSymbol (sym : Char) (s : St) : Res Unit :=
  match s with
  | c :: t =>
    if c = sym then .ok () (dropSpace t)
    else .err s.length ("extected " ++ String.mk [sym])
  | [] => .err 0 ("extected " ++ String.mk [sym])

/-- `parseString`.  When no closing quote exists the scan loop of the source
never terminates (past the end `state.char()` is `undefined ≠ '"'`): `.div`. -/
def parseString (s : St) : Res (Option String) :=
  match s with
  | '"' :: t =>
    let content := t.takeWhile (fun c => ¬ (c = '"'))
    let rest := t.dropWhile (fun c => ¬ (c = '"'))
    match rest with
    | [] => .div
    | _ :: r => .ok (some (String.mk content)) (dropSpace r)
  | _ => .ok none s

/-- `parseNumber`.  A number run that reaches the end of input never stops in
the source (the `/[-+.0-9e]/i` test passes on "undefined"): `.div`. -/
def parseNumber (s : St) : Res (Option JsNum) :=
  match s with
  | [] => .ok none s
  | c :: t =>
    if isNumFirst c then
      let run := t.takeWhile isNumOther
      let rem := t.dropWhile isNumOther
      match rem with
      | [] => .div
      | _ => .ok (some (jsParseFloat (c :: run))) (dropSpace rem)
    else .ok none s

/-- Element kinds of the typed-array buffers the parser allocates. -/
inductive BK : Type where
  | f32 | i32 | u8 | u16 | u32
deriving DecidableEq, Repr

/-- Coercion performed by a store into a typed array of the given kind.
`Float32Array` rounding is not modelled (values are kept exact). -/
def coerceBK : BK → JsNum → JsNum
  | .f32, v => v
  | .i32, v => toInt32 v
  | .u8, v => toUintW 8 v
  | .u16, v => toUintW 16 v
  | .u32, v => toUintW 32 v

/-- A typed-array buffer: fixed length, kind-coerced stores, and out-of-range
stores silently dropped (exactly the JS typed-array behaviour). -/
structure Buf : Type where
  k : BK
  data : List JsNum
deriving DecidableEq, Repr

def bufNew (k : BK) (n : Nat) : Buf := ⟨k, List.replicate n jzero⟩

def bufWrite (b : Buf) (i : Nat) (v : JsNum) : Buf :=
  { b with data := b.data.set i (coerceBK b.k v) }

/-- The while-loop combinator.  `exit` is the loop condition's negation (for
most loops: the current character is `'}'`), `body` is one iteration.  An
iteration that does not consume input and does not exit leaves the forward-only
scanner in the very same state, so the source loops forever: `.div`.  The fuel
only bounds the number of iterations; callers pass `remaining + 1`, which
suffices because every recursing iteration strictly consumes. -/
def loopW {α : Type} (exit : α → St → Bool) (body : α → St → Res α) :
    Nat → α → St → Res α
  | 0, _, _ => .oof
  | fuel + 1, a, s =>
    if exit a s then .ok a s
    else
      andThen (body a s) fun a1 s1 =>
        if s1.length < s.length then loopW exit body fuel a1 s1 else .div

/-- Run a while-loop with sufficient fuel. -/
def runLoop {α : Type} (exit : α → St → Bool) (body : α → St → Res α)
    (a : α) (s : St) : Res α :=
  loopW exit body (s.length + 1) a s

/-- A counted `for (let i = base; i < count; ++i)` loop. -/
def forN {α : Type} (body : Nat → α → St → Res α) :
    Nat → Nat → α → St → Res α
  | 0, _, a, s => .ok a s
  | n + 1, i, a, s => andThen (body i a s) fun a1 s1 => forN body n (i + 1) a1 s1

/-- Whether the next character is the given one (loop exit tests). -/
def headIs (c : Char) (s : St) : Bool := s.head? = some c

/-- One iteration of the element loop of `parseArray`: read a number into the
buffer at the running position, then an optional comma. -/
def parseArrayBody (bp : Buf × Nat) (s : St) : Res (Buf × Nat) :=
  andThen (parseNumber s) fun n? s1 =>
    match n? with
    | none => .err s1.length ("expected number")
    | some v => .ok (bufWrite bp.1 bp.2 v, bp.2 + 1) (parseSymbol ',' s1)

/-- `parseArray(state, arr, pos)` with a caller-provided typed buffer: returns
`none` (JS `null`) without consuming anything when the current character is not
`'{'`; otherwise fills the buffer from the given position, tolerating a
trailing comma, and errors on a missing number. -/
def parseArrayInto (b : Buf) (base : Nat) (s : St) : Res (Option Buf) :=
  match s with
  | '{' :: t =>
    andThen (runLoop (fun _ s => headIs '}' s) parseArrayBody
      (b, base) (dropSpace t)) fun bp s2 =>
    andThen (strictParseSymbol '}' s2) fun _ s3 => .ok (some bp.1) s3
  | _ => .ok none s

/-- `parseArray(state)` with no buffer: a fresh growable array. -/
def parseArrayG (s : St) : Res (Option (List JsNum)) :=
  match s with
  | '{' :: t =>
    andThen (runLoop (fun _ s => headIs '}' s)
      (fun (l : List JsNum) s =>
        andThen (parseNumber s) fun n? s1 =>
          match n? with
          | none => .err s1.length ("expected number")
          | some v => .ok (l ++ [v]) (parseSymbol ',' s1))
      [] (dropSpace t)) fun l s2 =>
    andThen (strictParseSymbol '}' s2) fun _ s3 => .ok (some l) s3
  | _ => .ok none s

/-- `parseArrayOrSingleItem`: as `parseArrayInto` but a bare number is stored
at index 0 (a JS `null` from `parseNumber` is coerced by the typed store). -/
def parseArrayOrSingleItem (b : Buf) (s : St) : Res Buf :=
  match s with
  | '{' :: t =>
    andThen (runLoop (fun _ s => headIs '}' s) parseArrayBody
      (b, 0) (dropSpace t)) fun bp s2 =>
    andThen (strictParseSymbol '}' s2) fun _ s3 => .ok bp.1 s3
  | _ =>
    andThen (parseNumber s) fun n? s1 =>
      .ok (bufWrite b 0 (n?.getD jzero)) s1

/-- Interpolation modes (`LineType`).  Modelled from the spec: the shared data
model module (`../model`) is not part of the sources; the spec fixes
DontInterp=0, Linear=1, Hermite=2, Bezier=3. -/
inductive LineT : Type where
  | DontInterp | Linear | Hermite | Bezier
deriving DecidableEq, Repr

/-- One keyframe of an animated track. -/
structure Keyframe : Type where
  Frame : JsNum
  Vector : List JsNum
  InTan : Option (List JsNum)
  OutTan : Option (List JsNum)
deriving DecidableEq, Repr

/-- An animated track (`AnimVector`). -/
structure AnimVec : Type where
  LineType : LineT
  GlobalSeqId : Option JsNum
  Keys : List Keyframe
deriving DecidableEq, Repr

/-- `AnimVectorType`. -/
inductive AVT : Type where
  | INT1 | FLOAT1 | FLOAT3 | FLOAT4
deriving DecidableEq, Repr

/-- `animVectorSize`. -/
def animVectorSize : AVT → Nat
  | .INT1 => 1
  | .FLOAT1 => 1
  | .FLOAT3 => 3
  | .FLOAT4 => 4

/-- The typed-array constructor chosen in `parseAnimKeyframe`. -/
def avtBK : AVT → BK
  | .INT1 => .i32
  | _ => .f32

/-- `parseAnimKeyframe`: the vector, and for Hermite/Bezier the InTan and
OutTan vectors (the two keywords are read but not validated). -/
def parseAnimKeyframe (frame : JsNum) (t : AVT) (lt : LineT) (s : St) :
    Res Keyframe :=
  andThen (parseArrayOrSingleItem (bufNew (avtBK t) (animVectorSize t)) s)
    fun vecB s1 =>
  andThen (strictParseSymbol ',' s1) fun _ s2 =>
  if lt = LineT.Hermite ∨ lt = LineT.Bezier then
    andThen (parseKeyword s2) fun _ s3 =>
    andThen (parseArrayOrSingleItem (bufNew (avtBK t) (animVectorSize t)) s3)
      fun inB s4 =>
    andThen (strictParseSymbol ',' s4) fun _ s5 =>
    andThen (parseKeyword s5) fun _ s6 =>
    andThen (parseArrayOrSingleItem (bufNew (avtBK t) (animVectorSize t)) s6)
      fun outB s7 =>
    andThen (strictParseSymbol ',' s7) fun _ s8 =>
    .ok ⟨frame, vecB.data, some inB.data, some outB.data⟩ s8
  else .ok ⟨frame, vecB.data, none, none⟩ s2

/-- The interpolation keyword of a track header; anything else keeps the
default `DontInterp`. -/
def lineTOf (k : Option String) : LineT :=
  match k with
  | some "DontInterp" => .DontInterp
  | some "Linear" => .Linear
  | some "Hermite" => .Hermite
  | some "Bezier" => .Bezier
  | _ => .DontInterp

/-- `parseAnimVector`. -/
def parseAnimVector (t : AVT) (s : St) : Res AnimVec :=
  andThen (parseNumber s) fun _ s1 =>
  andThen (strictParseSymbol '{' s1) fun _ s2 =>
  andThen (parseKeyword s2) fun ltk s3 =>
  andThen (strictParseSymbol ',' s3) fun _ s4 =>
  andThen (runLoop (fun _ s => headIs '}' s)
    (fun (av : AnimVec) s =>
      andThen (parseKeyword s) fun kw? s1 =>
      if kw? = some ("GlobalSeqId") then
        andThen (parseNumber s1) fun n? s2 =>
        andThen (strictParseSymbol ',' s2) fun _ s3 =>
          .ok { av with GlobalSeqId := n? } s3
      else
        andThen (parseNumber s1) fun fr? s2 =>
          match fr? with
          | none => .err s2.length ("expected frame number or GlobalSeqId")
          | some frame =>
            andThen (strictParseSymbol ':' s2) fun _ s3 =>
            andThen (parseAnimKeyframe frame t av.LineType s3) fun kf s4 =>
              .ok { av with Keys := av.Keys ++ [kf] } s4)
    ⟨lineTOf ltk, none, []⟩ s4) fun av s5 =>
  andThen (strictParseSymbol '}' s5) fun _ s6 => .ok av s6

/-- Values stored under the dynamic string keys of the record objects the
parser builds.  `vnull` is the JS `null`; an absent key is `undefined`. -/
inductive Val : Type where
  | vnum : JsNum → Val
  | vstr : String → Val
  | vbool : Bool → Val
  | vnull : Val
  | varr : List JsNum → Val
  | varrs : List (List JsNum) → Val
  | vanim : AnimVec → Val
deriving DecidableEq, Repr

/-- A JS record object: insertion-ordered association list. -/
abbrev Obj := List (String × Val)

def objGet (o : Obj) (k : String) : Option Val :=
  (o.find? (fun p => p.1 = k)).map Prod.snd

def objHas (o : Obj) (k : String) : Bool :=
  (o.find? (fun p => p.1 = k)).isSome

/-- Property write: updates in place (JS objects keep the first-insertion
position on overwrite), appends otherwise. -/
def objSet (o : Obj) (k : String) (v : Val) : Obj :=
  if objHas o k then o.map (fun p => if p.1 = k then (k, v) else p)
  else o ++ [(k, v)]

/-- JS `delete obj[k]`. -/
def objDel (o : Obj) (k : String) : Obj :=
  o.filter (fun p => ¬ (p.1 = k))

/-- JS truthiness of a possibly-absent value. -/
def valTruthy : Option Val → Bool
  | none => false
  | some v =>
    match v with
    | .vnum x => match x with | .nan => false | .fin m _ => ¬ (m = 0)
    | .vstr s => ¬ (s = "")
    | .vbool b => b
    | .vnull => false
    | _ => true

/-- ECMAScript `ToNumber` of a string (trim; empty is 0; otherwise the full
string must be a numeric literal). -/
def strToNumber (s : String) : JsNum :=
  let cs := (s.data.dropWhile isSpaceJS).reverse.dropWhile isSpaceJS |>.reverse
  if cs.isEmpty then jzero
  else
    match cs with
    | c :: t =>
      if isNumFirst c ∨ c = '+' ∨ c = '.' then
        let v := jsParseFloat cs
        -- full-match check: every character must belong to the literal
        if (c :: t).all (fun x => isNumOther x) then v else JsNum.nan
      else JsNum.nan
    | [] => jzero

/-- ECMAScript `ToNumber` of a possibly-absent `Val` (used by the `|=` and `+=`
updates when a flag field was overwritten by a generic key). -/
def valToNum : Option Val → JsNum
  | none => .nan
  | some (.vnum x) => x
  | some (.vstr s) => strToNumber s
  | some (.vbool b) => if b then JsNum.fin 1 0 else jzero
  | some .vnull => jzero
  | some (.varr l) => match l with | [] => jzero | [x] => x | _ => .nan
  | some (.varrs l) => match l with | [[x]] => x | _ => .nan
  | some (.vanim _) => .nan

/-- `field |= bits` on a record field. -/
def jsOrV (cur : Option Val) (bits : Nat) : Val :=
  .vnum (jsOr (valToNum cur) (JsNum.fin (bits : Int) 0))

/-- `parseObject`: optional prefix (quoted string, else number), then a
`key value` body; `Interval` and `MinimumExtent`/`MaximumExtent` get typed
buffers, all other values are growable array, string or number. -/
def parseObject (s : St) : Res (Val × Obj) :=
  andThen
    (match s with
     | '{' :: _ => .ok Val.vnull s
     | _ =>
       andThen (parseString s) fun str? s1 =>
         match str? with
         | some v => .ok (Val.vstr v) s1
         | none =>
           andThen (parseNumber s1) fun n? s2 =>
             match n? with
             | some v => .ok (Val.vnum v) s2
             | none => .err s2.length ("expected string or number"))
    fun pfx s1 =>
  andThen (strictParseSymbol '{' s1) fun _ s2 =>
  andThen (runLoop (fun _ s => headIs '}' s)
    (fun (o : Obj) s =>
      andThen (parseKeyword s) fun kw? s1 =>
        match kw? with
        | none => .err s1.length ("")
        | some kw =>
          andThen
            (if kw = "Interval" then
              andThen (parseArrayInto (bufNew .u32 2) 0 s1) fun b? s2 =>
                .ok (match b? with | some b => Val.varr b.data | none => Val.vnull) s2
            else if kw = "MinimumExtent" ∨ kw = "MaximumExtent" then
              andThen (parseArrayInto (bufNew .f32 3) 0 s1) fun b? s2 =>
                .ok (match b? with | some b => Val.varr b.data | none => Val.vnull) s2
            else
              andThen (parseArrayG s1) fun l? s2 =>
                match l? with
                | some l => .ok (Val.varr l) s2
                | none =>
                  andThen (parseString s2) fun st? s3 =>
                    match st? with
                    | some v => .ok (Val.vstr v) s3
                    | none =>
                      andThen (parseNumber s3) fun n? s4 =>
                        .ok (match n? with | some v => Val.vnum v | none => Val.vnull) s4)
            fun v s2 => .ok (objSet o kw v) (parseSymbol ',' s2))
    [] s2) fun o s3 =>
  andThen (strictParseSymbol '}' s3) fun _ s4 => .ok (pfx, o) s4

/-!
Enumeration values.  `FilterMode`, `LineType`, `LayerShading`,
`MaterialRenderMode`, `TextureFlags`, `CollisionShapeType` and `LightType` have
their numeric values fixed by the spec (§6).  The shared data-model module
(`../model`) defining the enums is not among the sources, so the remaining
values are modelled from the spec: `NodeFlags` and the node-type tag bits are
implementer-chosen but must be single bits with the tag bits in a range
disjoint from the behavioural `NodeFlags` bits (spec §3, §6); the
`ParticleEmitterFlags` / `ParticleEmitter2Flags` / frame / filter values are
likewise chosen here as distinct low values disjoint from the tag bits.
-/

def layerShadingVal (k : String) : Nat :=
  if k = "Unshaded" then 1 else if k = "SphereEnvMap" then 2
  else if k = "TwoSided" then 16 else if k = "Unfogged" then 32
  else if k = "NoDepthTest" then 64 else if k = "NoDepthSet" then 128 else 0

def materialRenderModeVal (k : String) : Nat :=
  if k = "ConstantColor" then 1 else if k = "SortPrimsFarZ" then 16
  else if k = "FullResolution" then 32 else 0

def filterModeVal (k : String) : Nat :=
  if k = "None" then 0 else if k = "Transparent" then 1
  else if k = "Blend" then 2 else if k = "Additive" then 3
  else if k = "AddAlpha" then 4 else if k = "Modulate" then 5
  else if k = "Modulate2x" then 6 else 0

/-- Modelled from the spec: behavioural node flags, single bits. -/
def nodeFlagsVal (k : String) : Nat :=
  if k = "DontInheritTranslation" then 1 else if k = "DontInheritRotation" then 2
  else if k = "DontInheritScaling" then 4 else if k = "Billboarded" then 8
  else if k = "BillboardedLockX" then 16 else if k = "BillboardedLockY" then 32
  else if k = "BillboardedLockZ" then 64 else if k = "CameraAnchored" then 128
  else 0

/-- Modelled from the spec: node-type tag bits, one distinct bit per node
kind, in a range disjoint from `nodeFlagsVal`. -/
def nodeTypeVal (k : String) : Nat :=
  if k = "Bone" then 256 else if k = "Helper" then 512
  else if k = "Attachment" then 1024 else if k = "EventObject" then 2048
  else if k = "CollisionShape" then 4096 else if k = "ParticleEmitter" then 8192
  else if k = "Light" then 16384 else if k = "RibbonEmitter" then 32768 else 0

/-- Modelled from the spec: legacy particle-emitter flags. -/
def peFlagsVal (k : String) : Nat :=
  if k = "EmitterUsesMDL" then 1 else if k = "EmitterUsesTGA" then 2 else 0

/-- Modelled from the spec: ParticleEmitter2 flags. -/
def pe2FlagsVal (k : String) : Nat :=
  if k = "SortPrimsFarZ" then 1 else if k = "Unshaded" then 2
  else if k = "LineEmitter" then 4 else if k = "Unfogged" then 8
  else if k = "ModelSpace" then 16 else if k = "XYQuad" then 32 else 0

/-- Modelled from the spec: ParticleEmitter2 filter modes. -/
def pe2FilterVal (k : String) : Nat :=
  if k = "Transparent" then 1 else if k = "Blend" then 2
  else if k = "Additive" then 3 else if k = "AlphaKey" then 4
  else if k = "Modulate" then 5 else if k = "Modulate2x" then 6 else 0

def lightTypeVal (k : String) : Nat :=
  if k = "Omnidirectional" then 0 else if k = "Directional" then 1
  else if k = "Ambient" then 2 else 0

/-- Typed-array length from a JS number (`ToIndex`): NaN gives 0, negative
throws RangeError (`none`), fractional truncates. -/
def arrLenOf (x : JsNum) : Option Nat :=
  match x with
  | .nan => some 0
  | .fin m e => let t := jsTrunc m e; if t < 0 then none else some t.toNat

/-- Swap of entries 0 and 2 (the inline BGR→RGB swap of the source). -/
def swap02 (l : List JsNum) : List JsNum :=
  match l with
  | a :: b :: c :: rest => c :: b :: a :: rest
  | _ => l

/-- The per-keyframe BGR→RGB reversal loop of `parseGeosetAnim`/`parseLight`:
each `Vector` is reversed, and when `InTan` is present `InTan` and `OutTan`
are reversed too (in a parsed track `InTan` and `OutTan` are always present
together). -/
def revKeys (av : AnimVec) : AnimVec :=
  { av with
    Keys := av.Keys.map fun k =>
      match k.InTan with
      | none => { k with Vector := k.Vector.reverse }
      | some i =>
        { k with
          Vector := k.Vector.reverse
          InTan := some i.reverse
          OutTan := k.OutTan.map List.reverse } }

/-- A `Material` record (`{ RenderMode: 0, Layers: [] }` plus the optional
`PriorityPlane` property). -/
structure Material : Type where
  RenderMode : JsNum
  Layers : List Obj
  PriorityPlane : Option Val
deriving DecidableEq, Repr

/-- A `Geoset` record: the object literal of `parseGeoset`, with `Option`
encoding the `null` initialisations. -/
structure Geoset : Type where
  Vertices : Option (List JsNum)
  Normals : Option (List JsNum)
  TVertices : List (List JsNum)
  VertexGroup : Option (List JsNum)
  Faces : Option (List JsNum)
  Groups : Option (List (Option (List JsNum)))
  TotalGroupsCount : Option JsNum
  MinimumExtent : Option (List JsNum)
  MaximumExtent : Option (List JsNum)
  BoundsRadius : Option JsNum
  Anims : List Obj
  MaterialID : Option JsNum
  SelectionGroup : Option JsNum
  Unselectable : Bool
deriving DecidableEq, Repr

def geoset0 : Geoset :=
  ⟨none, none, [], none, none, none, none, none, none, none, [], none, none, false⟩

/-- The scene-graph root (`Model`), with the defaults of the driver. -/
structure Model : Type where
  Info : Obj
  Sequences : List Obj
  Textures : List Obj
  Materials : List Material
  Geosets : List Geoset
  GeosetAnims : List Obj
  Bones : List Obj
  Helpers : List Obj
  Attachments : List Obj
  Nodes : List (Option Obj)
  PivotPoints : List (Option (List JsNum))
  EventObjects : List Obj
  CollisionShapes : List Obj
  ParticleEmitters : List Obj
  ParticleEmitters2 : List Obj
  Cameras : List Obj
  Lights : List Obj
  RibbonEmitters : List Obj
  TextureAnims : List Obj
  GlobalSequences : List (Option JsNum)
  Version : Val
deriving DecidableEq, Repr

/-- The initial scene-graph of `parse`. -/
def initModel : Model where
  Info := [("Name", Val.vstr ""), ("MinimumExtent", Val.vnull),
    ("MaximumExtent", Val.vnull), ("BoundsRadius", Val.vnum jzero),
    ("BlendTime", Val.vnum (JsNum.fin 150 0))]
  Sequences := []
  Textures := []
  Materials := []
  Geosets := []
  GeosetAnims := []
  Bones := []
  Helpers := []
  Attachments := []
  Nodes := []
  PivotPoints := []
  EventObjects := []
  CollisionShapes := []
  ParticleEmitters := []
  ParticleEmitters2 := []
  Cameras := []
  Lights := []
  RibbonEmitters := []
  TextureAnims := []
  GlobalSequences := []
  Version := Val.vnum (JsNum.fin 800 0)

/-- `parseVersion`. -/
def parseVersion (m : Model) (s : St) : Res Model :=
  andThen (parseObject s) fun po s1 =>
    .ok (if valTruthy (objGet po.2 "FormatVersion") then
          { m with Version := (objGet po.2 "FormatVersion").getD Val.vnull }
         else m) s1

/-- `parseModelInfo`. -/
def parseModelInfo (m : Model) (s : St) : Res Model :=
  andThen (parseObject s) fun po s1 =>
    .ok { m with Info := objSet po.2 "Name" po.1 } s1

/-- `parseSequences`. -/
def parseSequences (m : Model) (s : St) : Res Model :=
  andThen (parseNumber s) fun _ s1 =>
  andThen (strictParseSymbol '{' s1) fun _ s2 =>
  andThen (runLoop (fun _ s => headIs '}' s)
    (fun (res : List Obj) s =>
      andThen (parseKeyword s) fun _ s1 =>
      andThen (parseObject s1) fun po s2 =>
        let o1 := objSet po.2 "Name" po.1
        let o2 := objSet o1 "NonLooping" (Val.vbool (objHas o1 "NonLooping"))
        .ok (res ++ [o2]) s2)
    [] s2) fun res s3 =>
  andThen (strictParseSymbol '}' s3) fun _ s4 =>
    .ok { m with Sequences := res } s4

/-- `parseTextures`: `WrapWidth`/`WrapHeight` promote to `Flags` bits and are
deleted from the record. -/
def parseTextures (m : Model) (s : St) : Res Model :=
  andThen (parseNumber s) fun _ s1 =>
  andThen (strictParseSymbol '{' s1) fun _ s2 =>
  andThen (runLoop (fun _ s => headIs '}' s)
    (fun (res : List Obj) s =>
      andThen (parseKeyword s) fun _ s1 =>
      andThen (parseObject s1) fun po s2 =>
        let o1 := objSet po.2 "Flags" (Val.vnum jzero)
        let o2 :=
          if objHas o1 "WrapWidth" then
            objDel (objSet o1 "Flags" (Val.vnum (jsAdd (valToNum (objGet o1 "Flags")) (JsNum.fin 1 0)))) "WrapWidth"
          else o1
        let o3 :=
          if objHas o2 "WrapHeight" then
            objDel (objSet o2 "Flags" (Val.vnum (jsAdd (valToNum (objGet o2 "Flags")) (JsNum.fin 2 0)))) "WrapHeight"
          else o2
        .ok (res ++ [o3]) s2)
    [] s2) fun res s3 =>
  andThen (strictParseSymbol '}' s3) fun _ s4 =>
    .ok { m with Textures := res } s4

/-- The initial record of `parseLayer`. -/
def layer0 : Obj :=
  [("Alpha", Val.vnull), ("TVertexAnimId", Val.vnull),
   ("Shading", Val.vnum jzero), ("CoordId", Val.vnum jzero)]

/-- One iteration of the property loop of `parseLayer`. -/
def parseLayerBody (res : Obj) (s : St) : Res Obj :=
  andThen (parseKeyword s) fun kw? s1 =>
        match kw? with
        | none => .err s1.length ("")
        | some kw0 =>
          andThen
            (if kw0 = "static" then
              andThen (parseKeyword s1) fun kw2? s2 =>
                .ok (true, kw2?.getD "null") s2
             else .ok (false, kw0) s1)
            fun sk s2 =>
          let isStatic := sk.1
          let kw := sk.2
          andThen
            (if ¬ isStatic ∧ kw = "TextureID" then
              andThen (parseAnimVector .INT1 s2) fun av s3 =>
                .ok (objSet res kw (Val.vanim av)) s3
            else if ¬ isStatic ∧ kw = "Alpha" then
              andThen (parseAnimVector .FLOAT1 s2) fun av s3 =>
                .ok (objSet res kw (Val.vanim av)) s3
            else if kw = "Unshaded" ∨ kw = "SphereEnvMap" ∨ kw = "TwoSided" ∨
                kw = "Unfogged" ∨ kw = "NoDepthTest" ∨ kw = "NoDepthSet" then
              .ok (objSet res "Shading" (jsOrV (objGet res "Shading") (layerShadingVal kw))) s2
            else if kw = "FilterMode" then
              andThen (parseKeyword s2) fun v? s3 =>
                match v? with
                | some v =>
                  if v = "None" ∨ v = "Transparent" ∨ v = "Blend" ∨ v = "Additive" ∨
                      v = "AddAlpha" ∨ v = "Modulate" ∨ v = "Modulate2x" then
                    .ok (objSet res "FilterMode" (Val.vnum (JsNum.fin (filterModeVal v : Int) 0))) s3
                  else .ok res s3
                | none => .ok res s3
            else if kw = "TVertexAnimId" then
              andThen (parseNumber s2) fun n? s3 =>
                .ok (objSet res "TVertexAnimId" (match n? with | some v => Val.vnum v | none => Val.vnull)) s3
            else
              andThen (parseNumber s2) fun n? s3 =>
                match n? with
                | some v => .ok (objSet res kw (Val.vnum v)) s3
                | none =>
                  andThen (parseKeyword s3) fun k2? s4 =>
                    .ok (objSet res kw (match k2? with | some v => Val.vstr v | none => Val.vnull)) s4)
            fun res1 s3 => .ok res1 (parseSymbol ',' s3)

/-- `parseLayer`.  After a `static` prefix the re-read keyword is not
null-checked by the source; a missing keyword there behaves as the property
name "null". -/
def parseLayer (s : St) : Res Obj :=
  andThen (strictParseSymbol '{' s) fun _ s1 =>
  andThen (runLoop (fun _ s => headIs '}' s) parseLayerBody layer0 s1) fun res s2 =>
  andThen (strictParseSymbol '}' s2) fun _ s3 => .ok res s3

/-- `parseMaterials`: strict-shape block; an unknown property throws a plain
`Error` without a byte offset. -/
def parseMaterials (m : Model) (s : St) : Res Model :=
  andThen (parseNumber s) fun _ s1 =>
  andThen (strictParseSymbol '{' s1) fun _ s2 =>
  andThen (runLoop (fun _ s => headIs '}' s)
    (fun (res : List Material) s =>
      andThen (parseKeyword s) fun _ s1 =>
      andThen (strictParseSymbol '{' s1) fun _ s2 =>
      andThen (runLoop (fun _ s => headIs '}' s)
        (fun (mat : Material) s =>
          andThen (parseKeyword s) fun kw? s1 =>
            match kw? with
            | none => .err s1.length ("")
            | some kw =>
              andThen
                (if kw = "Layer" then
                  andThen (parseLayer s1) fun l s2 =>
                    .ok { mat with Layers := mat.Layers ++ [l] } s2
                else if kw = "PriorityPlane" then
                  andThen (parseNumber s1) fun n? s2 =>
                    let pv : Val := match n? with | some v => Val.vnum v | none => Val.vnull
                    .ok { mat with PriorityPlane := some pv } s2
                else if kw = "ConstantColor" ∨ kw = "SortPrimsFarZ" ∨ kw = "FullResolution" then
                  let rm := jsOr mat.RenderMode (JsNum.fin (materialRenderModeVal kw : Int) 0)
                  .ok { mat with RenderMode := rm } s1
                else .jerr ("Unknown material property " ++ kw))
                fun mat1 s2 => .ok mat1 (parseSymbol ',' s2))
        ⟨jzero, [], none⟩ s2) fun mat s3 =>
      andThen (strictParseSymbol '}' s3) fun _ s4 =>
        .ok (res ++ [mat]) s4)
    [] s2) fun res s3 =>
  andThen (strictParseSymbol '}' s3) fun _ s4 =>
    .ok { m with Materials := res } s4

/-- The counted vertex-array reader of `parseGeoset`/`parseCollisionShape`:
`count` objects of `countPerObj` numbers each into one flat typed buffer, a
strict comma after each. -/
def parseVertexRows (countPerObj : Nat) (cnt : Nat) (b : Buf) (s : St) : Res Buf :=
  forN
    (fun i (b : Buf) s =>
      andThen (parseArrayInto b (i * countPerObj) s) fun b? s1 =>
        andThen (strictParseSymbol ',' s1) fun _ s2 =>
          .ok (b?.getD b) s2)
    cnt 0 b s

/-- `parseGeoset`.  An unknown keyword matches no branch and is silently
skipped (there is no fallback store in this handler). -/
def parseGeoset (m : Model) (s : St) : Res Model :=
  andThen (strictParseSymbol '{' s) fun _ s1 =>
  andThen (runLoop (fun _ s => headIs '}' s)
    (fun (g : Geoset) s =>
      andThen (parseKeyword s) fun kw? s1 =>
        match kw? with
        | none => .err s1.length ("")
        | some kw =>
          andThen
            (if kw = "Vertices" ∨ kw = "Normals" ∨ kw = "TVertices" then
              let countPerObj : Nat := if kw = "TVertices" then 2 else 3
              andThen (parseNumber s1) fun cnt? s2 =>
                let cv := cnt?.getD jzero
                match arrLenOf (jsMul cv (JsNum.fin (countPerObj : Int) 0)) with
                | none => .jerr ("RangeError: invalid typed array length")
                | some len =>
                  andThen (strictParseSymbol '{' s2) fun _ s3 =>
                  andThen (parseVertexRows countPerObj (jsLoopCount cv) (bufNew .f32 len) s3)
                    fun b s4 =>
                  andThen (strictParseSymbol '}' s4) fun _ s5 =>
                    if kw = "TVertices" then
                      .ok { g with TVertices := g.TVertices ++ [b.data] } s5
                    else if kw = "Vertices" then
                      .ok { g with Vertices := some b.data } s5
                    else .ok { g with Normals := some b.data } s5
            else if kw = "VertexGroup" then
              match g.Vertices with
              | none => .jerr ("TypeError: Cannot read properties of null")
              | some verts =>
                let b := bufNew .u8 (verts.length / 3)
                andThen (parseArrayInto b 0 s1) fun b? s2 =>
                  .ok { g with VertexGroup := some ((b?.getD b).data) } s2
            else if kw = "Faces" then
              andThen (parseNumber s1) fun _ s2 =>
              andThen (parseNumber s2) fun ic? s3 =>
                match arrLenOf (ic?.getD jzero) with
                | none => .jerr ("RangeError: invalid typed array length")
                | some len =>
                  let b := bufNew .u16 len
                  andThen (strictParseSymbol '{' s3) fun _ s4 =>
                  andThen (parseKeyword s4) fun _ s5 =>
                  andThen (strictParseSymbol '{' s5) fun _ s6 =>
                  andThen (parseArrayInto b 0 s6) fun b? s7 =>
                  andThen (strictParseSymbol '}' (parseSymbol ',' s7)) fun _ s8 =>
                  andThen (strictParseSymbol '}' s8) fun _ s9 =>
                    .ok { g with Faces := some ((b?.getD b).data) } s9
            else if kw = "Groups" then
              andThen (parseNumber s1) fun _ s2 =>
              andThen (parseNumber s2) fun tot? s3 =>
              andThen (strictParseSymbol '{' s3) fun _ s4 =>
              andThen (runLoop (fun _ s => headIs '}' s)
                (fun (groups : List (Option (List JsNum))) s =>
                  andThen (parseKeyword s) fun _ s1 =>
                  andThen (parseArrayG s1) fun l? s2 =>
                    .ok (groups ++ [l?]) (parseSymbol ',' s2))
                [] s4) fun groups s5 =>
              andThen (strictParseSymbol '}' s5) fun _ s6 =>
                .ok { g with TotalGroupsCount := tot?, Groups := some groups } s6
            else if kw = "MinimumExtent" ∨ kw = "MaximumExtent" then
              andThen (parseArrayInto (bufNew .f32 3) 0 s1) fun b? s2 =>
              andThen (strictParseSymbol ',' s2) fun _ s3 =>
                if kw = "MinimumExtent" then
                  .ok { g with MinimumExtent := b?.map Buf.data } s3
                else .ok { g with MaximumExtent := b?.map Buf.data } s3
            else if kw = "BoundsRadius" ∨ kw = "MaterialID" ∨ kw = "SelectionGroup" then
              andThen (parseNumber s1) fun n? s2 =>
              andThen (strictParseSymbol ',' s2) fun _ s3 =>
                if kw = "BoundsRadius" then .ok { g with BoundsRadius := n? } s3
                else if kw = "MaterialID" then .ok { g with MaterialID := n? } s3
                else .ok { g with SelectionGroup := n? } s3
            else if kw = "Anim" then
              andThen (parseObject s1) fun po s2 =>
                let o :=
                  if objGet po.2 "Alpha" = none then
                    objSet po.2 "Alpha" (Val.vnum (JsNum.fin 1 0))
                  else po.2
                .ok { g with Anims := g.Anims ++ [o] } s2
            else if kw = "Unselectable" then
              andThen (strictParseSymbol ',' s1) fun _ s2 =>
                .ok { g with Unselectable := true } s2
            else .ok g s1)
            fun g1 s2 => .ok g1 (parseSymbol ',' s2))
    geoset0 s1) fun g s2 =>
  andThen (strictParseSymbol '}' s2) fun _ s3 =>
    .ok { m with Geosets := m.Geosets ++ [g] } s3

/-- The initial record of `parseGeosetAnim`. -/
def geosetAnim0 : Obj :=
  [("GeosetId", Val.vnum (JsNum.fin (-1) 0)), ("Alpha", Val.vnum (JsNum.fin 1 0)),
   ("Color", Val.vnull), ("Flags", Val.vnum jzero)]

/-- `parseGeosetAnim`: static/animated duality for `Alpha` and `Color`, the
latter BGR-reversed (full `Array.reverse` on the static triple, per-keyframe
reversal on the animated track). -/
def parseGeosetAnim (m : Model) (s : St) : Res Model :=
  andThen (strictParseSymbol '{' s) fun _ s1 =>
  andThen (runLoop (fun _ s => headIs '}' s)
    (fun (res : Obj) s =>
      andThen (parseKeyword s) fun kw? s1 =>
        match kw? with
        | none => .err s1.length ("")
        | some kw0 =>
          andThen
            (if kw0 = "static" then
              andThen (parseKeyword s1) fun kw2? s2 =>
                .ok (true, kw2?.getD "null") s2
             else .ok (false, kw0) s1)
            fun sk s2 =>
          let isStatic := sk.1
          let kw := sk.2
          andThen
            (if kw = "Alpha" then
              if isStatic then
                andThen (parseNumber s2) fun n? s3 =>
                  let v : Val := match n? with | some x => Val.vnum x | none => Val.vnull
                  .ok (objSet res "Alpha" v) s3
              else
                andThen (parseAnimVector .FLOAT1 s2) fun av s3 =>
                  .ok (objSet res "Alpha" (Val.vanim av)) s3
            else if kw = "Color" then
              if isStatic then
                andThen (parseArrayInto (bufNew .f32 3) 0 s2) fun b? s3 =>
                  match b? with
                  | some b => .ok (objSet res "Color" (Val.varr b.data.reverse)) s3
                  | none => .jerr ("TypeError: Cannot read properties of null")
              else
                andThen (parseAnimVector .FLOAT3 s2) fun av s3 =>
                  .ok (objSet res "Color" (Val.vanim (revKeys av))) s3
            else if kw = "DropShadow" then
              .ok (objSet res "Flags" (jsOrV (objGet res "Flags") 1)) s2
            else
              andThen (parseNumber s2) fun n? s3 =>
                let v : Val := match n? with | some x => Val.vnum x | none => Val.vnull
                .ok (objSet res kw v) s3)
            fun res1 s3 => .ok res1 (parseSymbol ',' s3))
    geosetAnim0 s1) fun res s2 =>
  andThen (strictParseSymbol '}' s2) fun _ s3 =>
    .ok { m with GeosetAnims := m.GeosetAnims ++ [res] } s3

/-- Extend-and-set on the flat `Nodes` array (JS index assignment grows the
array with holes). -/
def setExtend (l : List (Option Obj)) (i : Nat) (x : Option Obj) :
    List (Option Obj) :=
  if i < l.length then l.set i x
  else l ++ List.replicate (i - l.length) none ++ [x]

/-- `model.Nodes[node.ObjectId] = node`: only a non-negative integral number
below `2^32 - 1` is an array index; any other `ObjectId` value (in particular
the initial `null`) sets a non-index property and leaves the array's elements
unchanged. -/
def nodesAssign (nodes : List (Option Obj)) (v : Option Val) (node : Obj) :
    List (Option Obj) :=
  match v with
  | some (.vnum x) =>
    match jsIntVal x with
    | some i =>
      if 0 ≤ i ∧ i < 2 ^ 32 - 1 then setExtend nodes i.toNat (some node)
      else nodes
    | none => nodes
  | _ => nodes

/-- The initial record of `parseNode` for the given node keyword. -/
def node0 (tname : String) (name? : Option String) : Obj :=
  [("Name", name?.elim Val.vnull Val.vstr), ("ObjectId", Val.vnull),
   ("Parent", Val.vnull), ("PivotPoint", Val.vnull),
   ("Flags", Val.vnum (JsNum.fin (nodeTypeVal tname : Int) 0))]

/-- One iteration of the property loop shared by Bone/Helper/Attachment. -/
def parseNodeBody (node : Obj) (s : St) : Res Obj :=
  andThen (parseKeyword s) fun kw? s1 =>
        match kw? with
        | none => .err s1.length ("")
        | some kw =>
          andThen
            (if kw = "Translation" ∨ kw = "Rotation" ∨ kw = "Scaling" ∨ kw = "Visibility" then
              let t : AVT :=
                if kw = "Rotation" then .FLOAT4
                else if kw = "Visibility" then .FLOAT1
                else .FLOAT3
              andThen (parseAnimVector t s1) fun av s2 =>
                .ok (objSet node kw (Val.vanim av)) s2
            else if kw = "BillboardedLockZ" ∨ kw = "BillboardedLockY" ∨ kw = "BillboardedLockX" ∨
                kw = "Billboarded" ∨ kw = "CameraAnchored" then
              .ok (objSet node "Flags" (jsOrV (objGet node "Flags") (nodeFlagsVal kw))) s1
            else if kw = "DontInherit" then
              andThen (strictParseSymbol '{' s1) fun _ s2 =>
              andThen (parseKeyword s2) fun v? s3 =>
                let bits : Nat :=
                  if v? = some ("Translation") then 1
                  else if v? = some ("Rotation") then 2
                  else if v? = some ("Scaling") then 4
                  else 0
                let node1 :=
                  if bits = 0 then node
                  else objSet node "Flags" (jsOrV (objGet node "Flags") bits)
                andThen (strictParseSymbol '}' s3) fun _ s4 => .ok node1 s4
            else if kw = "Path" then
              andThen (parseString s1) fun p? s2 =>
                .ok (objSet node "Path" (p?.elim Val.vnull Val.vstr)) s2
            else
              andThen (parseKeyword s1) fun k2? s2 =>
              andThen
                (match k2? with
                 | some v => .ok (Val.vstr v) s2
                 | none =>
                   andThen (parseNumber s2) fun n? s3 =>
                     .ok (match n? with | some v => Val.vnum v | none => Val.vnull) s3)
                fun v0 s3 =>
                let v : Val :=
                  if (kw = "GeosetId" ∧ v0 = Val.vstr "Multiple") ∨
                      (kw = "GeosetAnimId" ∧ v0 = Val.vstr "None") then Val.vnull
                  else v0
                .ok (objSet node kw v) s3)
            fun node1 s2 => .ok node1 (parseSymbol ',' s2)

/-- `parseNode` (shared by Bone/Helper/Attachment): after the body the node is
written into `model.Nodes` at index `node.ObjectId`. -/
def parseNode (tname : String) (m : Model) (s : St) : Res (Obj × Model) :=
  andThen (parseString s) fun name? s1 =>
  andThen (strictParseSymbol '{' s1) fun _ s2 =>
  andThen (runLoop (fun _ s => headIs '}' s) parseNodeBody (node0 tname name?) s2)
    fun node s3 =>
  andThen (strictParseSymbol '}' s3) fun _ s4 =>
    .ok (node, { m with Nodes := nodesAssign m.Nodes (objGet node "ObjectId") node }) s4

/-- `parseBone`. -/
def parseBone (m : Model) (s : St) : Res Model :=
  andThen (parseNode ("Bone") m s) fun nm s1 =>
    .ok { nm.2 with Bones := nm.2.Bones ++ [nm.1] } s1

/-- `parseHelper`. -/
def parseHelper (m : Model) (s : St) : Res Model :=
  andThen (parseNode ("Helper") m s) fun nm s1 =>
    .ok { nm.2 with Helpers := nm.2.Helpers ++ [nm.1] } s1

/-- `parseAttachment`. -/
def parseAttachment (m : Model) (s : St) : Res Model :=
  andThen (parseNode ("Attachment") m s) fun nm s1 =>
    .ok { nm.2 with Attachments := nm.2.Attachments ++ [nm.1] } s1

/-- `parsePivotPoints`: a counted list of 3-float arrays, stored positionally
(a missing array stores JS `null`, modelled as `none`). -/
def parsePivotPoints (m : Model) (s : St) : Res Model :=
  andThen (parseNumber s) fun cnt? s1 =>
  andThen (strictParseSymbol '{' s1) fun _ s2 =>
  andThen (forN
    (fun _ (res : List (Option (List JsNum))) s =>
      andThen (parseArrayInto (bufNew .f32 3) 0 s) fun b? s1 =>
      andThen (strictParseSymbol ',' s1) fun _ s2 =>
        .ok (res ++ [b?.map Buf.data]) s2)
    (jsLoopCount (cnt?.getD jzero)) 0 [] s2) fun res s3 =>
  andThen (strictParseSymbol '}' s3) fun _ s4 =>
    .ok { m with PivotPoints := res } s4

/-- The initial record of `parseEventObject`. -/
def eventObject0 (name? : Option String) : Obj :=
  [("Name", name?.elim Val.vnull Val.vstr), ("ObjectId", Val.vnull),
   ("Parent", Val.vnull), ("PivotPoint", Val.vnull), ("EventTrack", Val.vnull),
   ("Flags", Val.vnum (JsNum.fin (nodeTypeVal ("EventObject") : Int) 0))]

/-- `parseEventObject`: appended to both `EventObjects` and `Nodes`. -/
def parseEventObject (m : Model) (s : St) : Res Model :=
  andThen (parseString s) fun name? s1 =>
  andThen (strictParseSymbol '{' s1) fun _ s2 =>
  andThen (runLoop (fun _ s => headIs '}' s)
    (fun (res : Obj) s =>
      andThen (parseKeyword s) fun kw? s1 =>
        match kw? with
        | none => .err s1.length ("")
        | some kw =>
          andThen
            (if kw = "EventTrack" then
              andThen (parseNumber s1) fun cnt? s2 =>
                match arrLenOf (cnt?.getD jzero) with
                | none => .jerr ("RangeError: invalid typed array length")
                | some len =>
                  andThen (parseArrayInto (bufNew .u32 len) 0 s2) fun b? s3 =>
                    let v : Val := match b? with
                      | some b => Val.varr b.data
                      | none => Val.vnull
                    .ok (objSet res "EventTrack" v) s3
            else if kw = "Translation" ∨ kw = "Rotation" ∨ kw = "Scaling" then
              let t : AVT := if kw = "Rotation" then .FLOAT4 else .FLOAT3
              andThen (parseAnimVector t s1) fun av s2 =>
                .ok (objSet res kw (Val.vanim av)) s2
            else
              andThen (parseNumber s1) fun n? s2 =>
                let v : Val := match n? with | some x => Val.vnum x | none => Val.vnull
                .ok (objSet res kw v) s2)
            fun res1 s2 => .ok res1 (parseSymbol ',' s2))
    (eventObject0 name?) s2) fun res s3 =>
  andThen (strictParseSymbol '}' s3) fun _ s4 =>
    .ok { m with EventObjects := m.EventObjects ++ [res],
                 Nodes := m.Nodes ++ [some res] } s4

/-- The initial record of `parseCollisionShape` (Shape defaults to Box = 0). -/
def collisionShape0 (name? : Option String) : Obj :=
  [("Name", name?.elim Val.vnull Val.vstr), ("ObjectId", Val.vnull),
   ("Parent", Val.vnull), ("PivotPoint", Val.vnull), ("Shape", Val.vnum jzero),
   ("Vertices", Val.vnull),
   ("Flags", Val.vnum (JsNum.fin (nodeTypeVal ("CollisionShape") : Int) 0))]

/-- `parseCollisionShape`: appended to both `CollisionShapes` and `Nodes`. -/
def parseCollisionShape (m : Model) (s : St) : Res Model :=
  andThen (parseString s) fun name? s1 =>
  andThen (strictParseSymbol '{' s1) fun _ s2 =>
  andThen (runLoop (fun _ s => headIs '}' s)
    (fun (res : Obj) s =>
      andThen (parseKeyword s) fun kw? s1 =>
        match kw? with
        | none => .err s1.length ("")
        | some kw =>
          andThen
            (if kw = "Sphere" then
              .ok (objSet res "Shape" (Val.vnum (JsNum.fin 1 0))) s1
            else if kw = "Box" then
              .ok (objSet res "Shape" (Val.vnum jzero)) s1
            else if kw = "Vertices" then
              andThen (parseNumber s1) fun cnt? s2 =>
                let cv := cnt?.getD jzero
                match arrLenOf (jsMul cv (JsNum.fin 3 0)) with
                | none => .jerr ("RangeError: invalid typed array length")
                | some len =>
                  andThen (strictParseSymbol '{' s2) fun _ s3 =>
                  andThen (parseVertexRows 3 (jsLoopCount cv) (bufNew .f32 len) s3)
                    fun b s4 =>
                  andThen (strictParseSymbol '}' s4) fun _ s5 =>
                    .ok (objSet res "Vertices" (Val.varr b.data)) s5
            else if kw = "Translation" ∨ kw = "Rotation" ∨ kw = "Scaling" then
              let t : AVT := if kw = "Rotation" then .FLOAT4 else .FLOAT3
              andThen (parseAnimVector t s1) fun av s2 =>
                .ok (objSet res kw (Val.vanim av)) s2
            else
              andThen (parseNumber s1) fun n? s2 =>
                let v : Val := match n? with | some x => Val.vnum x | none => Val.vnull
                .ok (objSet res kw v) s2)
            fun res1 s2 => .ok res1 (parseSymbol ',' s2))
    (collisionShape0 name?) s2) fun res s3 =>
  andThen (strictParseSymbol '}' s3) fun _ s4 =>
    .ok { m with CollisionShapes := m.CollisionShapes ++ [res],
                 Nodes := m.Nodes ++ [some res] } s4

/-- `parseGlobalSequences`: a counted loop pushing `Duration` values. -/
def parseGlobalSequences (m : Model) (s : St) : Res Model :=
  andThen (parseNumber s) fun cnt? s1 =>
  andThen (strictParseSymbol '{' s1) fun _ s2 =>
  andThen (forN
    (fun _ (res : List (Option JsNum)) s =>
      andThen (parseKeyword s) fun kw? s1 =>
        if kw? = some ("Duration") then
          andThen (parseNumber s1) fun n? s2 =>
            .ok (res ++ [n?]) (parseSymbol ',' s2)
        else .ok res (parseSymbol ',' s1))
    (jsLoopCount (cnt?.getD jzero)) 0 [] s2) fun res s3 =>
  andThen (strictParseSymbol '}' s3) fun _ s4 =>
    .ok { m with GlobalSequences := res } s4

/-- The brace-counting scan of `parseUnknownBlock` after the opening brace. -/
def skipScan : Nat → St → St
  | _, [] => []
  | opened, c :: t =>
    if c = '{' then skipScan (opened + 1) t
    else if c = '}' then (if opened = 1 then t else skipScan (opened - 1) t)
    else skipScan opened t

/-- `parseUnknownBlock`: skip to the first `{` (or to the end of input), then
a balanced-brace region, then whitespace. -/
def parseUnknownBlock (s : St) : St :=
  let s1 := s.dropWhile (fun c => ¬ (c = '{'))
  match s1 with
  | [] => []
  | _ :: t => dropSpace (skipScan 1 t)

/-- The initial record of `parseParticleEmitter` (not a typed node: its Flags
start at 0 and it is not appended to `Nodes`). -/
def particleEmitter0 : Obj :=
  [("ObjectId", Val.vnull), ("Parent", Val.vnull), ("Name", Val.vnull),
   ("Flags", Val.vnum jzero)]

/-- The inner `Particle { ... }` loop body of `parseParticleEmitter`.  The
re-read keyword after `static` is not null-checked; an unknown or missing
keyword consumes nothing, which loops the source forever (handled by the
no-consumption check of `runLoop`). -/
def parseParticleInner (res : Obj) (s : St) : Res Obj :=
  andThen (parseKeyword s) fun kw0? s1 =>
  andThen
    (if kw0? = some ("static") then
      andThen (parseKeyword s1) fun kw2? s2 => .ok (true, kw2?.getD "null") s2
     else .ok (false, kw0?.getD "null") s1)
    fun sk s2 =>
  let isStatic := sk.1
  let kw := sk.2
  andThen
    (if ¬ isStatic ∧ (kw = "LifeSpan" ∨ kw = "InitVelocity") then
      andThen (parseAnimVector .FLOAT1 s2) fun av s3 =>
        .ok (objSet res kw (Val.vanim av)) s3
    else if kw = "LifeSpan" ∨ kw = "InitVelocity" then
      andThen (parseNumber s2) fun n? s3 =>
        let v : Val := match n? with | some x => Val.vnum x | none => Val.vnull
        .ok (objSet res kw v) s3
    else if kw = "Path" then
      andThen (parseString s2) fun p? s3 =>
        .ok (objSet res "Path" (p?.elim Val.vnull Val.vstr)) s3
    else .ok res s2)
    fun res1 s3 => .ok res1 (parseSymbol ',' s3)

/-- `parseParticleEmitter` (legacy): appended to `ParticleEmitters` only. -/
def parseParticleEmitter (m : Model) (s : St) : Res Model :=
  andThen (parseString s) fun name? s1 =>
  let res0 := objSet particleEmitter0 "Name" (name?.elim Val.vnull Val.vstr)
  andThen (strictParseSymbol '{' s1) fun _ s2 =>
  andThen (runLoop (fun _ s => headIs '}' s)
    (fun (res : Obj) s =>
      andThen (parseKeyword s) fun kw? s1 =>
        match kw? with
        | none => .err s1.length ("")
        | some kw0 =>
          andThen
            (if kw0 = "static" then
              andThen (parseKeyword s1) fun kw2? s2 =>
                .ok (true, kw2?.getD "null") s2
             else .ok (false, kw0) s1)
            fun sk s2 =>
          let isStatic := sk.1
          let kw := sk.2
          andThen
            (if kw = "ObjectId" ∨ kw = "Parent" then
              andThen (parseNumber s2) fun n? s3 =>
                let v : Val := match n? with | some x => Val.vnum x | none => Val.vnull
                .ok (objSet res kw v) s3
            else if kw = "EmitterUsesMDL" ∨ kw = "EmitterUsesTGA" then
              .ok (objSet res "Flags" (jsOrV (objGet res "Flags") (peFlagsVal kw))) s2
            else if ¬ isStatic ∧ (kw = "Visibility" ∨ kw = "Translation" ∨ kw = "Rotation" ∨
                kw = "Scaling" ∨ kw = "EmissionRate" ∨ kw = "Gravity" ∨ kw = "Longitude" ∨
                kw = "Latitude") then
              let t : AVT :=
                if kw = "Visibility" ∨ kw = "EmissionRate" ∨ kw = "Gravity" ∨
                    kw = "Longitude" ∨ kw = "Latitude" then .FLOAT1
                else if kw = "Rotation" then .FLOAT4
                else .FLOAT3
              andThen (parseAnimVector t s2) fun av s3 =>
                .ok (objSet res kw (Val.vanim av)) s3
            else if kw = "Particle" then
              andThen (strictParseSymbol '{' s2) fun _ s3 =>
              andThen (runLoop (fun _ s => headIs '}' s) parseParticleInner res s3)
                fun res1 s4 =>
              andThen (strictParseSymbol '}' s4) fun _ s5 => .ok res1 s5
            else
              andThen (parseNumber s2) fun n? s3 =>
                let v : Val := match n? with | some x => Val.vnum x | none => Val.vnull
                .ok (objSet res kw v) s3)
            fun res1 s3 => .ok res1 (parseSymbol ',' s3))
    res0 s2) fun res s3 =>
  andThen (strictParseSymbol '}' s3) fun _ s4 =>
    .ok { m with ParticleEmitters := m.ParticleEmitters ++ [res] } s4

/-- The initial record of `parseParticleEmitter2`. -/
def particleEmitter20 (name? : Option String) : Obj :=
  [("Name", name?.elim Val.vnull Val.vstr), ("ObjectId", Val.vnull),
   ("Parent", Val.vnull), ("PivotPoint", Val.vnull),
   ("Flags", Val.vnum (JsNum.fin (nodeTypeVal ("ParticleEmitter") : Int) 0)),
   ("FrameFlags", Val.vnum jzero)]

/-- `parseParticleEmitter2`: appended to both `ParticleEmitters2` and
`Nodes`.  `SegmentColor` triples and nothing else are BGR-swapped here. -/
def parseParticleEmitter2 (m : Model) (s : St) : Res Model :=
  andThen (parseString s) fun name? s1 =>
  andThen (strictParseSymbol '{' s1) fun _ s2 =>
  andThen (runLoop (fun _ s => headIs '}' s)
    (fun (res : Obj) s =>
      andThen (parseKeyword s) fun kw? s1 =>
        match kw? with
        | none => .err s1.length ("")
        | some kw0 =>
          andThen
            (if kw0 = "static" then
              andThen (parseKeyword s1) fun kw2? s2 =>
                .ok (true, kw2?.getD "null") s2
             else .ok (false, kw0) s1)
            fun sk s2 =>
          let isStatic := sk.1
          let kw := sk.2
          andThen
            (if ¬ isStatic ∧ (kw = "Speed" ∨ kw = "Latitude" ∨ kw = "Visibility" ∨
                kw = "EmissionRate" ∨ kw = "Width" ∨ kw = "Length" ∨ kw = "Translation" ∨
                kw = "Rotation" ∨ kw = "Scaling" ∨ kw = "Gravity" ∨ kw = "Variation") then
              let t : AVT :=
                if kw = "Rotation" then .FLOAT4
                else if kw = "Translation" ∨ kw = "Scaling" then .FLOAT3
                else .FLOAT1
              andThen (parseAnimVector t s2) fun av s3 =>
                .ok (objSet res kw (Val.vanim av)) s3
            else if kw = "Variation" ∨ kw = "Gravity" then
              andThen (parseNumber s2) fun n? s3 =>
                let v : Val := match n? with | some x => Val.vnum x | none => Val.vnull
                .ok (objSet res kw v) s3
            else if kw = "SortPrimsFarZ" ∨ kw = "Unshaded" ∨ kw = "LineEmitter" ∨
                kw = "Unfogged" ∨ kw = "ModelSpace" ∨ kw = "XYQuad" then
              .ok (objSet res "Flags" (jsOrV (objGet res "Flags") (pe2FlagsVal kw))) s2
            else if kw = "Both" then
              .ok (objSet res "FrameFlags" (jsOrV (objGet res "FrameFlags") 3)) s2
            else if kw = "Head" then
              .ok (objSet res "FrameFlags" (jsOrV (objGet res "FrameFlags") 1)) s2
            else if kw = "Tail" then
              .ok (objSet res "FrameFlags" (jsOrV (objGet res "FrameFlags") 2)) s2
            else if kw = "Squirt" then
              .ok (objSet res "Squirt" (Val.vbool true)) s2
            else if kw = "DontInherit" then
              andThen (strictParseSymbol '{' s2) fun _ s3 =>
              andThen (parseKeyword s3) fun v? s4 =>
                let bits : Nat :=
                  if v? = some ("Translation") then 1
                  else if v? = some ("Rotation") then 2
                  else if v? = some ("Scaling") then 4
                  else 0
                let res1 :=
                  if bits = 0 then res
                  else objSet res "Flags" (jsOrV (objGet res "Flags") bits)
                andThen (strictParseSymbol '}' s4) fun _ s5 => .ok res1 s5
            else if kw = "SegmentColor" then
              andThen (strictParseSymbol '{' s2) fun _ s3 =>
              andThen (runLoop (fun _ s => headIs '}' s)
                (fun (colors : List (List JsNum)) s =>
                  andThen (parseKeyword s) fun _ s1 =>
                  andThen (parseArrayInto (bufNew .f32 3) 0 s1) fun b? s2 =>
                    let arr := (b?.getD (bufNew .f32 3)).data
                    .ok (colors ++ [swap02 arr]) (parseSymbol ',' s2))
                [] s3) fun colors s4 =>
              andThen (strictParseSymbol '}' s4) fun _ s5 =>
                .ok (objSet res "SegmentColor" (Val.varrs colors)) s5
            else if kw = "Alpha" then
              let b := bufNew .u8 3
              andThen (parseArrayInto b 0 s2) fun b? s3 =>
                .ok (objSet res "Alpha" (Val.varr ((b?.getD b).data))) s3
            else if kw = "ParticleScaling" then
              let b := bufNew .f32 3
              andThen (parseArrayInto b 0 s2) fun b? s3 =>
                .ok (objSet res "ParticleScaling" (Val.varr ((b?.getD b).data))) s3
            else if kw = "LifeSpanUVAnim" ∨ kw = "DecayUVAnim" ∨ kw = "TailUVAnim" ∨
                kw = "TailDecayUVAnim" then
              let b := bufNew .u32 3
              andThen (parseArrayInto b 0 s2) fun b? s3 =>
                .ok (objSet res kw (Val.varr ((b?.getD b).data))) s3
            else if kw = "Transparent" ∨ kw = "Blend" ∨ kw = "Additive" ∨
                kw = "AlphaKey" ∨ kw = "Modulate" ∨ kw = "Modulate2x" then
              .ok (objSet res "FilterMode" (Val.vnum (JsNum.fin (pe2FilterVal kw : Int) 0))) s2
            else
              andThen (parseNumber s2) fun n? s3 =>
                let v : Val := match n? with | some x => Val.vnum x | none => Val.vnull
                .ok (objSet res kw v) s3)
            fun res1 s3 => .ok res1 (parseSymbol ',' s3))
    (particleEmitter20 name?) s2) fun res s3 =>
  andThen (strictParseSymbol '}' s3) fun _ s4 =>
    .ok { m with ParticleEmitters2 := m.ParticleEmitters2 ++ [res],
                 Nodes := m.Nodes ++ [some res] } s4

/-- The initial record of `parseCamera`. -/
def camera0 (name? : Option String) : Obj :=
  [("Name", name?.elim Val.vnull Val.vstr), ("Position", Val.vnull),
   ("FieldOfView", Val.vnum jzero), ("NearClip", Val.vnum jzero),
   ("FarClip", Val.vnum jzero), ("TargetPosition", Val.vnull)]

/-- `parseCamera`: fixed branches, no fallback (an unknown keyword is read and
ignored), `Rotation` is an arity-1 (roll-only) track; appended to `Cameras`
only. -/
def parseCamera (m : Model) (s : St) : Res Model :=
  andThen (parseString s) fun name? s1 =>
  andThen (strictParseSymbol '{' s1) fun _ s2 =>
  andThen (runLoop (fun _ s => headIs '}' s)
    (fun (res : Obj) s =>
      andThen (parseKeyword s) fun kw? s1 =>
        match kw? with
        | none => .err s1.length ("")
        | some kw =>
          andThen
            (if kw = "Position" then
              let b := bufNew .f32 3
              andThen (parseArrayInto b 0 s1) fun b? s2 =>
                .ok (objSet res "Position" (Val.varr ((b?.getD b).data))) s2
            else if kw = "FieldOfView" ∨ kw = "NearClip" ∨ kw = "FarClip" then
              andThen (parseNumber s1) fun n? s2 =>
                let v : Val := match n? with | some x => Val.vnum x | none => Val.vnull
                .ok (objSet res kw v) s2
            else if kw = "Target" then
              andThen (strictParseSymbol '{' s1) fun _ s2 =>
              andThen (runLoop (fun _ s => headIs '}' s)
                (fun (res : Obj) s =>
                  andThen (parseKeyword s) fun kw2? s1 =>
                  andThen
                    (if kw2? = some ("Position") then
                      let b := bufNew .f32 3
                      andThen (parseArrayInto b 0 s1) fun b? s2 =>
                        .ok (objSet res "TargetPosition" (Val.varr ((b?.getD b).data))) s2
                    else if kw2? = some ("Translation") then
                      andThen (parseAnimVector .FLOAT3 s1) fun av s2 =>
                        .ok (objSet res "TargetTranslation" (Val.vanim av)) s2
                    else .ok res s1)
                    fun res1 s2 => .ok res1 (parseSymbol ',' s2))
                res s2) fun res1 s3 =>
              andThen (strictParseSymbol '}' s3) fun _ s4 => .ok res1 s4
            else if kw = "Translation" ∨ kw = "Rotation" then
              let t : AVT := if kw = "Rotation" then .FLOAT1 else .FLOAT3
              andThen (parseAnimVector t s1) fun av s2 =>
                .ok (objSet res kw (Val.vanim av)) s2
            else .ok res s1)
            fun res1 s2 => .ok res1 (parseSymbol ',' s2))
    (camera0 name?) s2) fun res s3 =>
  andThen (strictParseSymbol '}' s3) fun _ s4 =>
    .ok { m with Cameras := m.Cameras ++ [res] } s4

/-- The initial record of `parseLight`. -/
def light0 (name? : Option String) : Obj :=
  [("Name", name?.elim Val.vnull Val.vstr), ("ObjectId", Val.vnull),
   ("Parent", Val.vnull), ("PivotPoint", Val.vnull),
   ("Flags", Val.vnum (JsNum.fin (nodeTypeVal ("Light") : Int) 0)),
   ("LightType", Val.vnum jzero)]

/-- `parseLight`: appended to both `Lights` and `Nodes`; static and animated
`Color`/`AmbColor` are BGR-reversed. -/
def parseLight (m : Model) (s : St) : Res Model :=
  andThen (parseString s) fun name? s1 =>
  andThen (strictParseSymbol '{' s1) fun _ s2 =>
  andThen (runLoop (fun _ s => headIs '}' s)
    (fun (res : Obj) s =>
      andThen (parseKeyword s) fun kw? s1 =>
        match kw? with
        | none => .err s1.length ("")
        | some kw0 =>
          andThen
            (if kw0 = "static" then
              andThen (parseKeyword s1) fun kw2? s2 =>
                .ok (true, kw2?.getD "null") s2
             else .ok (false, kw0) s1)
            fun sk s2 =>
          let isStatic := sk.1
          let kw := sk.2
          andThen
            (if ¬ isStatic ∧ (kw = "Visibility" ∨ kw = "Color" ∨ kw = "Intensity" ∨
                kw = "AmbIntensity" ∨ kw = "AmbColor" ∨ kw = "Translation" ∨
                kw = "Rotation" ∨ kw = "Scaling" ∨ kw = "AttenuationStart" ∨
                kw = "AttenuationEnd") then
              let t : AVT :=
                if kw = "Rotation" then .FLOAT4
                else if kw = "Visibility" ∨ kw = "Intensity" ∨ kw = "AmbIntensity" ∨
                    kw = "AttenuationStart" ∨ kw = "AttenuationEnd" then .FLOAT1
                else .FLOAT3
              andThen (parseAnimVector t s2) fun av s3 =>
                let av1 := if kw = "Color" ∨ kw = "AmbColor" then revKeys av else av
                .ok (objSet res kw (Val.vanim av1)) s3
            else if kw = "Omnidirectional" ∨ kw = "Directional" ∨ kw = "Ambient" then
              .ok (objSet res "LightType" (Val.vnum (JsNum.fin (lightTypeVal kw : Int) 0))) s2
            else if kw = "Color" ∨ kw = "AmbColor" then
              let b := bufNew .f32 3
              andThen (parseArrayInto b 0 s2) fun b? s3 =>
                .ok (objSet res kw (Val.varr (swap02 ((b?.getD b).data)))) s3
            else
              andThen (parseNumber s2) fun n? s3 =>
                let v : Val := match n? with | some x => Val.vnum x | none => Val.vnull
                .ok (objSet res kw v) s3)
            fun res1 s3 => .ok res1 (parseSymbol ',' s3))
    (light0 name?) s2) fun res s3 =>
  andThen (strictParseSymbol '}' s3) fun _ s4 =>
    .ok { m with Lights := m.Lights ++ [res],
                 Nodes := m.Nodes ++ [some res] } s4

/-- `parseTextureAnims`: strict-shape `TVertexAnim` sub-blocks; an unknown
property throws a plain `Error` without a byte offset. -/
def parseTextureAnims (m : Model) (s : St) : Res Model :=
  andThen (parseNumber s) fun _ s1 =>
  andThen (strictParseSymbol '{' s1) fun _ s2 =>
  andThen (runLoop (fun _ s => headIs '}' s)
    (fun (res : List Obj) s =>
      andThen (parseKeyword s) fun _ s1 =>
      andThen (strictParseSymbol '{' s1) fun _ s2 =>
      andThen (runLoop (fun _ s => headIs '}' s)
        (fun (o : Obj) s =>
          andThen (parseKeyword s) fun kw? s1 =>
            match kw? with
            | none => .err s1.length ("")
            | some kw =>
              if kw = "Translation" ∨ kw = "Rotation" ∨ kw = "Scaling" then
                let t : AVT := if kw = "Rotation" then .FLOAT4 else .FLOAT3
                andThen (parseAnimVector t s1) fun av s2 =>
                  .ok (objSet o kw (Val.vanim av)) (parseSymbol ',' s2)
              else .jerr ("Unknown texture anim property " ++ kw))
        [] s2) fun o s3 =>
      andThen (strictParseSymbol '}' s3) fun _ s4 =>
        .ok (res ++ [o]) s4)
    [] s2) fun res s3 =>
  andThen (strictParseSymbol '}' s3) fun _ s4 =>
    .ok { m with TextureAnims := res } s4

/-- The initial record of `parseRibbonEmitter`. -/
def ribbonEmitter0 (name? : Option String) : Obj :=
  [("Name", name?.elim Val.vnull Val.vstr), ("ObjectId", Val.vnull),
   ("Parent", Val.vnull), ("PivotPoint", Val.vnull),
   ("Flags", Val.vnum (JsNum.fin (nodeTypeVal ("RibbonEmitter") : Int) 0)),
   ("HeightAbove", Val.vnull), ("HeightBelow", Val.vnull), ("Alpha", Val.vnull),
   ("Color", Val.vnull), ("LifeSpan", Val.vnull), ("TextureSlot", Val.vnull),
   ("EmissionRate", Val.vnull), ("Rows", Val.vnull), ("Columns", Val.vnull),
   ("MaterialID", Val.vnull), ("Gravity", Val.vnull), ("Visibility", Val.vnull)]

/-- `parseRibbonEmitter`: appended to both `RibbonEmitters` and `Nodes`;
static `Color` BGR-swapped. -/
def parseRibbonEmitter (m : Model) (s : St) : Res Model :=
  andThen (parseString s) fun name? s1 =>
  andThen (strictParseSymbol '{' s1) fun _ s2 =>
  andThen (runLoop (fun _ s => headIs '}' s)
    (fun (res : Obj) s =>
      andThen (parseKeyword s) fun kw? s1 =>
        match kw? with
        | none => .err s1.length ("")
        | some kw0 =>
          andThen
            (if kw0 = "static" then
              andThen (parseKeyword s1) fun kw2? s2 =>
                .ok (true, kw2?.getD "null") s2
             else .ok (false, kw0) s1)
            fun sk s2 =>
          let isStatic := sk.1
          let kw := sk.2
          andThen
            (if ¬ isStatic ∧ (kw = "Visibility" ∨ kw = "HeightAbove" ∨ kw = "HeightBelow" ∨
                kw = "Translation" ∨ kw = "Rotation" ∨ kw = "Scaling" ∨ kw = "Alpha" ∨
                kw = "TextureSlot") then
              let t : AVT :=
                if kw = "Rotation" then .FLOAT4
                else if kw = "Visibility" ∨ kw = "HeightAbove" ∨ kw = "HeightBelow" ∨
                    kw = "Alpha" then .FLOAT1
                else if kw = "TextureSlot" then .INT1
                else .FLOAT3
              andThen (parseAnimVector t s2) fun av s3 =>
                .ok (objSet res kw (Val.vanim av)) s3
            else if kw = "Color" then
              let b := bufNew .f32 3
              andThen (parseArrayInto b 0 s2) fun b? s3 =>
                .ok (objSet res "Color" (Val.varr (swap02 ((b?.getD b).data)))) s3
            else
              andThen (parseNumber s2) fun n? s3 =>
                let v : Val := match n? with | some x => Val.vnum x | none => Val.vnull
                .ok (objSet res kw v) s3)
            fun res1 s3 => .ok res1 (parseSymbol ',' s3))
    (ribbonEmitter0 name?) s2) fun res s3 =>
  andThen (strictParseSymbol '}' s3) fun _ s4 =>
    .ok { m with RibbonEmitters := m.RibbonEmitters ++ [res],
                 Nodes := m.Nodes ++ [some res] } s4

/-- The twenty registered top-level keywords (the own properties of the
`parsers` object). -/
def parserNames : List String :=
  ["Version", "Model", "Sequences", "Textures", "Materials", "Geoset",
   "GeosetAnim", "Bone", "Helper", "Attachment", "PivotPoints", "EventObject",
   "CollisionShape", "GlobalSequences", "ParticleEmitter", "ParticleEmitter2",
   "Camera", "Light", "TextureAnims", "RibbonEmitter"]

/-- The `parsers` object is a plain object literal, so the JS `in` operator
used by the driver also finds the inherited members of `Object.prototype`
whose names are scannable keywords.  Calling such an inherited function with
`(state, model)` returns a value (discarded) without consuming input or
touching the model. -/
def protoNames : List String :=
  ["constructor", "hasOwnProperty", "isPrototypeOf", "propertyIsEnumerable",
   "toLocaleString", "toString", "valueOf"]

/-- Keyword dispatch of the driver (`parsers[keyword](state, model)`). -/
def dispatchKw (kw : String) (m : Model) (s : St) : Res Model :=
  if kw = "Version" then parseVersion m s
  else if kw = "Model" then parseModelInfo m s
  else if kw = "Sequences" then parseSequences m s
  else if kw = "Textures" then parseTextures m s
  else if kw = "Materials" then parseMaterials m s
  else if kw = "Geoset" then parseGeoset m s
  else if kw = "GeosetAnim" then parseGeosetAnim m s
  else if kw = "Bone" then parseBone m s
  else if kw = "Helper" then parseHelper m s
  else if kw = "Attachment" then parseAttachment m s
  else if kw = "PivotPoints" then parsePivotPoints m s
  else if kw = "EventObject" then parseEventObject m s
  else if kw = "CollisionShape" then parseCollisionShape m s
  else if kw = "GlobalSequences" then parseGlobalSequences m s
  else if kw = "ParticleEmitter" then parseParticleEmitter m s
  else if kw = "ParticleEmitter2" then parseParticleEmitter2 m s
  else if kw = "Camera" then parseCamera m s
  else if kw = "Light" then parseLight m s
  else if kw = "TextureAnims" then parseTextureAnims m s
  else if kw = "RibbonEmitter" then parseRibbonEmitter m s
  else .ok m s

/-- The driver loop of `parse`: skip comments, read a keyword (none at all
ends parsing), dispatch registered keywords (including the inherited no-op
prototype members found by `in`), skip unknown blocks. -/
def topGo : Nat → Model → St → Res Model
  | 0, _, _ => .oof
  | fuel + 1, m, s =>
    match s with
    | [] => .ok m s
    | _ =>
      let s1 := skipComments (s.length + 1) s
      andThen (parseKeyword s1) fun kw? s2 =>
        match kw? with
        | none => .ok m s2
        | some kw =>
          if kw ∈ parserNames ∨ kw ∈ protoNames then
            andThen (dispatchKw kw m s2) fun m1 s3 =>
              if s3.length < s.length then topGo fuel m1 s3 else .div
          else
            let s3 := parseUnknownBlock s2
            if s3.length < s.length then topGo fuel m s3 else .div

/-- The finalization pass: for each index of `Nodes` with a truthy
`PivotPoints` entry, assign the node's `PivotPoint`; a hole in `Nodes` at such
an index crashes with a TypeError in the source. -/
def finalizeN (pivots : List (Option (List JsNum))) :
    Nat → Nat → List (Option Obj) → Res (List (Option Obj))
  | 0, _, nodes => .ok nodes []
  | k + 1, i, nodes =>
    match pivots.getD i none with
    | none => finalizeN pivots k (i + 1) nodes
    | some pv =>
      match nodes.getD i none with
      | none => .jerr ("TypeError: Cannot set properties of undefined")
      | some node =>
        finalizeN pivots k (i + 1)
          (nodes.set i (some (objSet node "PivotPoint" (Val.varr pv))))

/-- The finalization pass over a whole model. -/
def finalize (m : Model) : Res Model :=
  andThen (finalizeN m.PivotPoints m.Nodes.length 0 m.Nodes) fun nodes _ =>
    .ok { m with Nodes := nodes } []

/-- The whole `parse` on a character list, before offset reconstruction. -/
def parseCore (cs : St) : Res Model :=
  andThen (topGo (cs.length + 1) initModel cs) fun m _ => finalize m

/-- The observable outcome of `parse(source)`:  a scene, a `SyntaxError`
carrying a byte offset (thrown by `throwError`), a plain `Error` carrying no
offset, non-termination, or fuel exhaustion (unreachable). -/
inductive PResult : Type where
  | scene : Model → PResult
  | syntaxErr : Nat → String → PResult
  | plainErr : String → PResult
  | hang : PResult
  | fuelOut : PResult
deriving DecidableEq, Repr

/-- The public `parse`. -/
def mdlParse (str : String) : PResult :=
  let cs := str.data
  match parseCore cs with
  | .ok m _ => .scene m
  | .err rem msg => .syntaxErr (cs.length - rem) msg
  | .jerr msg => .plainErr msg
  | .div => .hang
  | .oof => .fuelOut

/-- The scene of a successful parse, if any. -/
def parseOk (str : String) : Option Model :=
  match mdlParse str with
  | .scene m => some m
  | _ => none

/-- A well-formed keyword token: letter first, alphanumerics after. -/
def isKwToken (k : List Char) : Bool :=
  match k with
  | [] => false
  | c :: t => isKwFirst c ∧ t.all isKwOther

/-- A well-formed number token as `parseNumber` cuts it out. -/
def isNumToken (k : List Char) : Bool :=
  match k with
  | [] => false
  | c :: t => isNumFirst c ∧ t.all isNumOther

/-- Well-formedness of one keyframe on a channel of arity `n` under
interpolation mode `lt`: the vector has length `n`; tangents are present with
length `n` exactly in the Hermite/Bezier modes. -/
def kfWF (n : Nat) (lt : LineT) (k : Keyframe) : Prop :=
  k.Vector.length = n ∧
  (if lt = LineT.Hermite ∨ lt = LineT.Bezier then
    (∃ i, k.InTan = some i ∧ i.length = n) ∧ (∃ o, k.OutTan = some o ∧ o.length = n)
  else k.InTan = none ∧ k.OutTan = none)

/-- Well-formedness of an animated track on a channel of arity `n`. -/
def avWF (n : Nat) (av : AnimVec) : Prop :=
  ∀ k ∈ av.Keys, kfWF n av.LineType k

/-- Balanced-brace character lists (the contents between the outer braces of
an unknown block). -/
inductive Bal : List Char → Prop where
  | nil : Bal []
  | ch : ∀ (c : Char) (cs : List Char), ¬ c = '{' → ¬ c = '}' → Bal cs → Bal (c :: cs)
  | nest : ∀ (a b : List Char), Bal a → Bal b → Bal ('{' :: (a ++ '}' :: b))

/-- The six `LayerShading` flag keywords. -/
inductive ShKw : Type where
  | Unshaded | SphereEnvMap | TwoSided | Unfogged | NoDepthTest | NoDepthSet
deriving DecidableEq, Repr

def shName : ShKw → String
  | .Unshaded => "Unshaded"
  | .SphereEnvMap => "SphereEnvMap"
  | .TwoSided => "TwoSided"
  | .Unfogged => "Unfogged"
  | .NoDepthTest => "NoDepthTest"
  | .NoDepthSet => "NoDepthSet"

def shVal (k : ShKw) : Nat := layerShadingVal (shName k)

/-- Render a list of shading flag keywords as a Layer-block body fragment:
each keyword followed by a comma and a space. -/
def renderFlags (ls : List ShKw) : List Char :=
  ls.foldr (fun k acc => (shName k).data ++ ',' :: ' ' :: acc) []

/-- Bitwise OR of the values of a list of shading keywords. -/
def orFold (ls : List ShKw) : Nat := ls.foldl (fun a k => Nat.lor a (shVal k)) 0

/-- The behavioural flag constructs a Bone/Helper/Attachment body can carry:
a bare billboard-family keyword or a `DontInherit { ... }` construct. -/
inductive NFItem : Type where
  | billboarded | billboardedLockX | billboardedLockY | billboardedLockZ
  | cameraAnchored | dontInheritTranslation | dontInheritRotation
  | dontInheritScaling
deriving DecidableEq, Repr

def nfRender : NFItem → List Char
  | .billboarded => ("Billboarded, ").data
  | .billboardedLockX => ("BillboardedLockX, ").data
  | .billboardedLockY => ("BillboardedLockY, ").data
  | .billboardedLockZ => ("BillboardedLockZ, ").data
  | .cameraAnchored => ("CameraAnchored, ").data
  | .dontInheritTranslation => ("DontInherit \x7b Translation \x7d, ").data
  | .dontInheritRotation => ("DontInherit \x7b Rotation \x7d, ").data
  | .dontInheritScaling => ("DontInherit \x7b Scaling \x7d, ").data

def nfVal : NFItem → Nat
  | .billboarded => 8
  | .billboardedLockX => 16
  | .billboardedLockY => 32
  | .billboardedLockZ => 64
  | .cameraAnchored => 128
  | .dontInheritTranslation => 1
  | .dontInheritRotation => 2
  | .dontInheritScaling => 4

def nfRenderAll (ls : List NFItem) : List Char :=
  ls.foldr (fun k acc => nfRender k ++ acc) []

def nfFold (ls : List NFItem) : Nat := ls.foldl (fun a k => Nat.lor a (nfVal k)) 0

/-- The eight node-type tag bit values. -/
def tagBitVals : List Nat := [256, 512, 1024, 2048, 4096, 8192, 16384, 32768]

/-- How many node-type tag bits are set in a Flags value. -/
def tagBitCount (n : Nat) : Nat :=
  (tagBitVals.filter (fun b => n / b % 2 = 1)).length

def chanArity (k : String) : Option Nat :=
  if k = "Translation" ∨ k = "Scaling" ∨ k = "Color" ∨ k = "AmbColor" then some 3
  else if k = "Rotation" then some 4
  else if k = "Visibility" ∨ k = "TextureID" ∨ k = "Alpha" ∨ k = "Intensity" ∨
      k = "AmbIntensity" ∨ k = "AttenuationStart" ∨ k = "AttenuationEnd" ∨
      k = "Speed" ∨ k = "Latitude" ∨ k = "Longitude" ∨ k = "EmissionRate" ∨
      k = "Width" ∨ k = "Length" ∨ k = "Gravity" ∨ k = "Variation" ∨
      k = "LifeSpan" ∨ k = "InitVelocity" ∨ k = "HeightAbove" ∨
      k = "HeightBelow" ∨ k = "TextureSlot" then some 1
  else none

def camArity (k : String) : Option Nat :=
  if k = "Translation" ∨ k = "TargetTranslation" then some 3
  else if k = "Rotation" then some 1
  else none

def ObjAnimWF (tab : String → Option Nat) (o : Obj) : Prop :=
  ∀ p ∈ o, ∀ av, p.2 = Val.vanim av → ∃ n, tab p.1 = some n ∧ avWF n av

def NoAnimV (v : Val) : Prop := ∀ av, ¬ (v = Val.vanim av)

def MatWF (mat : Material) : Prop :=
  (∀ l ∈ mat.Layers, ObjAnimWF chanArity l) ∧
  (∀ v, mat.PriorityPlane = some v → NoAnimV v)

structure ModelAnimWF (m : Model) : Prop where
  info : ObjAnimWF chanArity m.Info
  seqs : ∀ o ∈ m.Sequences, ObjAnimWF chanArity o
  texs : ∀ o ∈ m.Textures, ObjAnimWF chanArity o
  mats : ∀ mat ∈ m.Materials, MatWF mat
  geos : ∀ g ∈ m.Geosets, ∀ o ∈ g.Anims, ObjAnimWF chanArity o
  ganims : ∀ o ∈ m.GeosetAnims, ObjAnimWF chanArity o
  bones : ∀ o ∈ m.Bones, ObjAnimWF chanArity o
  helpers : ∀ o ∈ m.Helpers, ObjAnimWF chanArity o
  attachments : ∀ o ∈ m.Attachments, ObjAnimWF chanArity o
  nodes : ∀ o? ∈ m.Nodes, ∀ o, o? = some o → ObjAnimWF chanArity o
  eos : ∀ o ∈ m.EventObjects, ObjAnimWF chanArity o
  css : ∀ o ∈ m.CollisionShapes, ObjAnimWF chanArity o
  pes : ∀ o ∈ m.ParticleEmitters, ObjAnimWF chanArity o
  pe2s : ∀ o ∈ m.ParticleEmitters2, ObjAnimWF chanArity o
  cams : ∀ o ∈ m.Cameras, ObjAnimWF camArity o
  lights : ∀ o ∈ m.Lights, ObjAnimWF chanArity o
  ribbons : ∀ o ∈ m.RibbonEmitters, ObjAnimWF chanArity o
  tvas : ∀ o ∈ m.TextureAnims, ObjAnimWF chanArity o
  version : NoAnimV m.Version

end Mdl

namespace Mdl

/-! ### Generic lemmas about the result type and the loop combinators -/

@[simp] theorem andThen_ok {α β : Type} (a : α) (s : St) (f : α → St → Res β) :
    andThen (.ok a s) f = f a s := rfl

@[simp] theorem andThen_err {α β : Type} (n : Nat) (m : String) (f : α → St → Res β) :
    andThen (.err n m) f = .err n m := rfl

@[simp] theorem andThen_jerr {α β : Type} (m : String) (f : α → St → Res β) :
    andThen (.jerr m) f = .jerr m := rfl

@[simp] theorem andThen_div {α β : Type} (f : α → St → Res β) :
    andThen (.div : Res α) f = .div := rfl

@[simp] theorem andThen_oof {α β : Type} (f : α → St → Res β) :
    andThen (.oof : Res α) f = .oof := rfl

theorem loopW_fuel_eq {α : Type} (exit : α → St → Bool) (body : α → St → Res α) :
    ∀ (f1 : Nat), ∀ {f2 : Nat} {a : α} {s : St}, s.length < f1 → s.length < f2 →
      loopW exit body f1 a s = loopW exit body f2 a s := by
  intro f1
  induction f1 with
  | zero => intro f2 a s h1 _; omega
  | succ n ih =>
    intro f2 a s h1 h2
    match f2, h2 with
    | m + 1, _ =>
      show loopW exit body (n + 1) a s = loopW exit body (m + 1) a s
      simp only [loopW]
      by_cases he : exit a s
      · simp [he]
      · simp only [he, if_false]
        cases hb : body a s with
        | ok a1 s1 =>
          simp only [andThen_ok]
          by_cases hl : s1.length < s.length
          · simp only [hl, if_true]
            exact ih (by omega) (by omega)
          · simp [hl]
        | err n m => rfl
        | jerr m => rfl
        | div => rfl
        | oof => rfl

/-- One-step unfolding of `runLoop`. -/
theorem runLoop_eq {α : Type} (exit : α → St → Bool) (body : α → St → Res α)
    (a : α) (s : St) :
    runLoop exit body a s =
      (if exit a s then .ok a s
       else andThen (body a s) fun a1 s1 =>
         if s1.length < s.length then runLoop exit body a1 s1 else .div) := by
  show loopW exit body (s.length + 1) a s = _
  simp only [loopW]
  by_cases he : exit a s
  · simp [he]
  · simp only [he, if_false]
    cases hb : body a s with
    | ok a1 s1 =>
      simp only [andThen_ok]
      by_cases hl : s1.length < s.length
      · simp only [hl, if_true]
        exact loopW_fuel_eq exit body s.length (by omega) (by omega)
      · simp [hl]
    | err n m => rfl
    | jerr m => rfl
    | div => rfl
    | oof => rfl

/-- Invariant rule for `loopW`. -/
theorem loopW_inv {α : Type} {P : α → Prop} {exit : α → St → Bool}
    {body : α → St → Res α}
    (hb : ∀ a s a1 s1, body a s = .ok a1 s1 → P a → P a1) :
    ∀ (f : Nat) {a : α} {s : St} {a1 : α} {s1 : St},
      loopW exit body f a s = .ok a1 s1 → P a → P a1 := by
  intro f
  induction f with
  | zero => intro a s a1 s1 h _; exact absurd h (by simp [loopW])
  | succ n ih =>
    intro a s a1 s1 h hp
    simp only [loopW] at h
    by_cases he : exit a s
    · simp only [he, if_true] at h
      cases h; exact hp
    · simp only [he, if_false] at h
      cases hb2 : body a s with
      | ok a2 s2 =>
        rw [hb2] at h
        simp only [andThen_ok] at h
        by_cases hl : s2.length < s.length
        · simp only [hl, if_true] at h
          exact ih h (hb a s a2 s2 hb2 hp)
        · simp [hl] at h
      | err n2 m2 => rw [hb2] at h; simp [andThen] at h
      | jerr m2 => rw [hb2] at h; simp [andThen] at h
      | div => rw [hb2] at h; simp [andThen] at h
      | oof => rw [hb2] at h; simp [andThen] at h

/-- Invariant rule for `runLoop`. -/
theorem runLoop_inv {α : Type} {P : α → Prop} {exit : α → St → Bool}
    {body : α → St → Res α}
    (hb : ∀ a s a1 s1, body a s = .ok a1 s1 → P a → P a1)
    {a : α} {s : St} {a1 : α} {s1 : St}
    (h : runLoop exit body a s = .ok a1 s1) (hp : P a) : P a1 :=
  loopW_inv hb (s.length + 1) h hp

theorem lengthDropWhileLe {α : Type} (p : α → Bool) (l : List α) :
    (l.dropWhile p).length ≤ l.length := by
  induction l with
  | nil => simp
  | cons x t ih =>
    by_cases h : p x
    · simp [List.dropWhile_cons, h]; omega
    · simp [List.dropWhile_cons, h]

theorem parseComment_le {s s1 : St} (h : parseComment s = some s1) :
    s1.length + 2 ≤ s.length := by
  match s with
  | [] => simp [parseComment] at h
  | [c] => simp [parseComment] at h
  | c1 :: c2 :: t =>
    by_cases h1 : c1 = '/'
    · by_cases h2 : c2 = '/'
      · subst h1; subst h2
        simp only [parseComment] at h
        match t with
        | [] => cases h; simp
        | c3 :: t1 =>
          simp only at h
          have hd : (t1.dropWhile (fun c => ¬ (c = '\n'))).length ≤ t1.length :=
            lengthDropWhileLe _ t1
          cases hdw : t1.dropWhile (fun c => ¬ (c = '\n')) with
          | nil => rw [hdw] at h; cases h; simp
          | cons x r =>
            rw [hdw] at h; cases h
            rw [hdw] at hd
            simp at hd ⊢
            omega
      · simp [parseComment, h1, h2] at h
    · simp [parseComment, h1] at h

theorem skipComments_congr :
    ∀ (f1 : Nat), ∀ {f2 : Nat} {s : St}, s.length ≤ f1 → s.length ≤ f2 →
      skipComments f1 s = skipComments f2 s := by
  intro f1
  induction f1 with
  | zero =>
    intro f2 s h1 _
    have hs : s = [] := by cases s <;> simp_all
    subst hs
    cases f2 with
    | zero => rfl
    | succ m => simp [skipComments, parseComment]
  | succ n ih =>
    intro f2 s h1 h2
    cases f2 with
    | zero =>
      have hs : s = [] := by cases s <;> simp_all
      subst hs
      simp [skipComments, parseComment]
    | succ m =>
      simp only [skipComments]
      cases hc : parseComment s with
      | none => rfl
      | some s1 =>
        have := parseComment_le hc
        exact ih (by omega) (by omega)

theorem topGo_fuel_eq :
    ∀ (f1 : Nat), ∀ {f2 : Nat} {m : Model} {s : St}, s.length < f1 → s.length < f2 →
      topGo f1 m s = topGo f2 m s := by
  intro f1
  induction f1 with
  | zero => intro f2 m s h1 _; omega
  | succ n ih =>
    intro f2 m s h1 h2
    cases f2 with
    | zero => omega
    | succ f2 =>
      have h2b : s.length < f2 + 1 := h2
      show topGo (n + 1) m s = topGo (f2 + 1) m s
      simp only [topGo]
      cases s with
      | nil => rfl
      | cons c t =>
        simp only
        cases hk : parseKeyword (skipComments ((c :: t).length + 1) (c :: t)) with
        | ok kw? s2 =>
          simp only [andThen_ok]
          cases kw? with
          | none => rfl
          | some kw =>
            simp only
            by_cases hin : kw ∈ parserNames ∨ kw ∈ protoNames
            · simp only [hin, if_true]
              cases hd : dispatchKw kw m s2 with
              | ok m1 s3 =>
                simp only [andThen_ok, List.length_cons]
                by_cases hl : s3.length < t.length + 1
                · simp only [hl, if_true]
                  simp only [List.length_cons] at h1 h2b
                  exact ih (by omega) (by omega)
                · simp [hl]
              | err n2 m2 => rfl
              | jerr m2 => rfl
              | div => rfl
              | oof => rfl
            · simp only [hin, if_false, List.length_cons]
              by_cases hl : (parseUnknownBlock s2).length < t.length + 1
              · simp only [hl, if_true]
                simp only [List.length_cons] at h1 h2b
                exact ih (by omega) (by omega)
              · simp [hl]
        | err n2 m2 => rfl
        | jerr m2 => rfl
        | div => rfl
        | oof => rfl

/-! ### Token lemmas -/

theorem takeWhile_append_all {α : Type} {p : α → Bool} {xs : List α}
    (h : ∀ c ∈ xs, p c = true) {y : α} (ys : List α) (hy : p y = false) :
    (xs ++ y :: ys).takeWhile p = xs := by
  induction xs with
  | nil => simp [List.takeWhile, hy]
  | cons x t ih =>
    have hx : p x = true := h x (by simp)
    simp only [List.cons_append, List.takeWhile_cons, hx]
    simp [ih (fun c hc => h c (by simp [hc]))]

theorem dropWhile_append_all {α : Type} {p : α → Bool} {xs : List α}
    (h : ∀ c ∈ xs, p c = true) {y : α} (ys : List α) (hy : p y = false) :
    (xs ++ y :: ys).dropWhile p = y :: ys := by
  induction xs with
  | nil => simp [List.dropWhile, hy]
  | cons x t ih =>
    have hx : p x = true := h x (by simp)
    simp only [List.cons_append, List.dropWhile_cons, hx]
    exact ih (fun c hc => h c (by simp [hc]))

theorem parseKeyword_token {k : List Char} (hk : isKwToken k = true)
    {y : Char} (ys : List Char) (hy : isKwOther y = false) :
    parseKeyword (k ++ y :: ys) = .ok (some (String.mk k)) (dropSpace (y :: ys)) := by
  match k with
  | [] => simp [isKwToken] at hk
  | c :: t =>
    simp only [isKwToken, Bool.decide_and, Bool.and_eq_true, decide_eq_true_eq] at hk
    have hall : ∀ x ∈ t, isKwOther x = true := by
      intro x hx
      exact (List.all_eq_true.mp hk.2) x hx
    simp only [List.cons_append, parseKeyword, hk.1, if_true]
    rw [takeWhile_append_all hall ys hy, dropWhile_append_all hall ys hy]

theorem parseNumber_token {k : List Char} (hk : isNumToken k = true)
    {y : Char} (ys : List Char) (hy : isNumOther y = false) :
    parseNumber (k ++ y :: ys) = .ok (some (jsParseFloat k)) (dropSpace (y :: ys)) := by
  match k with
  | [] => simp [isNumToken] at hk
  | c :: t =>
    simp only [isNumToken, Bool.decide_and, Bool.and_eq_true, decide_eq_true_eq] at hk
    have hall : ∀ x ∈ t, isNumOther x = true := by
      intro x hx
      exact (List.all_eq_true.mp hk.2) x hx
    simp only [List.cons_append, parseNumber, hk.1, if_true]
    rw [takeWhile_append_all hall ys hy, dropWhile_append_all hall ys hy]

/-- Inversion of `andThen` on a successful outcome. -/
theorem andThen_eq_ok {α β : Type} {r : Res α} {f : α → St → Res β} {b : β} {s1 : St}
    (h : andThen r f = .ok b s1) : ∃ a s, r = .ok a s ∧ f a s = .ok b s1 := by
  cases r with
  | ok a s => exact ⟨a, s, rfl, h⟩
  | err n m => simp [andThen] at h
  | jerr m => simp [andThen] at h
  | div => simp [andThen] at h
  | oof => simp [andThen] at h

theorem bufWrite_len (b : Buf) (i : Nat) (v : JsNum) :
    (bufWrite b i v).data.length = b.data.length := by
  simp [bufWrite]

theorem bufNew_len (k : BK) (n : Nat) : (bufNew k n).data.length = n := by
  simp [bufNew]

/-- Stores through `parseArrayOrSingleItem` never change the buffer's length
(out-of-range typed-array stores are dropped). -/
theorem parseArrayOrSingleItem_len {b : Buf} {s : St} {b1 : Buf} {s1 : St}
    (h : parseArrayOrSingleItem b s = .ok b1 s1) :
    b1.data.length = b.data.length := by
  unfold parseArrayOrSingleItem at h
  split at h
  · obtain ⟨bp, s2, hr, h⟩ := andThen_eq_ok h
    obtain ⟨u, s3, hs, h⟩ := andThen_eq_ok h
    cases h
    refine runLoop_inv (P := fun (x : Buf × Nat) => x.1.data.length = b.data.length)
      ?_ hr rfl
    intro a s a1 s1 hb hp
    simp only [parseArrayBody] at hb
    obtain ⟨n?, s2b, hn, hb⟩ := andThen_eq_ok hb
    cases n? with
    | none => simp at hb
    | some v =>
      simp only at hb
      cases hb
      simp [bufWrite_len, hp]
  · obtain ⟨n?, s2, hn, h⟩ := andThen_eq_ok h
    cases h
    simp [bufWrite_len]

/-- Every keyframe `parseAnimKeyframe` produces is well-formed for its channel
arity and interpolation mode. -/
theorem parseAnimKeyframe_WF {frame : JsNum} {t : AVT} {lt : LineT} {s : St}
    {k : Keyframe} {s1 : St}
    (h : parseAnimKeyframe frame t lt s = .ok k s1) :
    kfWF (animVectorSize t) lt k := by
  unfold parseAnimKeyframe at h
  obtain ⟨vecB, s2, hv, h⟩ := andThen_eq_ok h
  have hvl : vecB.data.length = animVectorSize t := by
    rw [parseArrayOrSingleItem_len hv, bufNew_len]
  obtain ⟨u1, s3, hc1, h⟩ := andThen_eq_ok h
  split at h
  · rename_i hlt
    obtain ⟨kw1, s4, hk1, h⟩ := andThen_eq_ok h
    obtain ⟨inB, s5, hin, h⟩ := andThen_eq_ok h
    obtain ⟨u2, s6, hc2, h⟩ := andThen_eq_ok h
    obtain ⟨kw2, s7, hk2, h⟩ := andThen_eq_ok h
    obtain ⟨outB, s8, hout, h⟩ := andThen_eq_ok h
    obtain ⟨u3, s9, hc3, h⟩ := andThen_eq_ok h
    cases h
    refine ⟨hvl, ?_⟩
    rw [if_pos hlt]
    constructor
    · exact ⟨inB.data, rfl, by rw [parseArrayOrSingleItem_len hin, bufNew_len]⟩
    · exact ⟨outB.data, rfl, by rw [parseArrayOrSingleItem_len hout, bufNew_len]⟩
  · rename_i hlt
    cases h
    exact ⟨hvl, by rw [if_neg hlt]; exact ⟨rfl, rfl⟩⟩

/-- Every track `parseAnimVector` produces is well-formed for its channel
arity: every keyframe's vector has the channel arity, and tangents are present
(with the same arity) exactly under Hermite/Bezier interpolation. -/
theorem parseAnimVector_WF {t : AVT} {s : St} {av : AnimVec} {s1 : St}
    (h : parseAnimVector t s = .ok av s1) :
    avWF (animVectorSize t) av := by
  unfold parseAnimVector at h
  obtain ⟨n0, sa, hn0, h⟩ := andThen_eq_ok h
  obtain ⟨u1, sb, hu1, h⟩ := andThen_eq_ok h
  obtain ⟨ltk, sc, hltk, h⟩ := andThen_eq_ok h
  obtain ⟨u2, sd, hu2, h⟩ := andThen_eq_ok h
  obtain ⟨av1, se, hr, h⟩ := andThen_eq_ok h
  obtain ⟨u3, sf, hu3, h⟩ := andThen_eq_ok h
  cases h
  refine runLoop_inv (P := fun a => avWF (animVectorSize t) a) ?_ hr ?_
  · intro a s a1 s1 hb hp
    simp only at hb
    obtain ⟨kw?, s1b, hkw, hb⟩ := andThen_eq_ok hb
    split at hb
    · obtain ⟨n?, s2b, hn, hb⟩ := andThen_eq_ok hb
      obtain ⟨u, s3b, hu, hb⟩ := andThen_eq_ok hb
      cases hb
      intro k hk
      exact hp k hk
    · obtain ⟨fr?, s2b, hfr, hb⟩ := andThen_eq_ok hb
      cases fr? with
      | none => simp at hb
      | some frame =>
        simp only at hb
        obtain ⟨u, s3b, hu, hb⟩ := andThen_eq_ok hb
        obtain ⟨kf, s4b, hkf, hb⟩ := andThen_eq_ok hb
        cases hb
        intro k hk
        rcases List.mem_append.mp hk with hk1 | hk2
        · exact hp k hk1
        · have : k = kf := by simpa using hk2
          subst this
          exact parseAnimKeyframe_WF hkf
  · intro k hk
    simp at hk

/-- The per-keyframe BGR reversal preserves track well-formedness (reversal
preserves list lengths and tangent presence). -/
theorem revKeys_WF {n : Nat} {av : AnimVec} (h : avWF n av) :
    avWF n (revKeys av) := by
  intro k hk
  simp only [revKeys] at hk
  obtain ⟨k0, hk0, hmap⟩ := List.mem_map.mp hk
  obtain ⟨hlen, htan⟩ := h k0 hk0
  subst hmap
  show kfWF n av.LineType _
  unfold kfWF
  cases hIn : k0.InTan with
  | none =>
    dsimp only
    refine ⟨by simpa using hlen, ?_⟩
    by_cases hlt : av.LineType = LineT.Hermite ∨ av.LineType = LineT.Bezier
    · rw [if_pos hlt] at htan
      obtain ⟨⟨i, hi, _⟩, _⟩ := htan
      rw [hIn] at hi
      cases hi
    · rw [if_neg hlt] at htan
      rw [if_neg hlt]
      exact ⟨rfl, htan.2⟩
  | some i =>
    dsimp only
    refine ⟨by simpa using hlen, ?_⟩
    by_cases hlt : av.LineType = LineT.Hermite ∨ av.LineType = LineT.Bezier
    · rw [if_pos hlt] at htan
      obtain ⟨⟨i2, hi2, hi2l⟩, ⟨o2, ho2, ho2l⟩⟩ := htan
      rw [hIn] at hi2
      cases hi2
      rw [if_pos hlt]
      refine ⟨⟨i.reverse, rfl, by simpa using hi2l⟩,
        ⟨o2.reverse, by simp [ho2], by simpa using ho2l⟩⟩
    · rw [if_neg hlt] at htan
      rw [hIn] at htan
      cases htan.1


theorem mem_objSet {o : Obj} {k : String} {v : Val} {p : String × Val}
    (h : p ∈ objSet o k v) : p = (k, v) ∨ p ∈ o := by
  unfold objSet at h
  split at h
  · obtain ⟨q, hq, hfq⟩ := List.mem_map.mp h
    by_cases he : q.1 = k
    · simp [he] at hfq; left; exact hfq.symm
    · simp [he] at hfq; right; exact hfq ▸ hq
  · rcases List.mem_append.mp h with h1 | h2
    · right; exact h1
    · left; simpa using h2

theorem objSet_WF_nonanim {tab : String → Option Nat} {o : Obj} {k : String} {v : Val}
    (hwf : ObjAnimWF tab o) (hv : ∀ av, v ≠ Val.vanim av) :
    ObjAnimWF tab (objSet o k v) := by
  intro p hp av hav
  rcases mem_objSet hp with h1 | h2
  · subst h1; exact absurd hav (hv av)
  · exact hwf p h2 av hav

theorem objSet_WF_anim {tab : String → Option Nat} {o : Obj} {k : String} {av0 : AnimVec}
    {n : Nat} (hwf : ObjAnimWF tab o) (htab : tab k = some n) (hav : avWF n av0) :
    ObjAnimWF tab (objSet o k (Val.vanim av0)) := by
  intro p hp av hp2
  rcases mem_objSet hp with h1 | h2
  · subst h1
    simp at hp2
    subst hp2
    exact ⟨n, htab, hav⟩
  · exact hwf p h2 av hp2

theorem objDel_WF {tab : String → Option Nat} {o : Obj} {k : String}
    (hwf : ObjAnimWF tab o) : ObjAnimWF tab (objDel o k) := by
  intro p hp av hav
  exact hwf p (List.mem_of_mem_filter hp) av hav

theorem parseObject_WF (tab : String → Option Nat) {s : St} {pfx : Val} {o : Obj} {s1 : St}
    (h : parseObject s = .ok (pfx, o) s1) :
    NoAnimV pfx ∧ ObjAnimWF tab o := by
  unfold parseObject at h
  obtain ⟨pf, sa, hpf, h⟩ := andThen_eq_ok h
  have hpfx : NoAnimV pf := by
    split at hpf
    · cases hpf; intro av; simp
    · obtain ⟨str?, sb, hstr, hpf⟩ := andThen_eq_ok hpf
      cases str? with
      | some v => cases hpf; intro av; simp
      | none =>
        simp only at hpf
        obtain ⟨n?, sc, hn, hpf⟩ := andThen_eq_ok hpf
        cases n? with
        | some v => cases hpf; intro av; simp
        | none => simp at hpf
  obtain ⟨u1, sb, hu1, h⟩ := andThen_eq_ok h
  obtain ⟨o2, sc, hr, h⟩ := andThen_eq_ok h
  obtain ⟨u2, sd, hu2, h⟩ := andThen_eq_ok h
  cases h
  refine ⟨hpfx, ?_⟩
  refine runLoop_inv (P := fun o => ObjAnimWF tab o) ?_ hr ?_
  · intro a s a1 s1 hb hp
    simp only at hb
    obtain ⟨kw?, s1b, hkw, hb⟩ := andThen_eq_ok hb
    cases kw? with
    | none => simp at hb
    | some kw =>
      simp only at hb
      obtain ⟨v, s2b, hv, hb⟩ := andThen_eq_ok hb
      cases hb
      refine objSet_WF_nonanim hp ?_
      intro av
      split at hv
      · obtain ⟨b?, s3b, hb2, hv⟩ := andThen_eq_ok hv
        cases hv
        cases b? <;> simp
      · split at hv
        · obtain ⟨b?, s3b, hb2, hv⟩ := andThen_eq_ok hv
          cases hv
          cases b? <;> simp
        · obtain ⟨l?, s3b, hl, hv⟩ := andThen_eq_ok hv
          cases l? with
          | some l => cases hv; simp
          | none =>
            simp only at hv
            obtain ⟨st?, s4b, hst, hv⟩ := andThen_eq_ok hv
            cases st? with
            | some v2 => cases hv; simp
            | none =>
              simp only at hv
              obtain ⟨n?, s5b, hn, hv⟩ := andThen_eq_ok hv
              cases hv
              cases n? <;> simp
  · intro p hp
    simp at hp

theorem jsOrV_noanim (cur : Option Val) (bits : Nat) : NoAnimV (jsOrV cur bits) := by
  intro av; simp [jsOrV]

theorem noanim_opt_num {n? : Option JsNum} :
    NoAnimV (match n? with | some x => Val.vnum x | none => Val.vnull) := by
  intro av; cases n? <;> simp

theorem geosetAnim0_WF {tab : String → Option Nat} : ObjAnimWF tab geosetAnim0 := by
  intro p hp av hav
  simp only [geosetAnim0, List.mem_cons, List.not_mem_nil, or_false] at hp
  rcases hp with h | h | h | h <;> subst h <;> simp at hav

theorem parseGeosetAnim_WF {m : Model} {s : St} {m1 : Model} {s1 : St}
    (h : parseGeosetAnim m s = .ok m1 s1) :
    ∃ res, ObjAnimWF chanArity res ∧
      m1 = { m with GeosetAnims := m.GeosetAnims ++ [res] } := by
  unfold parseGeosetAnim at h
  obtain ⟨u1, sa, hu1, h⟩ := andThen_eq_ok h
  obtain ⟨res, sb, hr, h⟩ := andThen_eq_ok h
  obtain ⟨u2, sc, hu2, h⟩ := andThen_eq_ok h
  cases h
  refine ⟨res, ?_, rfl⟩
  refine runLoop_inv (P := fun o => ObjAnimWF chanArity o) ?_ hr geosetAnim0_WF
  intro a s a1 s1 hb hp
  simp only at hb
  obtain ⟨kw?, s1b, hkw, hb⟩ := andThen_eq_ok hb
  cases kw? with
  | none => simp at hb
  | some kw0 =>
    simp only at hb
    obtain ⟨sk, s2b, hsk, hb⟩ := andThen_eq_ok hb
    obtain ⟨res1, s3b, hbr, hb⟩ := andThen_eq_ok hb
    cases hb
    split at hbr
    · -- Alpha
      rename_i hkA
      split at hbr
      · obtain ⟨n?, s4b, hn, hbr⟩ := andThen_eq_ok hbr
        cases hbr
        refine objSet_WF_nonanim hp ?_
        intro av; cases n? <;> simp
      · obtain ⟨av0, s4b, hav0, hbr⟩ := andThen_eq_ok hbr
        cases hbr
        exact objSet_WF_anim hp (by rfl) (parseAnimVector_WF hav0)
    · split at hbr
      · -- Color
        rename_i hkA hkC
        split at hbr
        · obtain ⟨b?, s4b, hb2, hbr⟩ := andThen_eq_ok hbr
          cases b? with
          | some b =>
            simp only at hbr
            cases hbr
            refine objSet_WF_nonanim hp ?_
            intro av; simp
          | none => simp at hbr
        · obtain ⟨av0, s4b, hav0, hbr⟩ := andThen_eq_ok hbr
          cases hbr
          exact objSet_WF_anim hp (by rfl) (revKeys_WF (parseAnimVector_WF hav0))
      · split at hbr
        · -- DropShadow
          cases hbr
          exact objSet_WF_nonanim hp (jsOrV_noanim _ _)
        · obtain ⟨n?, s4b, hn, hbr⟩ := andThen_eq_ok hbr
          cases hbr
          refine objSet_WF_nonanim hp ?_
          intro av; cases n? <;> simp

theorem layer0_WF {tab : String → Option Nat} : ObjAnimWF tab layer0 := by
  intro p hp av hav
  simp only [layer0, List.mem_cons, List.not_mem_nil, or_false] at hp
  rcases hp with h | h | h | h <;> subst h <;> simp at hav

theorem parseLayer_WF {s : St} {l : Obj} {s1 : St}
    (h : parseLayer s = .ok l s1) : ObjAnimWF chanArity l := by
  unfold parseLayer at h
  obtain ⟨u1, sa, hu1, h⟩ := andThen_eq_ok h
  obtain ⟨res, sb, hr, h⟩ := andThen_eq_ok h
  obtain ⟨u2, sc, hu2, h⟩ := andThen_eq_ok h
  cases h
  refine runLoop_inv (P := fun o => ObjAnimWF chanArity o) ?_ hr layer0_WF
  intro a s a1 s1 hb hp
  simp only [parseLayerBody] at hb
  obtain ⟨kw?, s1b, hkw, hb⟩ := andThen_eq_ok hb
  cases kw? with
  | none => simp at hb
  | some kw0 =>
    simp only at hb
    obtain ⟨sk, s2b, hsk, hb⟩ := andThen_eq_ok hb
    obtain ⟨res1, s3b, hbr, hb⟩ := andThen_eq_ok hb
    cases hb
    split at hbr
    · -- TextureID animated
      rename_i hc
      obtain ⟨av0, s4b, hav0, hbr⟩ := andThen_eq_ok hbr
      cases hbr
      obtain ⟨hns, hkT⟩ := hc
      rw [hkT]
      exact objSet_WF_anim hp (by rfl) (parseAnimVector_WF hav0)
    · split at hbr
      · -- Alpha animated
        rename_i hc
        obtain ⟨av0, s4b, hav0, hbr⟩ := andThen_eq_ok hbr
        cases hbr
        obtain ⟨hns, hkT⟩ := hc
        rw [hkT]
        exact objSet_WF_anim hp (by rfl) (parseAnimVector_WF hav0)
      · split at hbr
        · -- shading flags
          cases hbr
          exact objSet_WF_nonanim hp (jsOrV_noanim _ _)
        · split at hbr
          · -- FilterMode
            obtain ⟨v?, s4b, hv, hbr⟩ := andThen_eq_ok hbr
            cases v? with
            | some v =>
              simp only at hbr
              split at hbr
              · cases hbr
                refine objSet_WF_nonanim hp ?_
                intro av; simp
              · cases hbr; exact hp
            | none => simp only at hbr; cases hbr; exact hp
          · split at hbr
            · -- TVertexAnimId
              obtain ⟨n?, s4b, hn, hbr⟩ := andThen_eq_ok hbr
              cases hbr
              refine objSet_WF_nonanim hp ?_
              intro av; cases n? <;> simp
            · -- fallback: number, else keyword, else null
              obtain ⟨n?, s4b, hn, hbr⟩ := andThen_eq_ok hbr
              cases n? with
              | some v =>
                simp only at hbr
                cases hbr
                refine objSet_WF_nonanim hp ?_
                intro av; simp
              | none =>
                simp only at hbr
                obtain ⟨k2?, s5b, hk2, hbr⟩ := andThen_eq_ok hbr
                cases hbr
                refine objSet_WF_nonanim hp ?_
                intro av; cases k2? <;> simp

theorem node0_WF {tab : String → Option Nat} (tname : String) (name? : Option String) :
    ObjAnimWF tab (node0 tname name?) := by
  intro p hp av hav
  simp only [node0, List.mem_cons, List.not_mem_nil, or_false] at hp
  rcases hp with h | h | h | h | h <;> subst h <;> cases name? <;> simp at hav

theorem parseNode_WF {tname : String} {m : Model} {s : St} {node : Obj} {m1 : Model}
    {s1 : St} (h : parseNode tname m s = .ok (node, m1) s1) :
    ObjAnimWF chanArity node ∧
      m1 = { m with Nodes := nodesAssign m.Nodes (objGet node "ObjectId") node } := by
  unfold parseNode at h
  obtain ⟨name?, sa, hname, h⟩ := andThen_eq_ok h
  obtain ⟨u1, sb, hu1, h⟩ := andThen_eq_ok h
  obtain ⟨nd, sc, hr, h⟩ := andThen_eq_ok h
  obtain ⟨u2, sd, hu2, h⟩ := andThen_eq_ok h
  cases h
  refine ⟨?_, rfl⟩
  refine runLoop_inv (P := fun o => ObjAnimWF chanArity o) ?_ hr (node0_WF tname name?)
  intro a s a1 s1 hb hp
  simp only [parseNodeBody] at hb
  obtain ⟨kw?, s1b, hkw, hb⟩ := andThen_eq_ok hb
  cases kw? with
  | none => simp at hb
  | some kw =>
    simp only at hb
    obtain ⟨res1, s3b, hbr, hb⟩ := andThen_eq_ok hb
    cases hb
    split at hbr
    · -- animated Translation/Rotation/Scaling/Visibility
      rename_i hc
      obtain ⟨av0, s4b, hav0, hbr⟩ := andThen_eq_ok hbr
      cases hbr
      rcases hc with hk | hk | hk | hk <;> subst hk <;>
        exact objSet_WF_anim hp (by decide) (parseAnimVector_WF hav0)
    · split at hbr
      · cases hbr
        exact objSet_WF_nonanim hp (jsOrV_noanim _ _)
      · split at hbr
        · -- DontInherit
          obtain ⟨u3, s4b, hu3, hbr⟩ := andThen_eq_ok hbr
          obtain ⟨v?, s5b, hv, hbr⟩ := andThen_eq_ok hbr
          obtain ⟨u4, s6b, hu4, hbr⟩ := andThen_eq_ok hbr
          cases hbr
          have hgen : ∀ (b : Nat), ObjAnimWF chanArity
              (if b = 0 then a else objSet a "Flags" (jsOrV (objGet a "Flags") b)) := by
            intro b
            split
            · exact hp
            · exact objSet_WF_nonanim hp (jsOrV_noanim _ _)
          exact hgen _
        · split at hbr
          · -- Path
            obtain ⟨p?, s4b, hpth, hbr⟩ := andThen_eq_ok hbr
            cases hbr
            refine objSet_WF_nonanim hp ?_
            intro av; cases p? <;> simp
          · -- fallback: keyword, else number
            obtain ⟨k2?, s4b, hk2, hbr⟩ := andThen_eq_ok hbr
            obtain ⟨v0, s5b, hv0, hbr⟩ := andThen_eq_ok hbr
            cases hbr
            refine objSet_WF_nonanim hp ?_
            intro av
            have hv0na : NoAnimV v0 := by
              cases k2? with
              | some v => cases hv0; intro av2; simp
              | none =>
                simp only at hv0
                obtain ⟨n?, s6b, hn, hv0⟩ := andThen_eq_ok hv0
                cases hv0
                exact noanim_opt_num
            split
            · simp
            · exact hv0na av

theorem parseBone_WF {m : Model} {s : St} {m1 : Model} {s1 : St}
    (h : parseBone m s = .ok m1 s1) :
    ∃ node, ObjAnimWF chanArity node ∧
      m1 = { m with Bones := m.Bones ++ [node],
                    Nodes := nodesAssign m.Nodes (objGet node "ObjectId") node } := by
  unfold parseBone at h
  obtain ⟨nm, sa, hn, h⟩ := andThen_eq_ok h
  cases h
  obtain ⟨node, m2⟩ := nm
  obtain ⟨hwf, hm2⟩ := parseNode_WF hn
  subst hm2
  exact ⟨node, hwf, rfl⟩

theorem parseHelper_WF {m : Model} {s : St} {m1 : Model} {s1 : St}
    (h : parseHelper m s = .ok m1 s1) :
    ∃ node, ObjAnimWF chanArity node ∧
      m1 = { m with Helpers := m.Helpers ++ [node],
                    Nodes := nodesAssign m.Nodes (objGet node "ObjectId") node } := by
  unfold parseHelper at h
  obtain ⟨nm, sa, hn, h⟩ := andThen_eq_ok h
  cases h
  obtain ⟨node, m2⟩ := nm
  obtain ⟨hwf, hm2⟩ := parseNode_WF hn
  subst hm2
  exact ⟨node, hwf, rfl⟩

theorem parseAttachment_WF {m : Model} {s : St} {m1 : Model} {s1 : St}
    (h : parseAttachment m s = .ok m1 s1) :
    ∃ node, ObjAnimWF chanArity node ∧
      m1 = { m with Attachments := m.Attachments ++ [node],
                    Nodes := nodesAssign m.Nodes (objGet node "ObjectId") node } := by
  unfold parseAttachment at h
  obtain ⟨nm, sa, hn, h⟩ := andThen_eq_ok h
  cases h
  obtain ⟨node, m2⟩ := nm
  obtain ⟨hwf, hm2⟩ := parseNode_WF hn
  subst hm2
  exact ⟨node, hwf, rfl⟩

theorem eventObject0_WF {tab : String → Option Nat} (name? : Option String) :
    ObjAnimWF tab (eventObject0 name?) := by
  intro p hp av hav
  simp only [eventObject0, List.mem_cons, List.not_mem_nil, or_false] at hp
  rcases hp with h | h | h | h | h | h <;> subst h <;> cases name? <;> simp at hav

theorem parseEventObject_WF {m : Model} {s : St} {m1 : Model} {s1 : St}
    (h : parseEventObject m s = .ok m1 s1) :
    ∃ res, ObjAnimWF chanArity res ∧
      m1 = { m with EventObjects := m.EventObjects ++ [res],
                    Nodes := m.Nodes ++ [some res] } := by
  unfold parseEventObject at h
  obtain ⟨name?, sa, hname, h⟩ := andThen_eq_ok h
  obtain ⟨u1, sb, hu1, h⟩ := andThen_eq_ok h
  obtain ⟨res, sc, hr, h⟩ := andThen_eq_ok h
  obtain ⟨u2, sd, hu2, h⟩ := andThen_eq_ok h
  cases h
  refine ⟨res, ?_, rfl⟩
  refine runLoop_inv (P := fun o => ObjAnimWF chanArity o) ?_ hr (eventObject0_WF name?)
  intro a s a1 s1 hb hp
  simp only at hb
  obtain ⟨kw?, s1b, hkw, hb⟩ := andThen_eq_ok hb
  cases kw? with
  | none => simp at hb
  | some kw =>
    simp only at hb
    obtain ⟨res1, s3b, hbr, hb⟩ := andThen_eq_ok hb
    cases hb
    split at hbr
    · -- EventTrack
      obtain ⟨cnt?, s4b, hcnt, hbr⟩ := andThen_eq_ok hbr
      split at hbr
      · simp at hbr
      · obtain ⟨b?, s5b, hb2, hbr⟩ := andThen_eq_ok hbr
        cases hbr
        refine objSet_WF_nonanim hp ?_
        intro av; cases b? <;> simp
    · split at hbr
      · -- animated Translation/Rotation/Scaling
        rename_i hnc hc
        obtain ⟨av0, s4b, hav0, hbr⟩ := andThen_eq_ok hbr
        cases hbr
        rcases hc with hk | hk | hk <;> subst hk <;>
          exact objSet_WF_anim hp (by decide) (parseAnimVector_WF hav0)
      · obtain ⟨n?, s4b, hn, hbr⟩ := andThen_eq_ok hbr
        cases hbr
        exact objSet_WF_nonanim hp noanim_opt_num

theorem collisionShape0_WF {tab : String → Option Nat} (name? : Option String) :
    ObjAnimWF tab (collisionShape0 name?) := by
  intro p hp av hav
  simp only [collisionShape0, List.mem_cons, List.not_mem_nil, or_false] at hp
  rcases hp with h | h | h | h | h | h | h <;> subst h <;> cases name? <;> simp at hav

theorem parseCollisionShape_WF {m : Model} {s : St} {m1 : Model} {s1 : St}
    (h : parseCollisionShape m s = .ok m1 s1) :
    ∃ res, ObjAnimWF chanArity res ∧
      m1 = { m with CollisionShapes := m.CollisionShapes ++ [res],
                    Nodes := m.Nodes ++ [some res] } := by
  unfold parseCollisionShape at h
  obtain ⟨name?, sa, hname, h⟩ := andThen_eq_ok h
  obtain ⟨u1, sb, hu1, h⟩ := andThen_eq_ok h
  obtain ⟨res, sc, hr, h⟩ := andThen_eq_ok h
  obtain ⟨u2, sd, hu2, h⟩ := andThen_eq_ok h
  cases h
  refine ⟨res, ?_, rfl⟩
  refine runLoop_inv (P := fun o => ObjAnimWF chanArity o) ?_ hr (collisionShape0_WF name?)
  intro a s a1 s1 hb hp
  simp only at hb
  obtain ⟨kw?, s1b, hkw, hb⟩ := andThen_eq_ok hb
  cases kw? with
  | none => simp at hb
  | some kw =>
    simp only at hb
    obtain ⟨res1, s3b, hbr, hb⟩ := andThen_eq_ok hb
    cases hb
    split at hbr
    · cases hbr
      refine objSet_WF_nonanim hp ?_
      intro av; simp
    · split at hbr
      · cases hbr
        refine objSet_WF_nonanim hp ?_
        intro av; simp
      · split at hbr
        · -- Vertices
          obtain ⟨cnt?, s4b, hcnt, hbr⟩ := andThen_eq_ok hbr
          split at hbr
          · simp at hbr
          · obtain ⟨u3, s5b, hu3, hbr⟩ := andThen_eq_ok hbr
            obtain ⟨b, s6b, hb2, hbr⟩ := andThen_eq_ok hbr
            obtain ⟨u4, s7b, hu4, hbr⟩ := andThen_eq_ok hbr
            cases hbr
            refine objSet_WF_nonanim hp ?_
            intro av; simp
        · split at hbr
          · rename_i hnc hc
            obtain ⟨av0, s4b, hav0, hbr⟩ := andThen_eq_ok hbr
            cases hbr
            rcases hc with hk | hk | hk <;> subst hk <;>
              exact objSet_WF_anim hp (by decide) (parseAnimVector_WF hav0)
          · obtain ⟨n?, s4b, hn, hbr⟩ := andThen_eq_ok hbr
            cases hbr
            exact objSet_WF_nonanim hp noanim_opt_num

theorem avWF_ite {n : Nat} {c : Prop} [Decidable c] {av : AnimVec} (h : avWF n av) :
    avWF n (if c then revKeys av else av) := by
  split
  · exact revKeys_WF h
  · exact h

theorem light0_WF {tab : String → Option Nat} (name? : Option String) :
    ObjAnimWF tab (light0 name?) := by
  intro p hp av hav
  simp only [light0, List.mem_cons, List.not_mem_nil, or_false] at hp
  rcases hp with h | h | h | h | h | h <;> subst h <;> cases name? <;> simp at hav

theorem parseLight_WF {m : Model} {s : St} {m1 : Model} {s1 : St}
    (h : parseLight m s = .ok m1 s1) :
    ∃ res, ObjAnimWF chanArity res ∧
      m1 = { m with Lights := m.Lights ++ [res],
                    Nodes := m.Nodes ++ [some res] } := by
  unfold parseLight at h
  obtain ⟨name?, sa, hname, h⟩ := andThen_eq_ok h
  obtain ⟨u1, sb, hu1, h⟩ := andThen_eq_ok h
  obtain ⟨res, sc, hr, h⟩ := andThen_eq_ok h
  obtain ⟨u2, sd, hu2, h⟩ := andThen_eq_ok h
  cases h
  refine ⟨res, ?_, rfl⟩
  refine runLoop_inv (P := fun o => ObjAnimWF chanArity o) ?_ hr (light0_WF name?)
  intro a s a1 s1 hb hp
  simp only at hb
  obtain ⟨kw?, s1b, hkw, hb⟩ := andThen_eq_ok hb
  cases kw? with
  | none => simp at hb
  | some kw0 =>
    simp only at hb
    obtain ⟨sk, s2b, hsk, hb⟩ := andThen_eq_ok hb
    obtain ⟨res1, s3b, hbr, hb⟩ := andThen_eq_ok hb
    cases hb
    split at hbr
    · -- animated channels
      rename_i hc
      obtain ⟨av0, s4b, hav0, hbr⟩ := andThen_eq_ok hbr
      cases hbr
      obtain ⟨hns, hc⟩ := hc
      rcases hc with hk | hk | hk | hk | hk | hk | hk | hk | hk | hk <;> rw [hk] <;>
        rw [hk] at hav0 <;>
        exact objSet_WF_anim hp (by decide) (avWF_ite (parseAnimVector_WF hav0))
    · split at hbr
      · cases hbr
        refine objSet_WF_nonanim hp ?_
        intro av; simp
      · split at hbr
        · -- static Color/AmbColor
          obtain ⟨b?, s4b, hb2, hbr⟩ := andThen_eq_ok hbr
          cases hbr
          refine objSet_WF_nonanim hp ?_
          intro av; simp
        · obtain ⟨n?, s4b, hn, hbr⟩ := andThen_eq_ok hbr
          cases hbr
          exact objSet_WF_nonanim hp noanim_opt_num

theorem ribbonEmitter0_WF {tab : String → Option Nat} (name? : Option String) :
    ObjAnimWF tab (ribbonEmitter0 name?) := by
  intro p hp av hav
  simp only [ribbonEmitter0, List.mem_cons, List.not_mem_nil, or_false] at hp
  rcases hp with h|h|h|h|h|h|h|h|h|h|h|h|h|h|h|h|h <;> subst h <;> cases name? <;>
    simp at hav

theorem parseRibbonEmitter_WF {m : Model} {s : St} {m1 : Model} {s1 : St}
    (h : parseRibbonEmitter m s = .ok m1 s1) :
    ∃ res, ObjAnimWF chanArity res ∧
      m1 = { m with RibbonEmitters := m.RibbonEmitters ++ [res],
                    Nodes := m.Nodes ++ [some res] } := by
  unfold parseRibbonEmitter at h
  obtain ⟨name?, sa, hname, h⟩ := andThen_eq_ok h
  obtain ⟨u1, sb, hu1, h⟩ := andThen_eq_ok h
  obtain ⟨res, sc, hr, h⟩ := andThen_eq_ok h
  obtain ⟨u2, sd, hu2, h⟩ := andThen_eq_ok h
  cases h
  refine ⟨res, ?_, rfl⟩
  refine runLoop_inv (P := fun o => ObjAnimWF chanArity o) ?_ hr (ribbonEmitter0_WF name?)
  intro a s a1 s1 hb hp
  simp only at hb
  obtain ⟨kw?, s1b, hkw, hb⟩ := andThen_eq_ok hb
  cases kw? with
  | none => simp at hb
  | some kw0 =>
    simp only at hb
    obtain ⟨sk, s2b, hsk, hb⟩ := andThen_eq_ok hb
    obtain ⟨res1, s3b, hbr, hb⟩ := andThen_eq_ok hb
    cases hb
    split at hbr
    · rename_i hc
      obtain ⟨av0, s4b, hav0, hbr⟩ := andThen_eq_ok hbr
      cases hbr
      obtain ⟨hns, hc⟩ := hc
      rcases hc with hk | hk | hk | hk | hk | hk | hk | hk <;> rw [hk] <;>
        rw [hk] at hav0 <;>
        exact objSet_WF_anim hp (by decide) (parseAnimVector_WF hav0)
    · split at hbr
      · obtain ⟨b?, s4b, hb2, hbr⟩ := andThen_eq_ok hbr
        cases hbr
        refine objSet_WF_nonanim hp ?_
        intro av; simp
      · obtain ⟨n?, s4b, hn, hbr⟩ := andThen_eq_ok hbr
        cases hbr
        exact objSet_WF_nonanim hp noanim_opt_num

theorem particleEmitter0_WF {tab : String → Option Nat} : ObjAnimWF tab particleEmitter0 := by
  intro p hp av hav
  simp only [particleEmitter0, List.mem_cons, List.not_mem_nil, or_false] at hp
  rcases hp with h | h | h | h <;> subst h <;> simp at hav

theorem parseParticleInner_WF {a : Obj} {s : St} {a1 : Obj} {s1 : St}
    (hb : parseParticleInner a s = .ok a1 s1) (hp : ObjAnimWF chanArity a) :
    ObjAnimWF chanArity a1 := by
  unfold parseParticleInner at hb
  obtain ⟨kw0?, s1b, hkw, hb⟩ := andThen_eq_ok hb
  obtain ⟨sk, s2b, hsk, hb⟩ := andThen_eq_ok hb
  obtain ⟨res1, s3b, hbr, hb⟩ := andThen_eq_ok hb
  cases hb
  split at hbr
  · rename_i hc
    obtain ⟨av0, s4b, hav0, hbr⟩ := andThen_eq_ok hbr
    cases hbr
    obtain ⟨hns, hc⟩ := hc
    rcases hc with hk | hk <;> rw [hk] <;>
      exact objSet_WF_anim hp (by decide) (parseAnimVector_WF hav0)
  · split at hbr
    · obtain ⟨n?, s4b, hn, hbr⟩ := andThen_eq_ok hbr
      cases hbr
      exact objSet_WF_nonanim hp noanim_opt_num
    · split at hbr
      · obtain ⟨p?, s4b, hpth, hbr⟩ := andThen_eq_ok hbr
        cases hbr
        refine objSet_WF_nonanim hp ?_
        intro av; cases p? <;> simp
      · cases hbr
        exact hp

theorem parseParticleEmitter_WF {m : Model} {s : St} {m1 : Model} {s1 : St}
    (h : parseParticleEmitter m s = .ok m1 s1) :
    ∃ res, ObjAnimWF chanArity res ∧
      m1 = { m with ParticleEmitters := m.ParticleEmitters ++ [res] } := by
  unfold parseParticleEmitter at h
  obtain ⟨name?, sa, hname, h⟩ := andThen_eq_ok h
  obtain ⟨u1, sb, hu1, h⟩ := andThen_eq_ok h
  obtain ⟨res, sc, hr, h⟩ := andThen_eq_ok h
  obtain ⟨u2, sd, hu2, h⟩ := andThen_eq_ok h
  cases h
  refine ⟨res, ?_, rfl⟩
  have h0 : ObjAnimWF chanArity
      (objSet particleEmitter0 "Name" (name?.elim Val.vnull Val.vstr)) := by
    refine objSet_WF_nonanim particleEmitter0_WF ?_
    intro av; cases name? <;> simp
  refine runLoop_inv (P := fun o => ObjAnimWF chanArity o) ?_ hr h0
  intro a s a1 s1 hb hp
  simp only at hb
  obtain ⟨kw?, s1b, hkw, hb⟩ := andThen_eq_ok hb
  cases kw? with
  | none => simp at hb
  | some kw0 =>
    simp only at hb
    obtain ⟨sk, s2b, hsk, hb⟩ := andThen_eq_ok hb
    obtain ⟨res1, s3b, hbr, hb⟩ := andThen_eq_ok hb
    cases hb
    split at hbr
    · obtain ⟨n?, s4b, hn, hbr⟩ := andThen_eq_ok hbr
      cases hbr
      exact objSet_WF_nonanim hp noanim_opt_num
    · split at hbr
      · cases hbr
        exact objSet_WF_nonanim hp (jsOrV_noanim _ _)
      · split at hbr
        · rename_i hc
          obtain ⟨av0, s4b, hav0, hbr⟩ := andThen_eq_ok hbr
          cases hbr
          obtain ⟨hns, hc⟩ := hc
          rcases hc with hk | hk | hk | hk | hk | hk | hk | hk <;> rw [hk] <;>
            rw [hk] at hav0 <;>
            exact objSet_WF_anim hp (by decide) (parseAnimVector_WF hav0)
        · split at hbr
          · -- Particle inner block
            obtain ⟨u3, s4b, hu3, hbr⟩ := andThen_eq_ok hbr
            obtain ⟨res2, s5b, hr2, hbr⟩ := andThen_eq_ok hbr
            obtain ⟨u4, s6b, hu4, hbr⟩ := andThen_eq_ok hbr
            cases hbr
            exact runLoop_inv (P := fun o => ObjAnimWF chanArity o)
              (fun a s a1 s1 hb hp => parseParticleInner_WF hb hp) hr2 hp
          · obtain ⟨n?, s4b, hn, hbr⟩ := andThen_eq_ok hbr
            cases hbr
            exact objSet_WF_nonanim hp noanim_opt_num

theorem particleEmitter20_WF {tab : String → Option Nat} (name? : Option String) :
    ObjAnimWF tab (particleEmitter20 name?) := by
  intro p hp av hav
  simp only [particleEmitter20, List.mem_cons, List.not_mem_nil, or_false] at hp
  rcases hp with h | h | h | h | h | h <;> subst h <;> cases name? <;> simp at hav

theorem parseParticleEmitter2_WF {m : Model} {s : St} {m1 : Model} {s1 : St}
    (h : parseParticleEmitter2 m s = .ok m1 s1) :
    ∃ res, ObjAnimWF chanArity res ∧
      m1 = { m with ParticleEmitters2 := m.ParticleEmitters2 ++ [res],
                    Nodes := m.Nodes ++ [some res] } := by
  unfold parseParticleEmitter2 at h
  obtain ⟨name?, sa, hname, h⟩ := andThen_eq_ok h
  obtain ⟨u1, sb, hu1, h⟩ := andThen_eq_ok h
  obtain ⟨res, sc, hr, h⟩ := andThen_eq_ok h
  obtain ⟨u2, sd, hu2, h⟩ := andThen_eq_ok h
  cases h
  refine ⟨res, ?_, rfl⟩
  refine runLoop_inv (P := fun o => ObjAnimWF chanArity o) ?_ hr (particleEmitter20_WF name?)
  intro a s a1 s1 hb hp
  simp only at hb
  obtain ⟨kw?, s1b, hkw, hb⟩ := andThen_eq_ok hb
  cases kw? with
  | none => exact Res.noConfusion hb
  | some kw0 =>
    simp only at hb
    obtain ⟨sk, s2b, hsk, hb⟩ := andThen_eq_ok hb
    obtain ⟨res1, s3b, hbr, hb⟩ := andThen_eq_ok hb
    cases hb
    by_cases c1 : ¬ sk.1 ∧ (sk.2 = "Speed" ∨ sk.2 = "Latitude" ∨ sk.2 = "Visibility" ∨
        sk.2 = "EmissionRate" ∨ sk.2 = "Width" ∨ sk.2 = "Length" ∨ sk.2 = "Translation" ∨
        sk.2 = "Rotation" ∨ sk.2 = "Scaling" ∨ sk.2 = "Gravity" ∨ sk.2 = "Variation")
    · rw [if_pos c1] at hbr
      obtain ⟨av0, s4b, hav0, hbr⟩ := andThen_eq_ok hbr
      cases hbr
      obtain ⟨hns, hc⟩ := c1
      rcases hc with hk|hk|hk|hk|hk|hk|hk|hk|hk|hk|hk <;> rw [hk] <;>
        rw [hk] at hav0 <;>
        exact objSet_WF_anim hp (by decide) (parseAnimVector_WF hav0)
    · rw [if_neg c1] at hbr
      by_cases c2 : sk.2 = "Variation" ∨ sk.2 = "Gravity"
      · rw [if_pos c2] at hbr
        obtain ⟨n?, s4b, hn, hbr⟩ := andThen_eq_ok hbr
        cases hbr
        exact objSet_WF_nonanim hp noanim_opt_num
      · rw [if_neg c2] at hbr
        by_cases c3 : sk.2 = "SortPrimsFarZ" ∨ sk.2 = "Unshaded" ∨ sk.2 = "LineEmitter" ∨
            sk.2 = "Unfogged" ∨ sk.2 = "ModelSpace" ∨ sk.2 = "XYQuad"
        · rw [if_pos c3] at hbr
          cases hbr
          exact objSet_WF_nonanim hp (jsOrV_noanim _ _)
        · rw [if_neg c3] at hbr
          by_cases c4 : sk.2 = "Both"
          · rw [if_pos c4] at hbr
            cases hbr
            exact objSet_WF_nonanim hp (jsOrV_noanim _ _)
          · rw [if_neg c4] at hbr
            by_cases c5 : sk.2 = "Head"
            · rw [if_pos c5] at hbr
              cases hbr
              exact objSet_WF_nonanim hp (jsOrV_noanim _ _)
            · rw [if_neg c5] at hbr
              by_cases c6 : sk.2 = "Tail"
              · rw [if_pos c6] at hbr
                cases hbr
                exact objSet_WF_nonanim hp (jsOrV_noanim _ _)
              · rw [if_neg c6] at hbr
                by_cases c7 : sk.2 = "Squirt"
                · rw [if_pos c7] at hbr
                  cases hbr
                  refine objSet_WF_nonanim hp ?_
                  intro av; simp
                · rw [if_neg c7] at hbr
                  by_cases c8 : sk.2 = "DontInherit"
                  · rw [if_pos c8] at hbr
                    obtain ⟨u3, s4b, hu3, hbr⟩ := andThen_eq_ok hbr
                    obtain ⟨v?, s5b, hv, hbr⟩ := andThen_eq_ok hbr
                    obtain ⟨u4, s6b, hu4, hbr⟩ := andThen_eq_ok hbr
                    cases hbr
                    have hgen : ∀ (b : Nat), ObjAnimWF chanArity
                        (if b = 0 then a else objSet a "Flags" (jsOrV (objGet a "Flags") b)) := by
                      intro b
                      split
                      · exact hp
                      · exact objSet_WF_nonanim hp (jsOrV_noanim _ _)
                    exact hgen _
                  · rw [if_neg c8] at hbr
                    by_cases c9 : sk.2 = "SegmentColor"
                    · rw [if_pos c9] at hbr
                      obtain ⟨u3, s4b, hu3, hbr⟩ := andThen_eq_ok hbr
                      obtain ⟨colors, s5b, hr2, hbr⟩ := andThen_eq_ok hbr
                      obtain ⟨u4, s6b, hu4, hbr⟩ := andThen_eq_ok hbr
                      cases hbr
                      refine objSet_WF_nonanim hp ?_
                      intro av; simp
                    · rw [if_neg c9] at hbr
                      by_cases c10 : sk.2 = "Alpha"
                      · rw [if_pos c10] at hbr
                        obtain ⟨b?, s4b, hb2, hbr⟩ := andThen_eq_ok hbr
                        cases hbr
                        refine objSet_WF_nonanim hp ?_
                        intro av; simp
                      · rw [if_neg c10] at hbr
                        by_cases c11 : sk.2 = "ParticleScaling"
                        · rw [if_pos c11] at hbr
                          obtain ⟨b?, s4b, hb2, hbr⟩ := andThen_eq_ok hbr
                          cases hbr
                          refine objSet_WF_nonanim hp ?_
                          intro av; simp
                        · rw [if_neg c11] at hbr
                          by_cases c12 : sk.2 = "LifeSpanUVAnim" ∨ sk.2 = "DecayUVAnim" ∨
                              sk.2 = "TailUVAnim" ∨ sk.2 = "TailDecayUVAnim"
                          · rw [if_pos c12] at hbr
                            obtain ⟨b?, s4b, hb2, hbr⟩ := andThen_eq_ok hbr
                            cases hbr
                            refine objSet_WF_nonanim hp ?_
                            intro av; simp
                          · rw [if_neg c12] at hbr
                            by_cases c13 : sk.2 = "Transparent" ∨ sk.2 = "Blend" ∨
                                sk.2 = "Additive" ∨ sk.2 = "AlphaKey" ∨
                                sk.2 = "Modulate" ∨ sk.2 = "Modulate2x"
                            · rw [if_pos c13] at hbr
                              cases hbr
                              refine objSet_WF_nonanim hp ?_
                              intro av; simp
                            · rw [if_neg c13] at hbr
                              obtain ⟨n?, s4b, hn, hbr⟩ := andThen_eq_ok hbr
                              cases hbr
                              exact objSet_WF_nonanim hp noanim_opt_num

theorem camera0_WF {tab : String → Option Nat} (name? : Option String) :
    ObjAnimWF tab (camera0 name?) := by
  intro p hp av hav
  simp only [camera0, List.mem_cons, List.not_mem_nil, or_false] at hp
  rcases hp with h | h | h | h | h | h <;> subst h <;> cases name? <;> simp at hav

theorem parseCamera_WF {m : Model} {s : St} {m1 : Model} {s1 : St}
    (h : parseCamera m s = .ok m1 s1) :
    ∃ res, ObjAnimWF camArity res ∧
      m1 = { m with Cameras := m.Cameras ++ [res] } := by
  unfold parseCamera at h
  obtain ⟨name?, sa, hname, h⟩ := andThen_eq_ok h
  obtain ⟨u1, sb, hu1, h⟩ := andThen_eq_ok h
  obtain ⟨res, sc, hr, h⟩ := andThen_eq_ok h
  obtain ⟨u2, sd, hu2, h⟩ := andThen_eq_ok h
  cases h
  refine ⟨res, ?_, rfl⟩
  refine runLoop_inv (P := fun o => ObjAnimWF camArity o) ?_ hr (camera0_WF name?)
  intro a s a1 s1 hb hp
  simp only at hb
  obtain ⟨kw?, s1b, hkw, hb⟩ := andThen_eq_ok hb
  cases kw? with
  | none => exact Res.noConfusion hb
  | some kw =>
    simp only at hb
    obtain ⟨res1, s3b, hbr, hb⟩ := andThen_eq_ok hb
    cases hb
    split at hbr
    · obtain ⟨b?, s4b, hb2, hbr⟩ := andThen_eq_ok hbr
      cases hbr
      refine objSet_WF_nonanim hp ?_
      intro av; simp
    · split at hbr
      · obtain ⟨n?, s4b, hn, hbr⟩ := andThen_eq_ok hbr
        cases hbr
        exact objSet_WF_nonanim hp noanim_opt_num
      · split at hbr
        · -- Target inner loop
          obtain ⟨u3, s4b, hu3, hbr⟩ := andThen_eq_ok hbr
          obtain ⟨res2, s5b, hr2, hbr⟩ := andThen_eq_ok hbr
          obtain ⟨u4, s6b, hu4, hbr⟩ := andThen_eq_ok hbr
          cases hbr
          refine runLoop_inv (P := fun o => ObjAnimWF camArity o) ?_ hr2 hp
          intro a2 s2c a3 s3c hb2 hp2
          simp only at hb2
          obtain ⟨kw2?, s4c, hkw2, hb2⟩ := andThen_eq_ok hb2
          obtain ⟨res3, s5c, hbr2, hb2⟩ := andThen_eq_ok hb2
          cases hb2
          split at hbr2
          · obtain ⟨b?, s6c, hb3, hbr2⟩ := andThen_eq_ok hbr2
            cases hbr2
            refine objSet_WF_nonanim hp2 ?_
            intro av; simp
          · split at hbr2
            · obtain ⟨av0, s6c, hav0, hbr2⟩ := andThen_eq_ok hbr2
              cases hbr2
              exact objSet_WF_anim hp2 (by decide) (parseAnimVector_WF hav0)
            · cases hbr2
              exact hp2
        · split at hbr
          · rename_i hnc1 hnc2 hnc3 hc
            obtain ⟨av0, s4b, hav0, hbr⟩ := andThen_eq_ok hbr
            cases hbr
            rcases hc with hk | hk <;> rw [hk] <;> rw [hk] at hav0 <;>
              exact objSet_WF_anim hp (by decide) (parseAnimVector_WF hav0)
          · cases hbr
            exact hp

theorem parseTextureAnims_WF {m : Model} {s : St} {m1 : Model} {s1 : St}
    (h : parseTextureAnims m s = .ok m1 s1) :
    ∃ objs, (∀ o ∈ objs, ObjAnimWF chanArity o) ∧
      m1 = { m with TextureAnims := objs } := by
  unfold parseTextureAnims at h
  obtain ⟨n0, sa, hn0, h⟩ := andThen_eq_ok h
  obtain ⟨u1, sb, hu1, h⟩ := andThen_eq_ok h
  obtain ⟨res, sc, hr, h⟩ := andThen_eq_ok h
  obtain ⟨u2, sd, hu2, h⟩ := andThen_eq_ok h
  cases h
  refine ⟨res, ?_, rfl⟩
  refine runLoop_inv (P := fun l => ∀ o ∈ l, ObjAnimWF chanArity o) ?_ hr (by simp)
  intro a s a1 s1 hb hp
  simp only at hb
  obtain ⟨kw?, s1b, hkw, hb⟩ := andThen_eq_ok hb
  obtain ⟨u3, s2b, hu3, hb⟩ := andThen_eq_ok hb
  obtain ⟨o, s3b, hro, hb⟩ := andThen_eq_ok hb
  obtain ⟨u4, s4b, hu4, hb⟩ := andThen_eq_ok hb
  cases hb
  have ho : ObjAnimWF chanArity o := by
    refine runLoop_inv (P := fun o => ObjAnimWF chanArity o) ?_ hro ?_
    · intro a2 s2c a3 s3c hb2 hp2
      simp only at hb2
      obtain ⟨kw2?, s4c, hkw2, hb2⟩ := andThen_eq_ok hb2
      cases kw2? with
      | none => exact Res.noConfusion hb2
      | some kw2 =>
        simp only at hb2
        split at hb2
        · rename_i hc
          obtain ⟨av0, s5c, hav0, hb2⟩ := andThen_eq_ok hb2
          cases hb2
          rcases hc with hk | hk | hk <;> rw [hk] <;> rw [hk] at hav0 <;>
            exact objSet_WF_anim hp2 (by decide) (parseAnimVector_WF hav0)
        · exact Res.noConfusion hb2
    · intro p hp2
      simp at hp2
  intro o2 ho2
  rcases List.mem_append.mp ho2 with h1 | h2
  · exact hp o2 h1
  · have : o2 = o := by simpa using h2
    subst this
    exact ho

theorem parseMaterials_WF {m : Model} {s : St} {m1 : Model} {s1 : St}
    (h : parseMaterials m s = .ok m1 s1) :
    ∃ mats, (∀ mat ∈ mats, MatWF mat) ∧ m1 = { m with Materials := mats } := by
  unfold parseMaterials at h
  obtain ⟨n0, sa, hn0, h⟩ := andThen_eq_ok h
  obtain ⟨u1, sb, hu1, h⟩ := andThen_eq_ok h
  obtain ⟨res, sc, hr, h⟩ := andThen_eq_ok h
  obtain ⟨u2, sd, hu2, h⟩ := andThen_eq_ok h
  cases h
  refine ⟨res, ?_, rfl⟩
  refine runLoop_inv (P := fun l => ∀ mat ∈ l, MatWF mat) ?_ hr (by simp)
  intro a s a1 s1 hb hp
  simp only at hb
  obtain ⟨kw?, s1b, hkw, hb⟩ := andThen_eq_ok hb
  obtain ⟨u3, s2b, hu3, hb⟩ := andThen_eq_ok hb
  obtain ⟨mat, s3b, hrm, hb⟩ := andThen_eq_ok hb
  obtain ⟨u4, s4b, hu4, hb⟩ := andThen_eq_ok hb
  cases hb
  have hmat : MatWF mat := by
    refine runLoop_inv (P := MatWF) ?_ hrm ?_
    · intro a2 s2c a3 s3c hb2 hp2
      simp only at hb2
      obtain ⟨kw2?, s4c, hkw2, hb2⟩ := andThen_eq_ok hb2
      cases kw2? with
      | none => exact Res.noConfusion hb2
      | some kw2 =>
        simp only at hb2
        obtain ⟨mat3, s5c, hbr2, hb2⟩ := andThen_eq_ok hb2
        cases hb2
        split at hbr2
        · obtain ⟨l, s6c, hl, hbr2⟩ := andThen_eq_ok hbr2
          cases hbr2
          refine ⟨?_, hp2.2⟩
          intro l2 hl2
          rcases List.mem_append.mp hl2 with h1 | h2
          · exact hp2.1 l2 h1
          · have : l2 = l := by simpa using h2
            subst this
            exact parseLayer_WF hl
        · split at hbr2
          · obtain ⟨n?, s6c, hn, hbr2⟩ := andThen_eq_ok hbr2
            cases hbr2
            refine ⟨hp2.1, ?_⟩
            intro v hv
            cases hv
            cases n? <;> (intro av; simp)
          · split at hbr2
            · cases hbr2
              exact hp2
            · exact Res.noConfusion hbr2
    · exact ⟨by simp, by simp⟩
  intro mat2 hmat2
  rcases List.mem_append.mp hmat2 with h1 | h2
  · exact hp mat2 h1
  · have : mat2 = mat := by simpa using h2
    subst this
    exact hmat

theorem parseVersion_WF {m : Model} {s : St} {m1 : Model} {s1 : St}
    (h : parseVersion m s = .ok m1 s1) :
    m1 = m ∨ ∃ v, NoAnimV v ∧ m1 = { m with Version := v } := by
  unfold parseVersion at h
  obtain ⟨po, sa, hpo, h⟩ := andThen_eq_ok h
  cases h
  obtain ⟨pfx, o⟩ := po
  split
  · right
    refine ⟨(objGet o "FormatVersion").getD Val.vnull, ?_, rfl⟩
    cases hg : objGet o "FormatVersion" with
    | none => simp; intro av; simp
    | some v =>
      simp only [hg, Option.getD_some]
      have := (parseObject_WF (fun _ => none) hpo).2
      unfold ObjAnimWF at this
      unfold objGet at hg
      cases hf : List.find? (fun p => p.1 = "FormatVersion") o with
      | none => rw [hf] at hg; simp at hg
      | some p =>
        rw [hf] at hg
        simp at hg
        intro av hav
        have hpmem := List.mem_of_find?_eq_some hf
        have := this p hpmem av (by rw [hg, hav])
        obtain ⟨n, hn, _⟩ := this
        simp at hn
  · left; rfl

theorem parseModelInfo_WF {m : Model} {s : St} {m1 : Model} {s1 : St}
    (h : parseModelInfo m s = .ok m1 s1) :
    ∃ o, ObjAnimWF chanArity o ∧ m1 = { m with Info := o } := by
  unfold parseModelInfo at h
  obtain ⟨po, sa, hpo, h⟩ := andThen_eq_ok h
  cases h
  obtain ⟨pfx, o⟩ := po
  obtain ⟨hpfx, ho⟩ := parseObject_WF chanArity hpo
  exact ⟨objSet o "Name" pfx, objSet_WF_nonanim ho hpfx, rfl⟩

theorem parseSequences_WF {m : Model} {s : St} {m1 : Model} {s1 : St}
    (h : parseSequences m s = .ok m1 s1) :
    ∃ objs, (∀ o ∈ objs, ObjAnimWF chanArity o) ∧
      m1 = { m with Sequences := objs } := by
  unfold parseSequences at h
  obtain ⟨n0, sa, hn0, h⟩ := andThen_eq_ok h
  obtain ⟨u1, sb, hu1, h⟩ := andThen_eq_ok h
  obtain ⟨res, sc, hr, h⟩ := andThen_eq_ok h
  obtain ⟨u2, sd, hu2, h⟩ := andThen_eq_ok h
  cases h
  refine ⟨res, ?_, rfl⟩
  refine runLoop_inv (P := fun l => ∀ o ∈ l, ObjAnimWF chanArity o) ?_ hr (by simp)
  intro a s a1 s1 hb hp
  simp only at hb
  obtain ⟨kw?, s1b, hkw, hb⟩ := andThen_eq_ok hb
  obtain ⟨po, s2b, hpo, hb⟩ := andThen_eq_ok hb
  cases hb
  obtain ⟨pfx, o⟩ := po
  obtain ⟨hpfx, ho⟩ := parseObject_WF chanArity hpo
  intro o2 ho2
  rcases List.mem_append.mp ho2 with h1 | h2
  · exact hp o2 h1
  · have ho2e : o2 = objSet (objSet o "Name" pfx) "NonLooping"
        (Val.vbool (objHas (objSet o "Name" pfx) "NonLooping")) := by simpa using h2
    subst ho2e
    refine objSet_WF_nonanim (objSet_WF_nonanim ho hpfx) ?_
    intro av; simp

theorem parseTextures_WF {m : Model} {s : St} {m1 : Model} {s1 : St}
    (h : parseTextures m s = .ok m1 s1) :
    ∃ objs, (∀ o ∈ objs, ObjAnimWF chanArity o) ∧
      m1 = { m with Textures := objs } := by
  unfold parseTextures at h
  obtain ⟨n0, sa, hn0, h⟩ := andThen_eq_ok h
  obtain ⟨u1, sb, hu1, h⟩ := andThen_eq_ok h
  obtain ⟨res, sc, hr, h⟩ := andThen_eq_ok h
  obtain ⟨u2, sd, hu2, h⟩ := andThen_eq_ok h
  cases h
  refine ⟨res, ?_, rfl⟩
  refine runLoop_inv (P := fun l => ∀ o ∈ l, ObjAnimWF chanArity o) ?_ hr (by simp)
  intro a s a1 s1 hb hp
  simp only at hb
  obtain ⟨kw?, s1b, hkw, hb⟩ := andThen_eq_ok hb
  obtain ⟨po, s2b, hpo, hb⟩ := andThen_eq_ok hb
  cases hb
  obtain ⟨pfx, o⟩ := po
  obtain ⟨hpfx, ho⟩ := parseObject_WF chanArity hpo
  intro o2 ho2
  rcases List.mem_append.mp ho2 with h1 | h2
  · exact hp o2 h1
  · have hW : ∀ (o3 : Obj), ObjAnimWF chanArity o3 →
        ObjAnimWF chanArity (if objHas o3 "WrapWidth" then
          objDel (objSet o3 "Flags" (Val.vnum (jsAdd (valToNum (objGet o3 "Flags")) (JsNum.fin 1 0)))) "WrapWidth"
        else o3) := by
      intro o3 h3
      split
      · refine objDel_WF (objSet_WF_nonanim h3 ?_)
        intro av; simp
      · exact h3
    have hH : ∀ (o3 : Obj), ObjAnimWF chanArity o3 →
        ObjAnimWF chanArity (if objHas o3 "WrapHeight" then
          objDel (objSet o3 "Flags" (Val.vnum (jsAdd (valToNum (objGet o3 "Flags")) (JsNum.fin 2 0)))) "WrapHeight"
        else o3) := by
      intro o3 h3
      split
      · refine objDel_WF (objSet_WF_nonanim h3 ?_)
        intro av; simp
      · exact h3
    have h0 : ObjAnimWF chanArity (objSet o "Flags" (Val.vnum jzero)) := by
      refine objSet_WF_nonanim ho ?_
      intro av; simp
    simp only [List.mem_singleton] at h2
    subst h2
    exact hH _ (hW _ h0)

set_option maxHeartbeats 2000000 in
theorem parseGeoset_WF {m : Model} {s : St} {m1 : Model} {s1 : St}
    (h : parseGeoset m s = .ok m1 s1) :
    ∃ g, (∀ o ∈ g.Anims, ObjAnimWF chanArity o) ∧
      m1 = { m with Geosets := m.Geosets ++ [g] } := by
  unfold parseGeoset at h
  obtain ⟨u1, sa, hu1, h⟩ := andThen_eq_ok h
  obtain ⟨g, sb, hr, h⟩ := andThen_eq_ok h
  obtain ⟨u2, sc, hu2, h⟩ := andThen_eq_ok h
  cases h
  refine ⟨g, ?_, rfl⟩
  refine runLoop_inv (P := fun g => ∀ o ∈ g.Anims, ObjAnimWF chanArity o) ?_ hr (by simp [geoset0])
  intro a s a1 s1 hb hp
  simp only at hb
  obtain ⟨kw?, s1b, hkw, hb⟩ := andThen_eq_ok hb
  cases kw? with
  | none => exact Res.noConfusion hb
  | some kw =>
    simp only at hb
    obtain ⟨g1, s3b, hbr, hb⟩ := andThen_eq_ok hb
    cases hb
    split at hbr
    · -- Vertices/Normals/TVertices
      obtain ⟨cnt?, s4b, hcnt, hbr⟩ := andThen_eq_ok hbr
      split at hbr
      · exact Res.noConfusion hbr
      · obtain ⟨u3, s5b, hu3, hbr⟩ := andThen_eq_ok hbr
        obtain ⟨b, s6b, hb2, hbr⟩ := andThen_eq_ok hbr
        obtain ⟨u4, s7b, hu4, hbr⟩ := andThen_eq_ok hbr
        split at hbr
        · cases hbr; exact hp
        · split at hbr
          · cases hbr; exact hp
          · cases hbr; exact hp
    · split at hbr
      · -- VertexGroup
        split at hbr
        · exact Res.noConfusion hbr
        · obtain ⟨b?, s4b, hb2, hbr⟩ := andThen_eq_ok hbr
          cases hbr
          exact hp
      · split at hbr
        · -- Faces
          obtain ⟨n1, s4b, hn1, hbr⟩ := andThen_eq_ok hbr
          obtain ⟨ic?, s5b, hic, hbr⟩ := andThen_eq_ok hbr
          split at hbr
          · exact Res.noConfusion hbr
          · obtain ⟨u3, s6b, hu3, hbr⟩ := andThen_eq_ok hbr
            obtain ⟨kw2, s7b, hkw2, hbr⟩ := andThen_eq_ok hbr
            obtain ⟨u4, s8b, hu4, hbr⟩ := andThen_eq_ok hbr
            obtain ⟨b?, s9b, hb2, hbr⟩ := andThen_eq_ok hbr
            obtain ⟨u5, s10b, hu5, hbr⟩ := andThen_eq_ok hbr
            obtain ⟨u6, s11b, hu6, hbr⟩ := andThen_eq_ok hbr
            cases hbr
            exact hp
        · split at hbr
          · -- Groups
            obtain ⟨n1, s4b, hn1, hbr⟩ := andThen_eq_ok hbr
            obtain ⟨tot?, s5b, htot, hbr⟩ := andThen_eq_ok hbr
            obtain ⟨u3, s6b, hu3, hbr⟩ := andThen_eq_ok hbr
            obtain ⟨groups, s7b, hgr, hbr⟩ := andThen_eq_ok hbr
            obtain ⟨u4, s8b, hu4, hbr⟩ := andThen_eq_ok hbr
            cases hbr
            exact hp
          · split at hbr
            · -- extents
              obtain ⟨b?, s4b, hb2, hbr⟩ := andThen_eq_ok hbr
              obtain ⟨u3, s5b, hu3, hbr⟩ := andThen_eq_ok hbr
              split at hbr
              · cases hbr; exact hp
              · cases hbr; exact hp
            · split at hbr
              · obtain ⟨n?, s4b, hn, hbr⟩ := andThen_eq_ok hbr
                obtain ⟨u3, s5b, hu3, hbr⟩ := andThen_eq_ok hbr
                split at hbr
                · cases hbr; exact hp
                · split at hbr
                  · cases hbr; exact hp
                  · cases hbr; exact hp
              · split at hbr
                · -- Anim
                  obtain ⟨po, s4b, hpo, hbr⟩ := andThen_eq_ok hbr
                  cases hbr
                  obtain ⟨pfx, o⟩ := po
                  obtain ⟨hpfx, ho⟩ := parseObject_WF chanArity hpo
                  intro o2 ho2
                  rcases List.mem_append.mp ho2 with h1 | h2
                  · exact hp o2 h1
                  · simp only [List.mem_singleton] at h2
                    subst h2
                    split
                    · refine objSet_WF_nonanim ho ?_
                      intro av; simp
                    · exact ho
                · split at hbr
                  · obtain ⟨u3, s4b, hu3, hbr⟩ := andThen_eq_ok hbr
                    cases hbr
                    exact hp
                  · cases hbr
                    exact hp

theorem parsePivotPoints_shape {m : Model} {s : St} {m1 : Model} {s1 : St}
    (h : parsePivotPoints m s = .ok m1 s1) :
    ∃ pv, m1 = { m with PivotPoints := pv } := by
  unfold parsePivotPoints at h
  obtain ⟨cnt?, sa, hcnt, h⟩ := andThen_eq_ok h
  obtain ⟨u1, sb, hu1, h⟩ := andThen_eq_ok h
  obtain ⟨res, sc, hr, h⟩ := andThen_eq_ok h
  obtain ⟨u2, sd, hu2, h⟩ := andThen_eq_ok h
  cases h
  exact ⟨res, rfl⟩

theorem parseGlobalSequences_shape {m : Model} {s : St} {m1 : Model} {s1 : St}
    (h : parseGlobalSequences m s = .ok m1 s1) :
    ∃ gs, m1 = { m with GlobalSequences := gs } := by
  unfold parseGlobalSequences at h
  obtain ⟨cnt?, sa, hcnt, h⟩ := andThen_eq_ok h
  obtain ⟨u1, sb, hu1, h⟩ := andThen_eq_ok h
  obtain ⟨res, sc, hr, h⟩ := andThen_eq_ok h
  obtain ⟨u2, sd, hu2, h⟩ := andThen_eq_ok h
  cases h
  exact ⟨res, rfl⟩

theorem appended_WF {l : List Obj} {o : Obj} {tab : String → Option Nat}
    (hl : ∀ x ∈ l, ObjAnimWF tab x) (ho : ObjAnimWF tab o) :
    ∀ x ∈ l ++ [o], ObjAnimWF tab x := by
  intro x hx
  rcases List.mem_append.mp hx with h1 | h2
  · exact hl x h1
  · simp only [List.mem_singleton] at h2
    subst h2
    exact ho

theorem nodes_appended_WF {l : List (Option Obj)} {o : Obj}
    (hl : ∀ o? ∈ l, ∀ x, o? = some x → ObjAnimWF chanArity x)
    (ho : ObjAnimWF chanArity o) :
    ∀ o? ∈ l ++ [some o], ∀ x, o? = some x → ObjAnimWF chanArity x := by
  intro o? ho? x hx
  rcases List.mem_append.mp ho? with h1 | h2
  · exact hl o? h1 x hx
  · simp only [List.mem_singleton] at h2
    subst h2
    cases hx
    exact ho

theorem nodes_assign_WF {l : List (Option Obj)} {v : Option Val} {o : Obj}
    (hl : ∀ o? ∈ l, ∀ x, o? = some x → ObjAnimWF chanArity x)
    (ho : ObjAnimWF chanArity o) :
    ∀ o? ∈ nodesAssign l v o, ∀ x, o? = some x → ObjAnimWF chanArity x := by
  unfold nodesAssign
  split
  all_goals try exact hl
  split
  all_goals try exact hl
  split
  all_goals try exact hl
  unfold setExtend
  split
  · intro o? ho? x hx
    rcases List.mem_or_eq_of_mem_set ho? with h1 | h2
    · exact hl o? h1 x hx
    · subst h2; cases hx; exact ho
  · intro o? ho? x hx
    rcases List.mem_append.mp ho? with h1 | h2
    · rcases List.mem_append.mp h1 with h3 | h4
      · exact hl o? h3 x hx
      · have := List.eq_of_mem_replicate h4
        subst this
        cases hx
    · simp only [List.mem_singleton] at h2
      subst h2
      cases hx
      exact ho

theorem pres_Version {m : Model} {s : St} {m1 : Model} {s1 : St}
    (h : parseVersion m s = .ok m1 s1) (hwf : ModelAnimWF m) : ModelAnimWF m1 := by
  rcases parseVersion_WF h with h1 | ⟨v, hv, h1⟩ <;> subst h1
  · exact hwf
  · exact { hwf with version := hv }

theorem pres_ModelInfo {m : Model} {s : St} {m1 : Model} {s1 : St}
    (h : parseModelInfo m s = .ok m1 s1) (hwf : ModelAnimWF m) : ModelAnimWF m1 := by
  obtain ⟨o, ho, h1⟩ := parseModelInfo_WF h
  subst h1
  exact { hwf with info := ho }

theorem pres_Sequences {m : Model} {s : St} {m1 : Model} {s1 : St}
    (h : parseSequences m s = .ok m1 s1) (hwf : ModelAnimWF m) : ModelAnimWF m1 := by
  obtain ⟨objs, ho, h1⟩ := parseSequences_WF h
  subst h1
  exact { hwf with seqs := ho }

theorem pres_Textures {m : Model} {s : St} {m1 : Model} {s1 : St}
    (h : parseTextures m s = .ok m1 s1) (hwf : ModelAnimWF m) : ModelAnimWF m1 := by
  obtain ⟨objs, ho, h1⟩ := parseTextures_WF h
  subst h1
  exact { hwf with texs := ho }

theorem pres_Materials {m : Model} {s : St} {m1 : Model} {s1 : St}
    (h : parseMaterials m s = .ok m1 s1) (hwf : ModelAnimWF m) : ModelAnimWF m1 := by
  obtain ⟨mats, ho, h1⟩ := parseMaterials_WF h
  subst h1
  exact { hwf with mats := ho }

theorem pres_Geoset {m : Model} {s : St} {m1 : Model} {s1 : St}
    (h : parseGeoset m s = .ok m1 s1) (hwf : ModelAnimWF m) : ModelAnimWF m1 := by
  obtain ⟨g, hg, h1⟩ := parseGeoset_WF h
  subst h1
  refine { hwf with geos := ?_ }
  intro g2 hg2
  rcases List.mem_append.mp hg2 with h1 | h2
  · exact hwf.geos g2 h1
  · simp only [List.mem_singleton] at h2
    subst h2
    exact hg

theorem pres_GeosetAnim {m : Model} {s : St} {m1 : Model} {s1 : St}
    (h : parseGeosetAnim m s = .ok m1 s1) (hwf : ModelAnimWF m) : ModelAnimWF m1 := by
  obtain ⟨res, hr, h1⟩ := parseGeosetAnim_WF h
  subst h1
  exact { hwf with ganims := appended_WF hwf.ganims hr }

theorem pres_Bone {m : Model} {s : St} {m1 : Model} {s1 : St}
    (h : parseBone m s = .ok m1 s1) (hwf : ModelAnimWF m) : ModelAnimWF m1 := by
  obtain ⟨node, hn, h1⟩ := parseBone_WF h
  subst h1
  exact { hwf with bones := appended_WF hwf.bones hn,
                   nodes := nodes_assign_WF hwf.nodes hn }

theorem pres_Helper {m : Model} {s : St} {m1 : Model} {s1 : St}
    (h : parseHelper m s = .ok m1 s1) (hwf : ModelAnimWF m) : ModelAnimWF m1 := by
  obtain ⟨node, hn, h1⟩ := parseHelper_WF h
  subst h1
  exact { hwf with helpers := appended_WF hwf.helpers hn,
                   nodes := nodes_assign_WF hwf.nodes hn }

theorem pres_Attachment {m : Model} {s : St} {m1 : Model} {s1 : St}
    (h : parseAttachment m s = .ok m1 s1) (hwf : ModelAnimWF m) : ModelAnimWF m1 := by
  obtain ⟨node, hn, h1⟩ := parseAttachment_WF h
  subst h1
  exact { hwf with attachments := appended_WF hwf.attachments hn,
                   nodes := nodes_assign_WF hwf.nodes hn }

theorem pres_PivotPoints {m : Model} {s : St} {m1 : Model} {s1 : St}
    (h : parsePivotPoints m s = .ok m1 s1) (hwf : ModelAnimWF m) : ModelAnimWF m1 := by
  obtain ⟨pv, h1⟩ := parsePivotPoints_shape h
  subst h1
  exact { hwf with }

theorem pres_EventObject {m : Model} {s : St} {m1 : Model} {s1 : St}
    (h : parseEventObject m s = .ok m1 s1) (hwf : ModelAnimWF m) : ModelAnimWF m1 := by
  obtain ⟨res, hr, h1⟩ := parseEventObject_WF h
  subst h1
  exact { hwf with eos := appended_WF hwf.eos hr,
                   nodes := nodes_appended_WF hwf.nodes hr }

theorem pres_CollisionShape {m : Model} {s : St} {m1 : Model} {s1 : St}
    (h : parseCollisionShape m s = .ok m1 s1) (hwf : ModelAnimWF m) : ModelAnimWF m1 := by
  obtain ⟨res, hr, h1⟩ := parseCollisionShape_WF h
  subst h1
  exact { hwf with css := appended_WF hwf.css hr,
                   nodes := nodes_appended_WF hwf.nodes hr }

theorem pres_GlobalSequences {m : Model} {s : St} {m1 : Model} {s1 : St}
    (h : parseGlobalSequences m s = .ok m1 s1) (hwf : ModelAnimWF m) : ModelAnimWF m1 := by
  obtain ⟨gs, h1⟩ := parseGlobalSequences_shape h
  subst h1
  exact { hwf with }

theorem pres_ParticleEmitter {m : Model} {s : St} {m1 : Model} {s1 : St}
    (h : parseParticleEmitter m s = .ok m1 s1) (hwf : ModelAnimWF m) : ModelAnimWF m1 := by
  obtain ⟨res, hr, h1⟩ := parseParticleEmitter_WF h
  subst h1
  exact { hwf with pes := appended_WF hwf.pes hr }

theorem pres_ParticleEmitter2 {m : Model} {s : St} {m1 : Model} {s1 : St}
    (h : parseParticleEmitter2 m s = .ok m1 s1) (hwf : ModelAnimWF m) : ModelAnimWF m1 := by
  obtain ⟨res, hr, h1⟩ := parseParticleEmitter2_WF h
  subst h1
  exact { hwf with pe2s := appended_WF hwf.pe2s hr,
                   nodes := nodes_appended_WF hwf.nodes hr }

theorem pres_Camera {m : Model} {s : St} {m1 : Model} {s1 : St}
    (h : parseCamera m s = .ok m1 s1) (hwf : ModelAnimWF m) : ModelAnimWF m1 := by
  obtain ⟨res, hr, h1⟩ := parseCamera_WF h
  subst h1
  exact { hwf with cams := appended_WF hwf.cams hr }

theorem pres_Light {m : Model} {s : St} {m1 : Model} {s1 : St}
    (h : parseLight m s = .ok m1 s1) (hwf : ModelAnimWF m) : ModelAnimWF m1 := by
  obtain ⟨res, hr, h1⟩ := parseLight_WF h
  subst h1
  exact { hwf with lights := appended_WF hwf.lights hr,
                   nodes := nodes_appended_WF hwf.nodes hr }

theorem pres_TextureAnims {m : Model} {s : St} {m1 : Model} {s1 : St}
    (h : parseTextureAnims m s = .ok m1 s1) (hwf : ModelAnimWF m) : ModelAnimWF m1 := by
  obtain ⟨objs, ho, h1⟩ := parseTextureAnims_WF h
  subst h1
  exact { hwf with tvas := ho }

theorem pres_RibbonEmitter {m : Model} {s : St} {m1 : Model} {s1 : St}
    (h : parseRibbonEmitter m s = .ok m1 s1) (hwf : ModelAnimWF m) : ModelAnimWF m1 := by
  obtain ⟨res, hr, h1⟩ := parseRibbonEmitter_WF h
  subst h1
  exact { hwf with ribbons := appended_WF hwf.ribbons hr,
                   nodes := nodes_appended_WF hwf.nodes hr }

theorem dispatchKw_WF {kw : String} {m : Model} {s : St} {m1 : Model} {s1 : St}
    (h : dispatchKw kw m s = .ok m1 s1) (hwf : ModelAnimWF m) : ModelAnimWF m1 := by
  unfold dispatchKw at h
  by_cases c0 : kw = "Version"
  · rw [if_pos c0] at h
    exact pres_Version h hwf
  · rw [if_neg c0] at h
    by_cases c1 : kw = "Model"
    · rw [if_pos c1] at h
      exact pres_ModelInfo h hwf
    · rw [if_neg c1] at h
      by_cases c2 : kw = "Sequences"
      · rw [if_pos c2] at h
        exact pres_Sequences h hwf
      · rw [if_neg c2] at h
        by_cases c3 : kw = "Textures"
        · rw [if_pos c3] at h
          exact pres_Textures h hwf
        · rw [if_neg c3] at h
          by_cases c4 : kw = "Materials"
          · rw [if_pos c4] at h
            exact pres_Materials h hwf
          · rw [if_neg c4] at h
            by_cases c5 : kw = "Geoset"
            · rw [if_pos c5] at h
              exact pres_Geoset h hwf
            · rw [if_neg c5] at h
              by_cases c6 : kw = "GeosetAnim"
              · rw [if_pos c6] at h
                exact pres_GeosetAnim h hwf
              · rw [if_neg c6] at h
                by_cases c7 : kw = "Bone"
                · rw [if_pos c7] at h
                  exact pres_Bone h hwf
                · rw [if_neg c7] at h
                  by_cases c8 : kw = "Helper"
                  · rw [if_pos c8] at h
                    exact pres_Helper h hwf
                  · rw [if_neg c8] at h
                    by_cases c9 : kw = "Attachment"
                    · rw [if_pos c9] at h
                      exact pres_Attachment h hwf
                    · rw [if_neg c9] at h
                      by_cases c10 : kw = "PivotPoints"
                      · rw [if_pos c10] at h
                        exact pres_PivotPoints h hwf
                      · rw [if_neg c10] at h
                        by_cases c11 : kw = "EventObject"
                        · rw [if_pos c11] at h
                          exact pres_EventObject h hwf
                        · rw [if_neg c11] at h
                          by_cases c12 : kw = "CollisionShape"
                          · rw [if_pos c12] at h
                            exact pres_CollisionShape h hwf
                          · rw [if_neg c12] at h
                            by_cases c13 : kw = "GlobalSequences"
                            · rw [if_pos c13] at h
                              exact pres_GlobalSequences h hwf
                            · rw [if_neg c13] at h
                              by_cases c14 : kw = "ParticleEmitter"
                              · rw [if_pos c14] at h
                                exact pres_ParticleEmitter h hwf
                              · rw [if_neg c14] at h
                                by_cases c15 : kw = "ParticleEmitter2"
                                · rw [if_pos c15] at h
                                  exact pres_ParticleEmitter2 h hwf
                                · rw [if_neg c15] at h
                                  by_cases c16 : kw = "Camera"
                                  · rw [if_pos c16] at h
                                    exact pres_Camera h hwf
                                  · rw [if_neg c16] at h
                                    by_cases c17 : kw = "Light"
                                    · rw [if_pos c17] at h
                                      exact pres_Light h hwf
                                    · rw [if_neg c17] at h
                                      by_cases c18 : kw = "TextureAnims"
                                      · rw [if_pos c18] at h
                                        exact pres_TextureAnims h hwf
                                      · rw [if_neg c18] at h
                                        by_cases c19 : kw = "RibbonEmitter"
                                        · rw [if_pos c19] at h
                                          exact pres_RibbonEmitter h hwf
                                        · rw [if_neg c19] at h
                                          cases h
                                          exact hwf

theorem topGo_WF :
    ∀ (fuel : Nat) {m : Model} {s : St} {m1 : Model} {s1 : St},
      topGo fuel m s = .ok m1 s1 → ModelAnimWF m → ModelAnimWF m1 := by
  intro fuel
  induction fuel with
  | zero => intro m s m1 s1 h _; simp [topGo] at h
  | succ n ih =>
    intro m s m1 s1 h hwf
    simp only [topGo] at h
    cases s with
    | nil => cases h; exact hwf
    | cons c t =>
      simp only at h
      obtain ⟨kw?, s2, hkw, h⟩ := andThen_eq_ok h
      cases kw? with
      | none => cases h; exact hwf
      | some kw =>
        simp only at h
        split at h
        · obtain ⟨m2, s3, hd, h⟩ := andThen_eq_ok h
          split at h
          · exact ih h (dispatchKw_WF hd hwf)
          · exact Res.noConfusion h
        · split at h
          · exact ih h hwf
          · exact Res.noConfusion h

theorem finalizeN_nodes_WF (pivots : List (Option (List JsNum))) :
    ∀ (k i : Nat) {nodes nodes1 : List (Option Obj)} {s1 : St},
      finalizeN pivots k i nodes = .ok nodes1 s1 →
      (∀ o? ∈ nodes, ∀ x, o? = some x → ObjAnimWF chanArity x) →
      ∀ o? ∈ nodes1, ∀ x, o? = some x → ObjAnimWF chanArity x := by
  intro k
  induction k with
  | zero =>
    intro i nodes nodes1 s1 h hn
    cases h
    exact hn
  | succ k2 ih =>
    intro i nodes nodes1 s1 h hn
    simp only [finalizeN] at h
    split at h
    · exact ih (i + 1) h hn
    · split at h
      · exact Res.noConfusion h
      · rename_i pv hpv node hnode
        refine ih (i + 1) h ?_
        intro o? ho? x hx
        rcases List.mem_or_eq_of_mem_set ho? with h1 | h2
        · exact hn o? h1 x hx
        · subst h2
          cases hx
          have hmem : (some node) ∈ nodes := by
            unfold List.getD at hnode
            cases hg : nodes.get? i with
            | none => rw [hg] at hnode; simp at hnode
            | some v =>
              rw [hg] at hnode
              simp at hnode
              subst hnode
              exact List.get?_mem hg
          refine objSet_WF_nonanim (hn (some node) hmem node rfl) ?_
          intro av; simp

theorem initModel_WF : ModelAnimWF initModel := by
  refine ⟨?_, ?_, ?_, ?_, ?_, ?_, ?_, ?_, ?_, ?_, ?_, ?_, ?_, ?_, ?_, ?_, ?_, ?_, ?_⟩
  · intro p hp av hav
    simp only [initModel, List.mem_cons, List.not_mem_nil, or_false] at hp
    rcases hp with h | h | h | h | h <;> subst h <;> simp at hav
  all_goals intro o ho
  all_goals simp [initModel] at ho

theorem parseCore_WF {cs : St} {m : Model} {s1 : St}
    (h : parseCore cs = .ok m s1) : ModelAnimWF m := by
  unfold parseCore at h
  obtain ⟨m2, s2, ht, h⟩ := andThen_eq_ok h
  unfold finalize at h
  obtain ⟨nodes, s3, hf, h⟩ := andThen_eq_ok h
  cases h
  have hm2 := topGo_WF _ ht initModel_WF
  exact { hm2 with
    nodes := finalizeN_nodes_WF m2.PivotPoints m2.Nodes.length 0 hf hm2.nodes }

theorem mdlParse_WF {str : String} {m : Model}
    (h : mdlParse str = .scene m) : ModelAnimWF m := by
  simp only [mdlParse] at h
  cases hc : parseCore str.data with
  | ok m2 s2 =>
    rw [hc] at h
    simp at h
    subst h
    exact parseCore_WF hc
  | err n ms => rw [hc] at h; simp at h
  | jerr ms => rw [hc] at h; simp at h
  | div => rw [hc] at h; simp at h
  | oof => rw [hc] at h; simp at h

theorem isNumFirst_not_space {c : Char} (h : isNumFirst c = true) :
    isSpaceJS c = false := by
  simp only [isNumFirst, Bool.decide_or, Bool.or_eq_true, decide_eq_true_eq] at h
  simp only [isSpaceJS, Bool.decide_or, Bool.or_eq_true, decide_eq_true_eq,
    Bool.or_eq_false_iff, decide_eq_false_iff_not]
  rcases h with h | ⟨h1, h2⟩
  · subst h; decide
  · have h1' : ('0' : Char).val ≤ c.val := h1
    have h2' : c.val ≤ ('9' : Char).val := h2
    refine ⟨?_, ?_, ?_, ?_, ?_, ?_⟩ <;> intro he <;> subst he <;> simp_all

theorem dropSpace_numToken {k : List Char} (hk : isNumToken k = true)
    (r : List Char) : dropSpace (k ++ r) = k ++ r := by
  match k with
  | [] => simp [isNumToken] at hk
  | c :: t =>
    simp only [isNumToken, Bool.decide_and, Bool.and_eq_true, decide_eq_true_eq] at hk
    simp [dropSpace, List.dropWhile_cons, isNumFirst_not_space hk.1]

theorem headIs_rbrace_numToken {k : List Char} (hk : isNumToken k = true)
    (r : List Char) : headIs '}' (k ++ r) = false := by
  match k with
  | [] => simp [isNumToken] at hk
  | c :: t =>
    simp only [isNumToken, Bool.decide_and, Bool.and_eq_true, decide_eq_true_eq] at hk
    have hc : ¬ c = '}' := by
      intro he; subst he; simp [isNumFirst] at hk
    simp [headIs, hc]

theorem arrLoop3 {sb sg sr : List Char}
    (hb : isNumToken sb = true) (hg : isNumToken sg = true) (hr : isNumToken sr = true)
    (b : Buf) (rest : List Char) :
    runLoop (fun _ s => headIs '}' s) parseArrayBody
      (b, 0) (sb ++ ',' :: ' ' :: (sg ++ ',' :: ' ' :: (sr ++ ' ' :: '}' :: rest))) =
      .ok (bufWrite (bufWrite (bufWrite b 0 (jsParseFloat sb)) 1 (jsParseFloat sg))
             2 (jsParseFloat sr), 3) ('}' :: rest) := by
  rw [runLoop_eq]
  rw [headIs_rbrace_numToken hb]
  simp only [Bool.false_eq_true, if_false, parseArrayBody]
  rw [parseNumber_token hb (' ' :: (sg ++ ',' :: ' ' :: (sr ++ ' ' :: '}' :: rest))) (by decide)]
  simp only [andThen_ok]
  simp only [show dropSpace (',' :: ' ' :: (sg ++ ',' :: ' ' :: (sr ++ ' ' :: '}' :: rest))) = ',' :: ' ' :: (sg ++ ',' :: ' ' :: (sr ++ ' ' :: '}' :: rest)) from rfl]
  simp only [parseSymbol, eq_self_iff_true, if_true]
  simp only [show dropSpace (' ' :: (sg ++ ',' :: ' ' :: (sr ++ ' ' :: '}' :: rest))) = sg ++ ',' :: ' ' :: (sr ++ ' ' :: '}' :: rest) from dropSpace_numToken hg _]
  rw [if_pos (by simp [List.length_append]; omega)]
  rw [runLoop_eq]
  rw [headIs_rbrace_numToken hg]
  simp only [Bool.false_eq_true, if_false, parseArrayBody]
  rw [parseNumber_token hg (' ' :: (sr ++ ' ' :: '}' :: rest)) (by decide)]
  simp only [andThen_ok]
  simp only [show dropSpace (',' :: ' ' :: (sr ++ ' ' :: '}' :: rest)) = ',' :: ' ' :: (sr ++ ' ' :: '}' :: rest) from rfl]
  simp only [parseSymbol, eq_self_iff_true, if_true]
  simp only [show dropSpace (' ' :: (sr ++ ' ' :: '}' :: rest)) = sr ++ ' ' :: '}' :: rest from dropSpace_numToken hr _]
  rw [if_pos (by simp [List.length_append]; omega)]
  rw [runLoop_eq]
  rw [headIs_rbrace_numToken hr]
  simp only [Bool.false_eq_true, if_false, parseArrayBody]
  rw [parseNumber_token hr ('}' :: rest) (by decide)]
  simp only [andThen_ok]
  simp only [show dropSpace (' ' :: '}' :: rest) = '}' :: rest from rfl]
  have hne : ¬ ('}' = ',') := by decide
  simp only [parseSymbol, if_neg hne]
  rw [if_pos (by simp [List.length_append]; omega)]
  rw [runLoop_eq]
  simp [headIs]

theorem parseArrayInto3_tokens {sb sg sr : List Char}
    (hb : isNumToken sb = true) (hg : isNumToken sg = true) (hr : isNumToken sr = true)
    (rest : List Char) :
    parseArrayInto (bufNew .f32 3) 0
      ('{' :: ' ' :: (sb ++ ',' :: ' ' :: (sg ++ ',' :: ' ' :: (sr ++ ' ' :: '}' :: rest)))) =
      .ok (some ⟨.f32, [jsParseFloat sb, jsParseFloat sg, jsParseFloat sr]⟩)
        (dropSpace rest) := by
  simp only [parseArrayInto]
  rw [show dropSpace (' ' :: (sb ++ ',' :: ' ' :: (sg ++ ',' :: ' ' :: (sr ++ ' ' :: '}' :: rest)))) = sb ++ ',' :: ' ' :: (sg ++ ',' :: ' ' :: (sr ++ ' ' :: '}' :: rest)) from dropSpace_numToken hb _]
  rw [arrLoop3 hb hg hr]
  simp only [andThen_ok, strictParseSymbol, eq_self_iff_true, if_true]
  simp [bufWrite, bufNew, coerceBK]

theorem parseArrayOrSingleItem3_tokens {sb sg sr : List Char}
    (hb : isNumToken sb = true) (hg : isNumToken sg = true) (hr : isNumToken sr = true)
    (rest : List Char) :
    parseArrayOrSingleItem (bufNew .f32 3)
      ('{' :: ' ' :: (sb ++ ',' :: ' ' :: (sg ++ ',' :: ' ' :: (sr ++ ' ' :: '}' :: rest)))) =
      .ok ⟨.f32, [jsParseFloat sb, jsParseFloat sg, jsParseFloat sr]⟩
        (dropSpace rest) := by
  simp only [parseArrayOrSingleItem]
  rw [show dropSpace (' ' :: (sb ++ ',' :: ' ' :: (sg ++ ',' :: ' ' :: (sr ++ ' ' :: '}' :: rest)))) = sb ++ ',' :: ' ' :: (sg ++ ',' :: ' ' :: (sr ++ ' ' :: '}' :: rest)) from dropSpace_numToken hb _]
  rw [arrLoop3 hb hg hr]
  simp only [andThen_ok, strictParseSymbol, eq_self_iff_true, if_true]
  simp [bufWrite, bufNew, coerceBK]



theorem topGo_nil (n : Nat) (m : Model) : topGo (n + 1) m [] = .ok m [] := rfl

theorem ga_static_eval {sb sg sr : List Char}
    (hb : isNumToken sb = true) (hg : isNumToken sg = true) (hr : isNumToken sr = true) :
    parseCore ("GeosetAnim \x7b static Color \x7b ".data ++
        sb ++ ',' :: ' ' :: (sg ++ ',' :: ' ' :: (sr ++ " \x7d, \x7d".data))) =
      .ok { initModel with GeosetAnims :=
        [objSet geosetAnim0 "Color"
          (Val.varr [jsParseFloat sr, jsParseFloat sg, jsParseFloat sb])] } [] := by
  simp only [parseCore]
  simp only [List.cons_append, List.nil_append]
  rw [topGo]
  simp only [skipComments, parseComment]
  simp [parseKeyword, dropSpace, List.takeWhile_cons, List.dropWhile_cons, isKwFirst,
    isKwOther, isSpaceJS, andThen_ok, parserNames, protoNames]
  simp only [dispatchKw, reduceCtorEq, String.reduceEq, if_false, if_true, ite_true, ite_false]
  simp only [parseGeosetAnim, strictParseSymbol, eq_self_iff_true, if_true, andThen_ok]
  simp [dropSpace, List.dropWhile_cons, isSpaceJS]
  rw [runLoop_eq]
  simp [headIs, parseKeyword, dropSpace, List.takeWhile_cons, List.dropWhile_cons,
    isKwFirst, isKwOther, isSpaceJS, andThen_ok]
  rw [parseArrayInto3_tokens hb hg hr]
  simp [dropSpace, parseSymbol, andThen_ok, List.dropWhile_cons, isSpaceJS]
  rw [runLoop_eq]
  simp [andThen_ok]
  rw [topGo_nil]
  simp [andThen_ok, finalize, finalizeN, initModel]
  simp

theorem light_static_eval {sb sg sr : List Char}
    (hb : isNumToken sb = true) (hg : isNumToken sg = true) (hr : isNumToken sr = true) :
    parseCore ("Light \"L\" \x7b static Color \x7b ".data ++
        sb ++ ',' :: ' ' :: (sg ++ ',' :: ' ' :: (sr ++
          (" \x7d, static AmbColor \x7b ".data ++
            sb ++ ',' :: ' ' :: (sg ++ ',' :: ' ' :: (sr ++ " \x7d, \x7d".data)))))) =
      .ok { initModel with
        Lights := [objSet (objSet (light0 (some "L")) "Color"
            (Val.varr [jsParseFloat sr, jsParseFloat sg, jsParseFloat sb])) "AmbColor"
            (Val.varr [jsParseFloat sr, jsParseFloat sg, jsParseFloat sb])],
        Nodes := [some (objSet (objSet (light0 (some "L")) "Color"
            (Val.varr [jsParseFloat sr, jsParseFloat sg, jsParseFloat sb])) "AmbColor"
            (Val.varr [jsParseFloat sr, jsParseFloat sg, jsParseFloat sb]))] } [] := by
  simp only [parseCore]
  simp only [List.cons_append, List.nil_append]
  rw [topGo]
  simp only [skipComments, parseComment]
  simp [parseKeyword, dropSpace, List.takeWhile_cons, List.dropWhile_cons, isKwFirst,
    isKwOther, isSpaceJS, andThen_ok, parserNames, protoNames]
  simp only [dispatchKw, reduceCtorEq, String.reduceEq, if_false, if_true, ite_true, ite_false]
  simp only [parseLight]
  simp [parseString, strictParseSymbol, dropSpace, List.takeWhile_cons, List.dropWhile_cons,
    isSpaceJS, andThen_ok]
  rw [runLoop_eq]
  simp [headIs, parseKeyword, dropSpace, List.takeWhile_cons, List.dropWhile_cons,
    isKwFirst, isKwOther, isSpaceJS, andThen_ok]
  rw [parseArrayInto3_tokens hb hg hr]
  simp [dropSpace, parseSymbol, andThen_ok, List.dropWhile_cons, isSpaceJS]
  rw [if_pos (by omega)]
  rw [runLoop_eq]
  simp [headIs, parseKeyword, dropSpace, List.takeWhile_cons, List.dropWhile_cons,
    isKwFirst, isKwOther, isSpaceJS, andThen_ok]
  rw [parseArrayInto3_tokens hb hg hr]
  simp [dropSpace, parseSymbol, andThen_ok, List.dropWhile_cons, isSpaceJS]
  rw [runLoop_eq]
  simp [andThen_ok, swap02]
  rw [topGo_nil]
  simp [andThen_ok, finalize, finalizeN, initModel]
  simp

theorem ribbon_static_eval {sb sg sr : List Char}
    (hb : isNumToken sb = true) (hg : isNumToken sg = true) (hr : isNumToken sr = true) :
    parseCore ("RibbonEmitter \"R\" \x7b static Color \x7b ".data ++
        sb ++ ',' :: ' ' :: (sg ++ ',' :: ' ' :: (sr ++ " \x7d, \x7d".data))) =
      .ok { initModel with
        RibbonEmitters := [objSet (ribbonEmitter0 (some "R")) "Color"
            (Val.varr [jsParseFloat sr, jsParseFloat sg, jsParseFloat sb])],
        Nodes := [some (objSet (ribbonEmitter0 (some "R")) "Color"
            (Val.varr [jsParseFloat sr, jsParseFloat sg, jsParseFloat sb]))] } [] := by
  simp only [parseCore]
  simp only [List.cons_append, List.nil_append]
  rw [topGo]
  simp only [skipComments, parseComment]
  simp [parseKeyword, dropSpace, List.takeWhile_cons, List.dropWhile_cons, isKwFirst,
    isKwOther, isSpaceJS, andThen_ok, parserNames, protoNames]
  simp only [dispatchKw, reduceCtorEq, String.reduceEq, if_false, if_true, ite_true, ite_false]
  simp only [parseRibbonEmitter]
  simp [parseString, strictParseSymbol, dropSpace, List.takeWhile_cons, List.dropWhile_cons,
    isSpaceJS, andThen_ok]
  rw [runLoop_eq]
  simp [headIs, parseKeyword, dropSpace, List.takeWhile_cons, List.dropWhile_cons,
    isKwFirst, isKwOther, isSpaceJS, andThen_ok]
  rw [parseArrayInto3_tokens hb hg hr]
  simp [dropSpace, parseSymbol, andThen_ok, List.dropWhile_cons, isSpaceJS]
  rw [runLoop_eq]
  simp [andThen_ok, swap02]
  rw [topGo_nil]
  simp [andThen_ok, finalize, finalizeN, initModel]
  simp

theorem pe2_segmentcolor_eval {sb sg sr : List Char}
    (hb : isNumToken sb = true) (hg : isNumToken sg = true) (hr : isNumToken sr = true) :
    parseCore ("ParticleEmitter2 \"P\" \x7b SegmentColor \x7b Color \x7b ".data ++
        sb ++ ',' :: ' ' :: (sg ++ ',' :: ' ' :: (sr ++ " \x7d, \x7d, \x7d".data))) =
      .ok { initModel with
        ParticleEmitters2 := [objSet (particleEmitter20 (some "P")) "SegmentColor"
            (Val.varrs [[jsParseFloat sr, jsParseFloat sg, jsParseFloat sb]])],
        Nodes := [some (objSet (particleEmitter20 (some "P")) "SegmentColor"
            (Val.varrs [[jsParseFloat sr, jsParseFloat sg, jsParseFloat sb]]))] } [] := by
  simp only [parseCore]
  simp only [List.cons_append, List.nil_append]
  rw [topGo]
  simp only [skipComments, parseComment]
  simp [parseKeyword, dropSpace, List.takeWhile_cons, List.dropWhile_cons, isKwFirst,
    isKwOther, isSpaceJS, andThen_ok, parserNames, protoNames]
  simp only [dispatchKw, reduceCtorEq, String.reduceEq, if_false, if_true, ite_true, ite_false]
  simp only [parseParticleEmitter2]
  simp [parseString, strictParseSymbol, dropSpace, List.takeWhile_cons, List.dropWhile_cons,
    isSpaceJS, andThen_ok]
  rw [runLoop_eq]
  simp [headIs, parseKeyword, dropSpace, List.takeWhile_cons, List.dropWhile_cons,
    isKwFirst, isKwOther, isSpaceJS, andThen_ok]
  rw [runLoop_eq]
  simp [headIs, parseKeyword, dropSpace, List.takeWhile_cons, List.dropWhile_cons,
    isKwFirst, isKwOther, isSpaceJS, andThen_ok]
  rw [parseArrayInto3_tokens hb hg hr]
  simp [dropSpace, parseSymbol, andThen_ok, List.dropWhile_cons, isSpaceJS, swap02]
  rw [runLoop_eq]
  simp [andThen_ok, dropSpace, parseSymbol, List.dropWhile_cons, isSpaceJS, headIs]
  rw [runLoop_eq]
  simp [andThen_ok, dropSpace, parseSymbol, List.dropWhile_cons, isSpaceJS, headIs]
  rw [topGo_nil]
  simp [andThen_ok, finalize, finalizeN, initModel]
  simp

set_option maxHeartbeats 2000000 in
theorem ga_anim_eval {sb sg sr : List Char}
    (hb : isNumToken sb = true) (hg : isNumToken sg = true) (hr : isNumToken sr = true) :
    parseCore ("GeosetAnim \x7b Color 3 \x7b Hermite, 0: \x7b ".data ++
        sb ++ ',' :: ' ' :: (sg ++ ',' :: ' ' :: (sr ++
          (" \x7d, InTan \x7b ".data ++
            sb ++ ',' :: ' ' :: (sg ++ ',' :: ' ' :: (sr ++
              (" \x7d, OutTan \x7b ".data ++
                sb ++ ',' :: ' ' :: (sg ++ ',' :: ' ' :: (sr ++
                  " \x7d, \x7d, \x7d".data))))))))) =
      .ok { initModel with GeosetAnims :=
        [objSet geosetAnim0 "Color" (Val.vanim
          { LineType := LineT.Hermite, GlobalSeqId := none,
            Keys := [{ Frame := jsParseFloat ['0'],
                       Vector := [jsParseFloat sr, jsParseFloat sg, jsParseFloat sb],
                       InTan := some [jsParseFloat sr, jsParseFloat sg, jsParseFloat sb],
                       OutTan := some [jsParseFloat sr, jsParseFloat sg, jsParseFloat sb] }] })] } [] := by
  simp only [parseCore]
  simp only [List.cons_append, List.nil_append]
  rw [topGo]
  simp only [skipComments, parseComment]
  simp [parseKeyword, dropSpace, List.takeWhile_cons, List.dropWhile_cons, isKwFirst,
    isKwOther, isSpaceJS, andThen_ok, parserNames, protoNames]
  simp only [dispatchKw, reduceCtorEq, String.reduceEq, if_false, if_true, ite_true, ite_false]
  simp only [parseGeosetAnim]
  simp [strictParseSymbol, dropSpace, List.dropWhile_cons, isSpaceJS, andThen_ok]
  rw [runLoop_eq]
  simp [headIs, parseKeyword, dropSpace, List.takeWhile_cons, List.dropWhile_cons,
    isKwFirst, isKwOther, isSpaceJS, andThen_ok]
  simp only [parseAnimVector]
  simp [parseNumber, parseKeyword, strictParseSymbol, dropSpace, List.takeWhile_cons,
    List.dropWhile_cons, isKwFirst, isKwOther, isSpaceJS, isNumFirst, isNumOther,
    andThen_ok, lineTOf]
  rw [runLoop_eq]
  simp [headIs, parseKeyword, dropSpace, List.takeWhile_cons, List.dropWhile_cons,
    isKwFirst, isKwOther, isSpaceJS, isNumFirst, isNumOther, andThen_ok, strictParseSymbol,
    parseAnimKeyframe, avtBK, animVectorSize]
  rw [parseArrayOrSingleItem3_tokens hb hg hr]
  simp [strictParseSymbol, dropSpace, List.dropWhile_cons, isSpaceJS, andThen_ok,
    parseKeyword, List.takeWhile_cons, isKwFirst, isKwOther]
  rw [parseArrayOrSingleItem3_tokens hb hg hr]
  simp [strictParseSymbol, dropSpace, List.dropWhile_cons, isSpaceJS, andThen_ok,
    parseKeyword, List.takeWhile_cons, isKwFirst, isKwOther]
  rw [parseArrayOrSingleItem3_tokens hb hg hr]
  simp [strictParseSymbol, dropSpace, List.dropWhile_cons, isSpaceJS, andThen_ok]
  rw [runLoop_eq]
  simp [headIs, andThen_ok, strictParseSymbol, dropSpace, List.dropWhile_cons, isSpaceJS,
    revKeys]
  rw [runLoop_eq]
  simp [headIs, andThen_ok, dropSpace, parseSymbol, List.dropWhile_cons, isSpaceJS,
    strictParseSymbol]
  rw [topGo_nil]
  simp [andThen_ok, finalize, finalizeN, initModel]
  simp

theorem parseNode_shape {tn : String} {m : Model} {s : St} {nm : Obj × Model} {s1 : St}
    (h : parseNode tn m s = .ok nm s1) :
    nm.2 = { m with Nodes := nodesAssign m.Nodes (objGet nm.1 "ObjectId") nm.1 } := by
  unfold parseNode at h
  obtain ⟨name?, s2, hn, h⟩ := andThen_eq_ok h
  obtain ⟨u1, s3, hu1, h⟩ := andThen_eq_ok h
  obtain ⟨node, s4, hl, h⟩ := andThen_eq_ok h
  obtain ⟨u2, s5, hu2, h⟩ := andThen_eq_ok h
  cases h
  rfl

theorem finalizeN_spec (pivots : List (Option (List JsNum))) :
    ∀ (k i : Nat) (nodes nodes1 : List (Option Obj)) (s1 : St),
    finalizeN pivots k i nodes = .ok nodes1 s1 →
    nodes1.length = nodes.length ∧
    ∀ j : Nat,
      ((j < i ∨ i + k ≤ j) → nodes1.getD j none = nodes.getD j none) ∧
      (i ≤ j → j < i + k →
        (pivots.getD j none = none → nodes1.getD j none = nodes.getD j none) ∧
        (∀ pv, pivots.getD j none = some pv →
          ∃ node, nodes.getD j none = some node ∧
            nodes1.getD j none = some (objSet node "PivotPoint" (Val.varr pv)))) := by
  intro k
  induction k with
  | zero =>
    intro i nodes nodes1 s1 h
    simp only [finalizeN] at h
    cases h
    refine ⟨rfl, ?_⟩
    intro j
    refine ⟨fun _ => rfl, fun h1 h2 => ?_⟩
    omega
  | succ k ih =>
    intro i nodes nodes1 s1 h
    simp only [finalizeN] at h
    cases hp : pivots.getD i none with
    | none =>
      rw [hp] at h
      obtain ⟨hlen, hspec⟩ := ih (i + 1) nodes nodes1 s1 h
      refine ⟨hlen, ?_⟩
      intro j
      constructor
      · intro hj
        exact (hspec j).1 (by omega)
      · intro h1 h2
        by_cases hji : j = i
        · subst hji
          refine ⟨fun _ => (hspec j).1 (by omega), ?_⟩
          intro pv hpv
          rw [hpv] at hp
          exact absurd hp (by simp)
        · exact (hspec j).2 (by omega) (by omega)
    | some pv =>
      rw [hp] at h
      cases hn : nodes.getD i none with
      | none => rw [hn] at h; simp at h
      | some node =>
        rw [hn] at h
        obtain ⟨hlen, hspec⟩ :=
          ih (i + 1) (nodes.set i (some (objSet node "PivotPoint" (Val.varr pv)))) nodes1 s1 h
        have hlen2 : nodes1.length = nodes.length := by
          rw [hlen, List.length_set]
        have hip : i < nodes.length := by
          by_contra hc
          rw [List.getD_eq_default] at hn
          · exact Option.noConfusion hn
          · omega
        have hset : ∀ j, j ≠ i →
            (nodes.set i (some (objSet node "PivotPoint" (Val.varr pv)))).getD j none =
              nodes.getD j none := by
          intro j hj
          simp [List.getD, List.getElem?_set_ne (Ne.symm hj)]
        have hseti :
            (nodes.set i (some (objSet node "PivotPoint" (Val.varr pv)))).getD i none =
              some (objSet node "PivotPoint" (Val.varr pv)) := by
          simp [List.getD, List.getElem?_set_self, hip]
        refine ⟨hlen2, ?_⟩
        intro j
        constructor
        · intro hj
          rw [(hspec j).1 (by omega)]
          exact hset j (by omega)
        · intro h1 h2
          by_cases hji : j = i
          · subst hji
            refine ⟨fun hc => by rw [hp] at hc; exact Option.noConfusion hc, ?_⟩
            intro pv2 hpv2
            rw [hp] at hpv2
            cases hpv2
            refine ⟨node, hn, ?_⟩
            rw [(hspec j).1 (by omega)]
            exact hseti
          · rcases (hspec j).2 (by omega) (by omega) with ⟨hnone, hsome⟩
            refine ⟨fun hc => ?_, fun pv2 hpv2 => ?_⟩
            · rw [hnone hc]
              exact hset j hji
            · obtain ⟨nd, hnd1, hnd2⟩ := hsome pv2 hpv2
              rw [hset j hji] at hnd1
              exact ⟨nd, hnd1, hnd2⟩

theorem skipScan_bal {inner : List Char} (hb : Bal inner) :
    ∀ (d : Nat) (rest : List Char),
      skipScan (d + 1) (inner ++ '}' :: rest) =
        if d = 0 then rest else skipScan d rest := by
  induction hb with
  | nil =>
    intro d rest
    simp only [List.nil_append, skipScan]
    by_cases hd : d = 0
    · subst hd; simp
    · have h2 : ¬ (d + 1 = 1) := by omega
      simp [h2, hd]
  | ch c cs hc1 hc2 _ ih =>
    intro d rest
    simp only [List.cons_append, skipScan, if_neg hc1, if_neg hc2]
    exact ih d rest
  | nest a b _ _ iha ihb =>
    intro d rest
    rw [List.cons_append]
    rw [show (a ++ '}' :: b) ++ '}' :: rest = a ++ '}' :: (b ++ '}' :: rest) from by simp]
    rw [show skipScan (d + 1) ('{' :: (a ++ '}' :: (b ++ '}' :: rest))) =
      skipScan (d + 1 + 1) (a ++ '}' :: (b ++ '}' :: rest)) from by simp [skipScan]]
    rw [iha (d + 1) (b ++ '}' :: rest)]
    rw [if_neg (by omega)]
    exact ihb d rest

theorem parseComment_not_slash {c : Char} (hc : ¬ c = '/') (s : St) :
    parseComment (c :: s) = none := by
  unfold parseComment
  split
  · next s1 t1 heq =>
    injection heq with h1 h2
    exact absurd h1 hc
  · rfl

theorem jsOr_small {a b : Nat} (ha : a < 2 ^ 31) (hb : b < 2 ^ 31) :
    jsOr (JsNum.fin (a : Int) 0) (JsNum.fin (b : Int) 0) =
      JsNum.fin ((Nat.lor a b : Nat) : Int) 0 := by
  have hu : ∀ n : Nat, n < 2 ^ 31 → i32u (JsNum.fin (n : Int) 0) = n := by
    intro n hn
    simp only [i32u, jsTrunc]
    norm_num
    have h0 : (0 : Int) ≤ (n : Int) := Int.ofNat_nonneg n
    have h1 : (n : Int) < 4294967296 := by
      exact_mod_cast lt_trans hn (by norm_num : (2 : Nat) ^ 31 < 4294967296)
    rw [show ((n : Int)).emod 4294967296 = (n : Int) % 4294967296 from rfl]
    rw [Int.emod_eq_of_lt h0 h1]
    simp
  simp only [jsOr, hu a ha, hu b hb]
  rw [if_pos]
  exact_mod_cast (Nat.bitwise_lt ha hb : Nat.bitwise Bool.or a b < 2 ^ 31)

theorem lor_lt_two_pow {a b n : Nat} (ha : a < 2 ^ n) (hb : b < 2 ^ n) :
    Nat.lor a b < 2 ^ n :=
  Nat.bitwise_lt ha hb

theorem renderFlags_nonspace (ks : List ShKw) :
    dropSpace (renderFlags ks ++ ['\x7d']) = renderFlags ks ++ ['\x7d'] := by
  cases ks with
  | nil => rfl
  | cons k t => cases k <;> rfl

set_option maxHeartbeats 2000000 in
theorem parseLayerBody_flag (k : ShKw) (acc : Nat) (rest : St) :
    parseLayerBody (objSet layer0 "Shading" (Val.vnum (JsNum.fin (acc : Int) 0)))
      ((shName k).data ++ ',' :: ' ' :: rest) =
    .ok (objSet layer0 "Shading"
        (jsOrV (some (Val.vnum (JsNum.fin (acc : Int) 0))) (shVal k)))
      (dropSpace rest) := by
  cases k <;>
    simp [parseLayerBody, parseKeyword, dropSpace, List.takeWhile_cons, List.dropWhile_cons,
      isKwFirst, isKwOther, isSpaceJS, andThen_ok, parseSymbol, layer0, objSet, objHas,
      objGet, shVal, shName, layerShadingVal]

theorem shLoop (ls : List ShKw) : ∀ acc : Nat, acc < 256 →
    runLoop (fun _ s => headIs '\x7d' s) parseLayerBody
      (objSet layer0 "Shading" (Val.vnum (JsNum.fin (acc : Int) 0)))
      (renderFlags ls ++ ['\x7d']) =
    .ok (objSet layer0 "Shading"
      (Val.vnum (JsNum.fin ((ls.foldl (fun a k => Nat.lor a (shVal k)) acc : Nat) : Int) 0)))
      ['\x7d'] := by
  induction ls with
  | nil =>
    intro acc hacc
    rw [runLoop_eq]
    simp [headIs, renderFlags]
  | cons k ks ih =>
    intro acc hacc
    have hval : shVal k < 256 := by cases k <;> decide
    have hlor : Nat.lor acc (shVal k) < 256 := by
      have : Nat.lor acc (shVal k) < 2 ^ 8 :=
        lor_lt_two_pow (by norm_num at hacc ⊢; omega) (by norm_num at hval ⊢; omega)
      norm_num at this; omega
    have hstep := ih (Nat.lor acc (shVal k)) hlor
    have hra : renderFlags (k :: ks) ++ ['\x7d'] =
        (shName k).data ++ ',' :: ' ' :: (renderFlags ks ++ ['\x7d']) := by
      cases k <;> simp [renderFlags, shName]
    rw [hra, runLoop_eq]
    rw [show (headIs '\x7d' ((shName k).data ++ ',' :: ' ' :: (renderFlags ks ++ ['\x7d']))) =
      false from by cases k <;> rfl]
    simp only [Bool.false_eq_true, if_false]
    rw [parseLayerBody_flag, andThen_ok]
    rw [renderFlags_nonspace]
    rw [if_pos (by cases k <;> simp [shName, List.length_append])]
    have h1 : acc < 2 ^ 31 := lt_trans hacc (by norm_num)
    have h2 : shVal k < 2 ^ 31 := lt_trans hval (by norm_num)
    rw [show jsOrV (some (Val.vnum (JsNum.fin (acc : Int) 0))) (shVal k) =
      Val.vnum (JsNum.fin ((Nat.lor acc (shVal k) : Nat) : Int) 0) from by
        simp only [jsOrV, valToNum]; rw [jsOr_small h1 h2]]
    rw [hstep]
    simp [List.foldl_cons]

theorem orFold_testBit_gen (ls : List ShKw) : ∀ (acc : Nat) (i : Nat),
    (ls.foldl (fun a k => Nat.lor a (shVal k)) acc).testBit i = true ↔
      (acc.testBit i = true ∨ ∃ k ∈ ls, (shVal k).testBit i = true) := by
  induction ls with
  | nil =>
    intro acc i
    simp
  | cons k ks ih =>
    intro acc i
    rw [List.foldl_cons, ih]
    rw [show Nat.lor acc (shVal k) = acc ||| shVal k from rfl]
    rw [Nat.testBit_lor]
    simp only [Bool.or_eq_true, List.mem_cons]
    constructor
    · rintro ((h | h) | ⟨k2, hk2, hb⟩)
      · exact Or.inl h
      · exact Or.inr ⟨k, Or.inl rfl, h⟩
      · exact Or.inr ⟨k2, Or.inr hk2, hb⟩
    · rintro (h | ⟨k2, hk2 | hk2, hb⟩)
      · exact Or.inl (Or.inl h)
      · subst hk2; exact Or.inl (Or.inr hb)
      · exact Or.inr ⟨k2, hk2, hb⟩

theorem isKwFirst_not_space {c : Char} (h : isKwFirst c = true) :
    isSpaceJS c = false := by
  simp only [isKwFirst, Bool.decide_or, Bool.or_eq_true, decide_eq_true_eq] at h
  simp only [isSpaceJS, Bool.decide_or, Bool.or_eq_true, decide_eq_true_eq,
    Bool.or_eq_false_iff, decide_eq_false_iff_not]
  rcases h with ⟨h1, h2⟩ | ⟨h1, h2⟩ <;>
    (have h1' : _ ≤ c.val := h1
     have h2' : c.val ≤ _ := h2
     refine ⟨?_, ?_, ?_, ?_, ?_, ?_⟩ <;> intro he <;> subst he <;> simp_all)

theorem dropWhile_space_kwToken {k : List Char} (hk : isKwToken k = true)
    (r : List Char) : List.dropWhile isSpaceJS (k ++ r) = k ++ r := by
  match k with
  | [] => simp [isKwToken] at hk
  | c :: t =>
    simp only [isKwToken, Bool.decide_and, Bool.and_eq_true, decide_eq_true_eq] at hk
    simp [List.dropWhile_cons, isKwFirst_not_space hk.1]

theorem nfVal_lt (k : NFItem) : nfVal k < 256 := by cases k <;> decide

theorem nfFold_lt (ls : List NFItem) : nfFold ls < 256 := by
  have gen : ∀ (l : List NFItem) (acc : Nat), acc < 256 →
      l.foldl (fun a k => Nat.lor a (nfVal k)) acc < 256 := by
    intro l
    induction l with
    | nil => intro acc h; simpa using h
    | cons k ks ih =>
      intro acc h
      rw [List.foldl_cons]
      refine ih _ ?_
      have : Nat.lor acc (nfVal k) < 2 ^ 8 :=
        lor_lt_two_pow (by norm_num at h ⊢; omega) (by have := nfVal_lt k; norm_num; omega)
      norm_num at this; omega
  exact gen ls 0 (by norm_num)

theorem foldl_lor_eq (ls : List NFItem) :
    ∀ acc : Nat, ls.foldl (fun a k => Nat.lor a (nfVal k)) acc = Nat.lor acc (nfFold ls) := by
  induction ls with
  | nil =>
    intro acc
    show acc = Nat.lor acc 0
    rw [show Nat.lor acc 0 = acc ||| 0 from rfl]
    simp
  | cons k ks ih =>
    intro acc
    rw [List.foldl_cons, ih]
    rw [show nfFold (k :: ks) = Nat.lor (nfVal k) (nfFold ks) from by
      show (k :: ks).foldl (fun a k => Nat.lor a (nfVal k)) 0 = _
      rw [List.foldl_cons, ih]
      rw [show Nat.lor 0 (nfVal k) = 0 ||| nfVal k from rfl]
      simp]
    rw [show Nat.lor acc (nfVal k) = acc ||| nfVal k from rfl,
      show Nat.lor (acc ||| nfVal k) (nfFold ks) = (acc ||| nfVal k) ||| nfFold ks from rfl,
      show Nat.lor acc (Nat.lor (nfVal k) (nfFold ks)) = acc ||| (nfVal k ||| nfFold ks) from rfl]
    exact Nat.lor_assoc acc (nfVal k) (nfFold ks)

theorem div_mod_two_lor_high (tag low b k : Nat) (hl : low < 256) (hb : b = 2 ^ k)
    (hk : 8 ≤ k) : Nat.lor tag low / b % 2 = tag / b % 2 := by
  subst hb
  have hlow : low.testBit k = false := by
    apply Nat.testBit_lt_two_pow
    calc low < 256 := hl
    _ ≤ 2 ^ k := by
      have : (2 : Nat) ^ 8 ≤ 2 ^ k := Nat.pow_le_pow_right (by norm_num) hk
      norm_num at this; omega
  have h1 : (Nat.lor tag low).testBit k = tag.testBit k := by
    rw [show Nat.lor tag low = tag ||| low from rfl, Nat.testBit_lor, hlow]
    simp
  rw [Nat.testBit_to_div_mod, Nat.testBit_to_div_mod] at h1
  have hx := Nat.mod_two_eq_zero_or_one (Nat.lor tag low / 2 ^ k)
  have hy := Nat.mod_two_eq_zero_or_one (tag / 2 ^ k)
  rcases hx with hx | hx <;> rcases hy with hy | hy <;> simp [hx, hy] at h1 ⊢

theorem tagBitCount_lor_low {tag low : Nat} (ht : tag ∈ tagBitVals) (hl : low < 256) :
    tagBitCount (Nat.lor tag low) = 1 := by
  simp only [tagBitVals, List.mem_cons, List.not_mem_nil, or_false] at ht
  rcases ht with h | h | h | h | h | h | h | h <;> subst h
  · have h8 := div_mod_two_lor_high 256 low 256 8 hl (by norm_num) (by norm_num)
    have h9 := div_mod_two_lor_high 256 low 512 9 hl (by norm_num) (by norm_num)
    have h10 := div_mod_two_lor_high 256 low 1024 10 hl (by norm_num) (by norm_num)
    have h11 := div_mod_two_lor_high 256 low 2048 11 hl (by norm_num) (by norm_num)
    have h12 := div_mod_two_lor_high 256 low 4096 12 hl (by norm_num) (by norm_num)
    have h13 := div_mod_two_lor_high 256 low 8192 13 hl (by norm_num) (by norm_num)
    have h14 := div_mod_two_lor_high 256 low 16384 14 hl (by norm_num) (by norm_num)
    have h15 := div_mod_two_lor_high 256 low 32768 15 hl (by norm_num) (by norm_num)
    norm_num at h8 h9 h10 h11 h12 h13 h14 h15
    simp [tagBitCount, tagBitVals, List.filter, h8, h9, h10, h11, h12, h13, h14, h15]
  · have h8 := div_mod_two_lor_high 512 low 256 8 hl (by norm_num) (by norm_num)
    have h9 := div_mod_two_lor_high 512 low 512 9 hl (by norm_num) (by norm_num)
    have h10 := div_mod_two_lor_high 512 low 1024 10 hl (by norm_num) (by norm_num)
    have h11 := div_mod_two_lor_high 512 low 2048 11 hl (by norm_num) (by norm_num)
    have h12 := div_mod_two_lor_high 512 low 4096 12 hl (by norm_num) (by norm_num)
    have h13 := div_mod_two_lor_high 512 low 8192 13 hl (by norm_num) (by norm_num)
    have h14 := div_mod_two_lor_high 512 low 16384 14 hl (by norm_num) (by norm_num)
    have h15 := div_mod_two_lor_high 512 low 32768 15 hl (by norm_num) (by norm_num)
    norm_num at h8 h9 h10 h11 h12 h13 h14 h15
    simp [tagBitCount, tagBitVals, List.filter, h8, h9, h10, h11, h12, h13, h14, h15]
  · have h8 := div_mod_two_lor_high 1024 low 256 8 hl (by norm_num) (by norm_num)
    have h9 := div_mod_two_lor_high 1024 low 512 9 hl (by norm_num) (by norm_num)
    have h10 := div_mod_two_lor_high 1024 low 1024 10 hl (by norm_num) (by norm_num)
    have h11 := div_mod_two_lor_high 1024 low 2048 11 hl (by norm_num) (by norm_num)
    have h12 := div_mod_two_lor_high 1024 low 4096 12 hl (by norm_num) (by norm_num)
    have h13 := div_mod_two_lor_high 1024 low 8192 13 hl (by norm_num) (by norm_num)
    have h14 := div_mod_two_lor_high 1024 low 16384 14 hl (by norm_num) (by norm_num)
    have h15 := div_mod_two_lor_high 1024 low 32768 15 hl (by norm_num) (by norm_num)
    norm_num at h8 h9 h10 h11 h12 h13 h14 h15
    simp [tagBitCount, tagBitVals, List.filter, h8, h9, h10, h11, h12, h13, h14, h15]
  · have h8 := div_mod_two_lor_high 2048 low 256 8 hl (by norm_num) (by norm_num)
    have h9 := div_mod_two_lor_high 2048 low 512 9 hl (by norm_num) (by norm_num)
    have h10 := div_mod_two_lor_high 2048 low 1024 10 hl (by norm_num) (by norm_num)
    have h11 := div_mod_two_lor_high 2048 low 2048 11 hl (by norm_num) (by norm_num)
    have h12 := div_mod_two_lor_high 2048 low 4096 12 hl (by norm_num) (by norm_num)
    have h13 := div_mod_two_lor_high 2048 low 8192 13 hl (by norm_num) (by norm_num)
    have h14 := div_mod_two_lor_high 2048 low 16384 14 hl (by norm_num) (by norm_num)
    have h15 := div_mod_two_lor_high 2048 low 32768 15 hl (by norm_num) (by norm_num)
    norm_num at h8 h9 h10 h11 h12 h13 h14 h15
    simp [tagBitCount, tagBitVals, List.filter, h8, h9, h10, h11, h12, h13, h14, h15]
  · have h8 := div_mod_two_lor_high 4096 low 256 8 hl (by norm_num) (by norm_num)
    have h9 := div_mod_two_lor_high 4096 low 512 9 hl (by norm_num) (by norm_num)
    have h10 := div_mod_two_lor_high 4096 low 1024 10 hl (by norm_num) (by norm_num)
    have h11 := div_mod_two_lor_high 4096 low 2048 11 hl (by norm_num) (by norm_num)
    have h12 := div_mod_two_lor_high 4096 low 4096 12 hl (by norm_num) (by norm_num)
    have h13 := div_mod_two_lor_high 4096 low 8192 13 hl (by norm_num) (by norm_num)
    have h14 := div_mod_two_lor_high 4096 low 16384 14 hl (by norm_num) (by norm_num)
    have h15 := div_mod_two_lor_high 4096 low 32768 15 hl (by norm_num) (by norm_num)
    norm_num at h8 h9 h10 h11 h12 h13 h14 h15
    simp [tagBitCount, tagBitVals, List.filter, h8, h9, h10, h11, h12, h13, h14, h15]
  · have h8 := div_mod_two_lor_high 8192 low 256 8 hl (by norm_num) (by norm_num)
    have h9 := div_mod_two_lor_high 8192 low 512 9 hl (by norm_num) (by norm_num)
    have h10 := div_mod_two_lor_high 8192 low 1024 10 hl (by norm_num) (by norm_num)
    have h11 := div_mod_two_lor_high 8192 low 2048 11 hl (by norm_num) (by norm_num)
    have h12 := div_mod_two_lor_high 8192 low 4096 12 hl (by norm_num) (by norm_num)
    have h13 := div_mod_two_lor_high 8192 low 8192 13 hl (by norm_num) (by norm_num)
    have h14 := div_mod_two_lor_high 8192 low 16384 14 hl (by norm_num) (by norm_num)
    have h15 := div_mod_two_lor_high 8192 low 32768 15 hl (by norm_num) (by norm_num)
    norm_num at h8 h9 h10 h11 h12 h13 h14 h15
    simp [tagBitCount, tagBitVals, List.filter, h8, h9, h10, h11, h12, h13, h14, h15]
  · have h8 := div_mod_two_lor_high 16384 low 256 8 hl (by norm_num) (by norm_num)
    have h9 := div_mod_two_lor_high 16384 low 512 9 hl (by norm_num) (by norm_num)
    have h10 := div_mod_two_lor_high 16384 low 1024 10 hl (by norm_num) (by norm_num)
    have h11 := div_mod_two_lor_high 16384 low 2048 11 hl (by norm_num) (by norm_num)
    have h12 := div_mod_two_lor_high 16384 low 4096 12 hl (by norm_num) (by norm_num)
    have h13 := div_mod_two_lor_high 16384 low 8192 13 hl (by norm_num) (by norm_num)
    have h14 := div_mod_two_lor_high 16384 low 16384 14 hl (by norm_num) (by norm_num)
    have h15 := div_mod_two_lor_high 16384 low 32768 15 hl (by norm_num) (by norm_num)
    norm_num at h8 h9 h10 h11 h12 h13 h14 h15
    simp [tagBitCount, tagBitVals, List.filter, h8, h9, h10, h11, h12, h13, h14, h15]
  · have h8 := div_mod_two_lor_high 32768 low 256 8 hl (by norm_num) (by norm_num)
    have h9 := div_mod_two_lor_high 32768 low 512 9 hl (by norm_num) (by norm_num)
    have h10 := div_mod_two_lor_high 32768 low 1024 10 hl (by norm_num) (by norm_num)
    have h11 := div_mod_two_lor_high 32768 low 2048 11 hl (by norm_num) (by norm_num)
    have h12 := div_mod_two_lor_high 32768 low 4096 12 hl (by norm_num) (by norm_num)
    have h13 := div_mod_two_lor_high 32768 low 8192 13 hl (by norm_num) (by norm_num)
    have h14 := div_mod_two_lor_high 32768 low 16384 14 hl (by norm_num) (by norm_num)
    have h15 := div_mod_two_lor_high 32768 low 32768 15 hl (by norm_num) (by norm_num)
    norm_num at h8 h9 h10 h11 h12 h13 h14 h15
    simp [tagBitCount, tagBitVals, List.filter, h8, h9, h10, h11, h12, h13, h14, h15]

theorem nfRenderAll_nonspace (ks : List NFItem) :
    dropSpace (nfRenderAll ks ++ ['\x7d']) = nfRenderAll ks ++ ['\x7d'] := by
  cases ks with
  | nil => rfl
  | cons k t => cases k <;> rfl

set_option maxHeartbeats 4000000 in
theorem parseNodeBody_flag (k : NFItem) (tname : String) (name? : Option String)
    (acc : Nat) (rest : St) :
    parseNodeBody (objSet (node0 tname name?) "Flags" (Val.vnum (JsNum.fin (acc : Int) 0)))
      (nfRender k ++ rest) =
    .ok (objSet (node0 tname name?) "Flags"
        (jsOrV (some (Val.vnum (JsNum.fin (acc : Int) 0))) (nfVal k)))
      (dropSpace rest) := by
  cases k <;>
    simp [parseNodeBody, parseKeyword, strictParseSymbol, dropSpace, List.takeWhile_cons,
      List.dropWhile_cons, isKwFirst, isKwOther, isSpaceJS, andThen_ok, parseSymbol, node0,
      objSet, objHas, objGet, nfVal, nfRender, nodeFlagsVal]

theorem nfLoop (ls : List NFItem) (tname : String) (name? : Option String) :
    ∀ acc : Nat, acc < 65536 →
    runLoop (fun _ s => headIs '\x7d' s) parseNodeBody
      (objSet (node0 tname name?) "Flags" (Val.vnum (JsNum.fin (acc : Int) 0)))
      (nfRenderAll ls ++ ['\x7d']) =
    .ok (objSet (node0 tname name?) "Flags"
      (Val.vnum (JsNum.fin ((ls.foldl (fun a k => Nat.lor a (nfVal k)) acc : Nat) : Int) 0)))
      ['\x7d'] := by
  induction ls with
  | nil =>
    intro acc hacc
    rw [runLoop_eq]
    simp [headIs, nfRenderAll]
  | cons k ks ih =>
    intro acc hacc
    have hval : nfVal k < 65536 := lt_trans (nfVal_lt k) (by norm_num)
    have hlor : Nat.lor acc (nfVal k) < 65536 := by
      have : Nat.lor acc (nfVal k) < 2 ^ 16 :=
        lor_lt_two_pow (by norm_num at hacc ⊢; omega) (by norm_num at hval ⊢; omega)
      norm_num at this; omega
    have hstep := ih (Nat.lor acc (nfVal k)) hlor
    have hra : nfRenderAll (k :: ks) ++ ['\x7d'] =
        nfRender k ++ (nfRenderAll ks ++ ['\x7d']) := by
      simp [nfRenderAll]
    rw [hra, runLoop_eq]
    rw [show (headIs '\x7d' (nfRender k ++ (nfRenderAll ks ++ ['\x7d']))) = false from by
      cases k <;> rfl]
    simp only [Bool.false_eq_true, if_false]
    rw [parseNodeBody_flag, andThen_ok]
    rw [nfRenderAll_nonspace]
    rw [if_pos (by cases k <;> simp [nfRender, List.length_append])]
    have h1 : acc < 2 ^ 31 := lt_trans hacc (by norm_num)
    have h2 : nfVal k < 2 ^ 31 := lt_trans hval (by norm_num)
    rw [show jsOrV (some (Val.vnum (JsNum.fin (acc : Int) 0))) (nfVal k) =
      Val.vnum (JsNum.fin ((Nat.lor acc (nfVal k) : Nat) : Int) 0) from by
        simp only [jsOrV, valToNum]; rw [jsOr_small h1 h2]]
    rw [hstep]
    simp [List.foldl_cons]

theorem dropWhile_nfRenderAll (ks : List NFItem) :
    List.dropWhile isSpaceJS (nfRenderAll ks ++ ['\x7d']) = nfRenderAll ks ++ ['\x7d'] :=
  nfRenderAll_nonspace ks

theorem bone_flags_eval (ls : List NFItem) :
    parseCore ("Bone \"b\" \x7b ".data ++ (nfRenderAll ls ++ ['\x7d'])) =
      .ok { initModel with Bones := [objSet (node0 "Bone" (some "b")) "Flags"
        (Val.vnum (JsNum.fin ((ls.foldl (fun a k => Nat.lor a (nfVal k))
          (nodeTypeVal "Bone") : Nat) : Int) 0))] } [] := by
  simp only [parseCore]
  simp only [List.cons_append, List.nil_append]
  rw [topGo]
  on_goal 2 => simp
  simp only [skipComments, parseComment]
  simp [parseKeyword, dropSpace, List.takeWhile_cons, List.dropWhile_cons, isKwFirst,
    isKwOther, isSpaceJS, andThen_ok, parserNames, protoNames]
  simp only [dispatchKw, reduceCtorEq, String.reduceEq, if_false, if_true, ite_true,
    ite_false]
  simp only [parseBone, parseNode]
  simp [parseString, strictParseSymbol, dropSpace, List.takeWhile_cons, List.dropWhile_cons,
    isSpaceJS, andThen_ok]
  rw [dropWhile_nfRenderAll]
  rw [show node0 "Bone" (some "b") = objSet (node0 "Bone" (some "b")) "Flags"
    (Val.vnum (JsNum.fin ((nodeTypeVal "Bone" : Nat) : Int) 0)) from by decide]
  rw [nfLoop ls "Bone" (some "b") (nodeTypeVal "Bone") (by decide)]
  simp [andThen_ok, strictParseSymbol, dropSpace, nodesAssign, objGet, objSet, objHas, node0]
  rw [topGo_nil]
  simp [andThen_ok, finalize, finalizeN, initModel]

theorem helper_flags_eval (ls : List NFItem) :
    parseCore ("Helper \"b\" \x7b ".data ++ (nfRenderAll ls ++ ['\x7d'])) =
      .ok { initModel with Helpers := [objSet (node0 "Helper" (some "b")) "Flags"
        (Val.vnum (JsNum.fin ((ls.foldl (fun a k => Nat.lor a (nfVal k))
          (nodeTypeVal "Helper") : Nat) : Int) 0))] } [] := by
  simp only [parseCore]
  simp only [List.cons_append, List.nil_append]
  rw [topGo]
  on_goal 2 => simp
  simp only [skipComments, parseComment]
  simp [parseKeyword, dropSpace, List.takeWhile_cons, List.dropWhile_cons, isKwFirst,
    isKwOther, isSpaceJS, andThen_ok, parserNames, protoNames]
  simp only [dispatchKw, reduceCtorEq, String.reduceEq, if_false, if_true, ite_true,
    ite_false]
  simp only [parseHelper, parseNode]
  simp [parseString, strictParseSymbol, dropSpace, List.takeWhile_cons, List.dropWhile_cons,
    isSpaceJS, andThen_ok]
  rw [dropWhile_nfRenderAll]
  rw [show node0 "Helper" (some "b") = objSet (node0 "Helper" (some "b")) "Flags"
    (Val.vnum (JsNum.fin ((nodeTypeVal "Helper" : Nat) : Int) 0)) from by decide]
  rw [nfLoop ls "Helper" (some "b") (nodeTypeVal "Helper") (by decide)]
  simp [andThen_ok, strictParseSymbol, dropSpace, nodesAssign, objGet, objSet, objHas, node0]
  rw [topGo_nil]
  simp [andThen_ok, finalize, finalizeN, initModel]

theorem attachment_flags_eval (ls : List NFItem) :
    parseCore ("Attachment \"b\" \x7b ".data ++ (nfRenderAll ls ++ ['\x7d'])) =
      .ok { initModel with Attachments := [objSet (node0 "Attachment" (some "b")) "Flags"
        (Val.vnum (JsNum.fin ((ls.foldl (fun a k => Nat.lor a (nfVal k))
          (nodeTypeVal "Attachment") : Nat) : Int) 0))] } [] := by
  simp only [parseCore]
  simp only [List.cons_append, List.nil_append]
  rw [topGo]
  on_goal 2 => simp
  simp only [skipComments, parseComment]
  simp [parseKeyword, dropSpace, List.takeWhile_cons, List.dropWhile_cons, isKwFirst,
    isKwOther, isSpaceJS, andThen_ok, parserNames, protoNames]
  simp only [dispatchKw, reduceCtorEq, String.reduceEq, if_false, if_true, ite_true,
    ite_false]
  simp only [parseAttachment, parseNode]
  simp [parseString, strictParseSymbol, dropSpace, List.takeWhile_cons, List.dropWhile_cons,
    isSpaceJS, andThen_ok]
  rw [dropWhile_nfRenderAll]
  rw [show node0 "Attachment" (some "b") = objSet (node0 "Attachment" (some "b")) "Flags"
    (Val.vnum (JsNum.fin ((nodeTypeVal "Attachment" : Nat) : Int) 0)) from by decide]
  rw [nfLoop ls "Attachment" (some "b") (nodeTypeVal "Attachment") (by decide)]
  simp [andThen_ok, strictParseSymbol, dropSpace, nodesAssign, objGet, objSet, objHas, node0]
  rw [topGo_nil]
  simp [andThen_ok, finalize, finalizeN, initModel]

/-! ### Claim theorems -/

/-- C1 (code_bug): the claim says `parse` terminates on every input, returning
a Scene or aborting with a SyntaxError — in particular on an input containing
an unterminated quoted string.  The code does not: on `Model "M` the scan loop
of `parseString` runs forever, because past the end of the input
`state.char()` is `undefined`, which never equals `'"'`.  The embedding maps
that genuinely non-terminating loop to the dedicated result `hang`, and the
whole parse of this input evaluates to `hang` — neither a Scene nor a
SyntaxError. -/
theorem c1_parse_hangs_on_unterminated_string :
    mdlParse ("Model \"M") = PResult.hang := by decide

/-- C2 (confirmed): in every Scene returned by `parse`, every animated track
stored anywhere in the model (in a record of any of the nineteen buckets, or
in the version field) is well-formed for the channel under whose key it is
stored: every Keyframe's Vector has length equal to the channel's declared
arity (1, 3 or 4), and when the track's interpolation mode is Hermite or
Bezier every Keyframe carries InTan and OutTan of that same arity, otherwise
no Keyframe carries InTan or OutTan.  `ModelAnimWF` states exactly this,
via `ObjAnimWF`/`avWF` and the channel-arity tables `chanArity`/`camArity`. -/
theorem c2_animated_tracks_well_formed (str : String) {m : Model}
    (h : mdlParse str = PResult.scene m) : ModelAnimWF m :=
  mdlParse_WF h

set_option maxRecDepth 10000 in
theorem c2_animated_tracks_well_formed_witness :
    ModelAnimWF ((parseOk ("GeosetAnim \x7b Alpha 2 \x7b Hermite, 0: 0.5, InTan 0.1, OutTan 0.2, 100: 1, InTan 0, OutTan 0, \x7d, static Color \x7b 0.1, 0.2, 0.3 \x7d, GeosetId 0, \x7d")).getD initModel) :=
  c2_animated_tracks_well_formed
    ("GeosetAnim \x7b Alpha 2 \x7b Hermite, 0: 0.5, InTan 0.1, OutTan 0.2, 100: 1, InTan 0, OutTan 0, \x7d, static Color \x7b 0.1, 0.2, 0.3 \x7d, GeosetId 0, \x7d")
    (by decide)

/-- C3 (confirmed): a static `Color \x7b b, g, r \x7d` triple of number tokens is
stored in the Scene as the value triple `[r, g, b]` — in a GeosetAnim (where the
handler reverses the parsed buffer), in a Light's `Color` and `AmbColor` and a
RibbonEmitter's `Color` (channel-0/2 swap), and in a ParticleEmitter2
`SegmentColor` entry (channel-0/2 swap) — and reversing the stored triple
recovers the source triple; an animated Hermite `Color` track of a GeosetAnim
likewise stores every Keyframe's Vector, InTan and OutTan reversed. -/
theorem c3_color_triples_reversed (sb sg sr : List Char)
    (hb : isNumToken sb = true) (hg : isNumToken sg = true) (hr : isNumToken sr = true) :
    (mdlParse (String.mk ("GeosetAnim \x7b static Color \x7b ".data ++
        sb ++ ',' :: ' ' :: (sg ++ ',' :: ' ' :: (sr ++ " \x7d, \x7d".data)))) =
      PResult.scene { initModel with GeosetAnims :=
        [objSet geosetAnim0 "Color"
          (Val.varr [jsParseFloat sr, jsParseFloat sg, jsParseFloat sb])] }) ∧
    (mdlParse (String.mk ("Light \"L\" \x7b static Color \x7b ".data ++
        sb ++ ',' :: ' ' :: (sg ++ ',' :: ' ' :: (sr ++
          (" \x7d, static AmbColor \x7b ".data ++
            sb ++ ',' :: ' ' :: (sg ++ ',' :: ' ' :: (sr ++ " \x7d, \x7d".data))))))) =
      PResult.scene { initModel with
        Lights := [objSet (objSet (light0 (some "L")) "Color"
            (Val.varr [jsParseFloat sr, jsParseFloat sg, jsParseFloat sb])) "AmbColor"
            (Val.varr [jsParseFloat sr, jsParseFloat sg, jsParseFloat sb])],
        Nodes := [some (objSet (objSet (light0 (some "L")) "Color"
            (Val.varr [jsParseFloat sr, jsParseFloat sg, jsParseFloat sb])) "AmbColor"
            (Val.varr [jsParseFloat sr, jsParseFloat sg, jsParseFloat sb]))] }) ∧
    (mdlParse (String.mk ("RibbonEmitter \"R\" \x7b static Color \x7b ".data ++
        sb ++ ',' :: ' ' :: (sg ++ ',' :: ' ' :: (sr ++ " \x7d, \x7d".data)))) =
      PResult.scene { initModel with
        RibbonEmitters := [objSet (ribbonEmitter0 (some "R")) "Color"
            (Val.varr [jsParseFloat sr, jsParseFloat sg, jsParseFloat sb])],
        Nodes := [some (objSet (ribbonEmitter0 (some "R")) "Color"
            (Val.varr [jsParseFloat sr, jsParseFloat sg, jsParseFloat sb]))] }) ∧
    (mdlParse (String.mk ("ParticleEmitter2 \"P\" \x7b SegmentColor \x7b Color \x7b ".data ++
        sb ++ ',' :: ' ' :: (sg ++ ',' :: ' ' :: (sr ++ " \x7d, \x7d, \x7d".data)))) =
      PResult.scene { initModel with
        ParticleEmitters2 := [objSet (particleEmitter20 (some "P")) "SegmentColor"
            (Val.varrs [[jsParseFloat sr, jsParseFloat sg, jsParseFloat sb]])],
        Nodes := [some (objSet (particleEmitter20 (some "P")) "SegmentColor"
            (Val.varrs [[jsParseFloat sr, jsParseFloat sg, jsParseFloat sb]]))] }) ∧
    (mdlParse (String.mk ("GeosetAnim \x7b Color 3 \x7b Hermite, 0: \x7b ".data ++
        sb ++ ',' :: ' ' :: (sg ++ ',' :: ' ' :: (sr ++
          (" \x7d, InTan \x7b ".data ++
            sb ++ ',' :: ' ' :: (sg ++ ',' :: ' ' :: (sr ++
              (" \x7d, OutTan \x7b ".data ++
                sb ++ ',' :: ' ' :: (sg ++ ',' :: ' ' :: (sr ++
                  " \x7d, \x7d, \x7d".data)))))))))) =
      PResult.scene { initModel with GeosetAnims :=
        [objSet geosetAnim0 "Color" (Val.vanim
          { LineType := LineT.Hermite, GlobalSeqId := none,
            Keys := [{ Frame := jsParseFloat ['0'],
                       Vector := [jsParseFloat sr, jsParseFloat sg, jsParseFloat sb],
                       InTan := some [jsParseFloat sr, jsParseFloat sg, jsParseFloat sb],
                       OutTan := some [jsParseFloat sr, jsParseFloat sg, jsParseFloat sb] }] })] }) ∧
    ([jsParseFloat sr, jsParseFloat sg, jsParseFloat sb].reverse =
      [jsParseFloat sb, jsParseFloat sg, jsParseFloat sr]) := by
  refine ⟨?_, ?_, ?_, ?_, ?_, rfl⟩
  · have h := ga_static_eval hb hg hr
    simp only [List.cons_append, List.nil_append] at h
    simp only [mdlParse]
    simp only [List.cons_append, List.nil_append]
    rw [h]
  · have h := light_static_eval hb hg hr
    simp only [List.cons_append, List.nil_append] at h
    simp only [mdlParse]
    simp only [List.cons_append, List.nil_append]
    rw [h]
  · have h := ribbon_static_eval hb hg hr
    simp only [List.cons_append, List.nil_append] at h
    simp only [mdlParse]
    simp only [List.cons_append, List.nil_append]
    rw [h]
  · have h := pe2_segmentcolor_eval hb hg hr
    simp only [List.cons_append, List.nil_append] at h
    simp only [mdlParse]
    simp only [List.cons_append, List.nil_append]
    rw [h]
  · have h := ga_anim_eval hb hg hr
    simp only [List.cons_append, List.nil_append] at h
    simp only [mdlParse]
    simp only [List.cons_append, List.nil_append]
    rw [h]

theorem c3_color_triples_reversed_witness :
    (mdlParse (String.mk ("GeosetAnim \x7b static Color \x7b ".data ++
        ['1'] ++ ',' :: ' ' :: (['2'] ++ ',' :: ' ' :: (['3'] ++ " \x7d, \x7d".data)))) =
      PResult.scene { initModel with GeosetAnims :=
        [objSet geosetAnim0 "Color"
          (Val.varr [jsParseFloat ['3'], jsParseFloat ['2'], jsParseFloat ['1']])] }) ∧
    (mdlParse (String.mk ("Light \"L\" \x7b static Color \x7b ".data ++
        ['1'] ++ ',' :: ' ' :: (['2'] ++ ',' :: ' ' :: (['3'] ++
          (" \x7d, static AmbColor \x7b ".data ++
            ['1'] ++ ',' :: ' ' :: (['2'] ++ ',' :: ' ' :: (['3'] ++ " \x7d, \x7d".data))))))) =
      PResult.scene { initModel with
        Lights := [objSet (objSet (light0 (some "L")) "Color"
            (Val.varr [jsParseFloat ['3'], jsParseFloat ['2'], jsParseFloat ['1']])) "AmbColor"
            (Val.varr [jsParseFloat ['3'], jsParseFloat ['2'], jsParseFloat ['1']])],
        Nodes := [some (objSet (objSet (light0 (some "L")) "Color"
            (Val.varr [jsParseFloat ['3'], jsParseFloat ['2'], jsParseFloat ['1']])) "AmbColor"
            (Val.varr [jsParseFloat ['3'], jsParseFloat ['2'], jsParseFloat ['1']]))] }) ∧
    (mdlParse (String.mk ("RibbonEmitter \"R\" \x7b static Color \x7b ".data ++
        ['1'] ++ ',' :: ' ' :: (['2'] ++ ',' :: ' ' :: (['3'] ++ " \x7d, \x7d".data)))) =
      PResult.scene { initModel with
        RibbonEmitters := [objSet (ribbonEmitter0 (some "R")) "Color"
            (Val.varr [jsParseFloat ['3'], jsParseFloat ['2'], jsParseFloat ['1']])],
        Nodes := [some (objSet (ribbonEmitter0 (some "R")) "Color"
            (Val.varr [jsParseFloat ['3'], jsParseFloat ['2'], jsParseFloat ['1']]))] }) ∧
    (mdlParse (String.mk ("ParticleEmitter2 \"P\" \x7b SegmentColor \x7b Color \x7b ".data ++
        ['1'] ++ ',' :: ' ' :: (['2'] ++ ',' :: ' ' :: (['3'] ++ " \x7d, \x7d, \x7d".data)))) =
      PResult.scene { initModel with
        ParticleEmitters2 := [objSet (particleEmitter20 (some "P")) "SegmentColor"
            (Val.varrs [[jsParseFloat ['3'], jsParseFloat ['2'], jsParseFloat ['1']]])],
        Nodes := [some (objSet (particleEmitter20 (some "P")) "SegmentColor"
            (Val.varrs [[jsParseFloat ['3'], jsParseFloat ['2'], jsParseFloat ['1']]]))] }) ∧
    (mdlParse (String.mk ("GeosetAnim \x7b Color 3 \x7b Hermite, 0: \x7b ".data ++
        ['1'] ++ ',' :: ' ' :: (['2'] ++ ',' :: ' ' :: (['3'] ++
          (" \x7d, InTan \x7b ".data ++
            ['1'] ++ ',' :: ' ' :: (['2'] ++ ',' :: ' ' :: (['3'] ++
              (" \x7d, OutTan \x7b ".data ++
                ['1'] ++ ',' :: ' ' :: (['2'] ++ ',' :: ' ' :: (['3'] ++
                  " \x7d, \x7d, \x7d".data)))))))))) =
      PResult.scene { initModel with GeosetAnims :=
        [objSet geosetAnim0 "Color" (Val.vanim
          { LineType := LineT.Hermite, GlobalSeqId := none,
            Keys := [{ Frame := jsParseFloat ['0'],
                       Vector := [jsParseFloat ['3'], jsParseFloat ['2'], jsParseFloat ['1']],
                       InTan := some [jsParseFloat ['3'], jsParseFloat ['2'], jsParseFloat ['1']],
                       OutTan := some [jsParseFloat ['3'], jsParseFloat ['2'], jsParseFloat ['1']] }] })] }) ∧
    ([jsParseFloat ['3'], jsParseFloat ['2'], jsParseFloat ['1']].reverse =
      [jsParseFloat ['1'], jsParseFloat ['2'], jsParseFloat ['3']]) :=
  c3_color_triples_reversed ['1'] ['2'] ['3'] (by decide) (by decide) (by decide)

/-- C4 (counterexample): parsing a single Bone block with `ObjectId 0` leaves
the flat `Nodes` list with one element (the bone itself), refuting the claim
that Bone/Helper/Attachment handlers do not add the node to `Scene.Nodes` at
parse time: `parseNode` executes `model.Nodes[node.ObjectId] = node`. -/
theorem c4_counterexample :
    (parseOk ("Bone \"b\" \x7b ObjectId 0, \x7d")).map
        (fun m => (m.Nodes.length, m.Bones.length)) = some (1, 1) := by decide

/-- C4 (amended): parsing a Bone, Helper, or Attachment block appends the node
to its typed bucket (Bones, Helpers, Attachments) and ALSO writes it into the
flat `Nodes` list at index `ObjectId` (`model.Nodes[node.ObjectId] = node` in
`parseNode`); `nodesAssign` leaves `Nodes` unchanged exactly when `ObjectId`
is not a valid array index (e.g. the initial `null`). -/
theorem c4_node_buckets_and_flat_nodes :
    (∀ (m : Model) (s : St) (m1 : Model) (s1 : St), parseBone m s = .ok m1 s1 →
      ∃ node, m1 =
        { m with
            Bones := m.Bones ++ [node]
            Nodes := nodesAssign m.Nodes (objGet node "ObjectId") node }) ∧
    (∀ (m : Model) (s : St) (m1 : Model) (s1 : St), parseHelper m s = .ok m1 s1 →
      ∃ node, m1 =
        { m with
            Helpers := m.Helpers ++ [node]
            Nodes := nodesAssign m.Nodes (objGet node "ObjectId") node }) ∧
    (∀ (m : Model) (s : St) (m1 : Model) (s1 : St), parseAttachment m s = .ok m1 s1 →
      ∃ node, m1 =
        { m with
            Attachments := m.Attachments ++ [node]
            Nodes := nodesAssign m.Nodes (objGet node "ObjectId") node }) := by
  refine ⟨?_, ?_, ?_⟩ <;> intro m s m1 s1 h
  · unfold parseBone at h
    obtain ⟨nm, s2, hn, h⟩ := andThen_eq_ok h
    cases h
    exact ⟨nm.1, by rw [parseNode_shape hn]⟩
  · unfold parseHelper at h
    obtain ⟨nm, s2, hn, h⟩ := andThen_eq_ok h
    cases h
    exact ⟨nm.1, by rw [parseNode_shape hn]⟩
  · unfold parseAttachment at h
    obtain ⟨nm, s2, hn, h⟩ := andThen_eq_ok h
    cases h
    exact ⟨nm.1, by rw [parseNode_shape hn]⟩

theorem c4_node_buckets_and_flat_nodes_witness :
    (∃ node,
      (match parseBone initModel ("\"b\" \x7b ObjectId 0, \x7d".data) with
        | Res.ok m1 _ => m1
        | _ => initModel) =
      { initModel with
          Bones := initModel.Bones ++ [node]
          Nodes := nodesAssign initModel.Nodes (objGet node "ObjectId") node }) ∧
    (∃ node,
      (match parseHelper initModel ("\"h\" \x7b ObjectId 1, \x7d".data) with
        | Res.ok m1 _ => m1
        | _ => initModel) =
      { initModel with
          Helpers := initModel.Helpers ++ [node]
          Nodes := nodesAssign initModel.Nodes (objGet node "ObjectId") node }) ∧
    (∃ node,
      (match parseAttachment initModel ("\"a\" \x7b ObjectId 2, \x7d".data) with
        | Res.ok m1 _ => m1
        | _ => initModel) =
      { initModel with
          Attachments := initModel.Attachments ++ [node]
          Nodes := nodesAssign initModel.Nodes (objGet node "ObjectId") node }) :=
  ⟨c4_node_buckets_and_flat_nodes.1 initModel ("\"b\" \x7b ObjectId 0, \x7d".data) _
      (match parseBone initModel ("\"b\" \x7b ObjectId 0, \x7d".data) with
        | Res.ok _ s1 => s1
        | _ => []) (by decide),
   c4_node_buckets_and_flat_nodes.2.1 initModel ("\"h\" \x7b ObjectId 1, \x7d".data) _
      (match parseHelper initModel ("\"h\" \x7b ObjectId 1, \x7d".data) with
        | Res.ok _ s1 => s1
        | _ => []) (by decide),
   c4_node_buckets_and_flat_nodes.2.2 initModel ("\"a\" \x7b ObjectId 2, \x7d".data) _
      (match parseAttachment initModel ("\"a\" \x7b ObjectId 2, \x7d".data) with
        | Res.ok _ s1 => s1
        | _ => []) (by decide)⟩

/-- C5 (counterexample): a Light block containing the loose key
`PivotPoint 7` stores the number 7 in the node's `PivotPoint` via the
handler's generic number fallback; the scene has no `PivotPoints` entry at
index 0, yet after the finalization pass the node's `PivotPoint` is set (to
`7`), refuting "for every node whose index has no defined PivotPoints entry,
its PivotPoint remains unset". -/
theorem c5_counterexample :
    (parseOk ("Light \"L\" \x7b PivotPoint 7, \x7d")).map
        (fun m => (m.PivotPoints.length,
          m.Nodes.map (fun n? => n?.map (fun o => objGet o "PivotPoint")))) =
      some (0, [some (some (Val.vnum (JsNum.fin 7 0)))]) := by decide

/-- C5 (amended): after the finalization pass, for every index `i` below
`Nodes.length` with a defined `PivotPoints[i]` entry, the node at `i` existed
and its `PivotPoint` is set to exactly that entry; every index with no defined
entry keeps its node record unchanged (whatever parsing put there — which need
not be an unset `PivotPoint`, see the counterexample); all other model fields
are untouched. -/
theorem c5_finalize_pivot_assignment :
    ∀ (m m1 : Model) (s1 : St), finalize m = .ok m1 s1 →
    m1 = { m with Nodes := m1.Nodes } ∧
    m1.Nodes.length = m.Nodes.length ∧
    (∀ i : Nat, i < m.Nodes.length →
      (m.PivotPoints.getD i none = none → m1.Nodes.getD i none = m.Nodes.getD i none) ∧
      (∀ pv, m.PivotPoints.getD i none = some pv →
        ∃ node, m.Nodes.getD i none = some node ∧
          m1.Nodes.getD i none = some (objSet node "PivotPoint" (Val.varr pv)))) ∧
    (∀ i : Nat, m.Nodes.length ≤ i → m1.Nodes.getD i none = m.Nodes.getD i none) := by
  intro m m1 s1 h
  unfold finalize at h
  obtain ⟨nodes1, s2, hf, h⟩ := andThen_eq_ok h
  cases h
  obtain ⟨hlen, hspec⟩ := finalizeN_spec m.PivotPoints m.Nodes.length 0 m.Nodes nodes1 s2 hf
  refine ⟨rfl, hlen, ?_, ?_⟩
  · intro i hi
    exact (hspec i).2 (by omega) (by omega)
  · intro i hi
    exact (hspec i).1 (by omega)

theorem c5_finalize_pivot_assignment_witness :
    (match finalize { initModel with
        Nodes := [some [("Name", Val.vnull)], some [("Name", Val.vnull)]]
        PivotPoints := [some [jzero, jzero, jzero]] } with
      | Res.ok m1 _ => m1
      | _ => initModel) =
      { { initModel with
            Nodes := [some [("Name", Val.vnull)], some [("Name", Val.vnull)]]
            PivotPoints := [some [jzero, jzero, jzero]] } with
          Nodes := (match finalize { initModel with
              Nodes := [some [("Name", Val.vnull)], some [("Name", Val.vnull)]]
              PivotPoints := [some [jzero, jzero, jzero]] } with
            | Res.ok m1 _ => m1
            | _ => initModel).Nodes } ∧
    (match finalize { initModel with
        Nodes := [some [("Name", Val.vnull)], some [("Name", Val.vnull)]]
        PivotPoints := [some [jzero, jzero, jzero]] } with
      | Res.ok m1 _ => m1
      | _ => initModel).Nodes.length =
      ({ initModel with
          Nodes := [some [("Name", Val.vnull)], some [("Name", Val.vnull)]]
          PivotPoints := [some [jzero, jzero, jzero]] } : Model).Nodes.length ∧
    (∀ i : Nat, i < ({ initModel with
          Nodes := [some [("Name", Val.vnull)], some [("Name", Val.vnull)]]
          PivotPoints := [some [jzero, jzero, jzero]] } : Model).Nodes.length →
      (({ initModel with
          Nodes := [some [("Name", Val.vnull)], some [("Name", Val.vnull)]]
          PivotPoints := [some [jzero, jzero, jzero]] } : Model).PivotPoints.getD i none = none →
        (match finalize { initModel with
            Nodes := [some [("Name", Val.vnull)], some [("Name", Val.vnull)]]
            PivotPoints := [some [jzero, jzero, jzero]] } with
          | Res.ok m1 _ => m1
          | _ => initModel).Nodes.getD i none =
          ({ initModel with
              Nodes := [some [("Name", Val.vnull)], some [("Name", Val.vnull)]]
              PivotPoints := [some [jzero, jzero, jzero]] } : Model).Nodes.getD i none) ∧
      (∀ pv, ({ initModel with
          Nodes := [some [("Name", Val.vnull)], some [("Name", Val.vnull)]]
          PivotPoints := [some [jzero, jzero, jzero]] } : Model).PivotPoints.getD i none = some pv →
        ∃ node, ({ initModel with
            Nodes := [some [("Name", Val.vnull)], some [("Name", Val.vnull)]]
            PivotPoints := [some [jzero, jzero, jzero]] } : Model).Nodes.getD i none = some node ∧
          (match finalize { initModel with
              Nodes := [some [("Name", Val.vnull)], some [("Name", Val.vnull)]]
              PivotPoints := [some [jzero, jzero, jzero]] } with
            | Res.ok m1 _ => m1
            | _ => initModel).Nodes.getD i none =
            some (objSet node "PivotPoint" (Val.varr pv)))) ∧
    (∀ i : Nat, ({ initModel with
        Nodes := [some [("Name", Val.vnull)], some [("Name", Val.vnull)]]
        PivotPoints := [some [jzero, jzero, jzero]] } : Model).Nodes.length ≤ i →
      (match finalize { initModel with
          Nodes := [some [("Name", Val.vnull)], some [("Name", Val.vnull)]]
          PivotPoints := [some [jzero, jzero, jzero]] } with
        | Res.ok m1 _ => m1
        | _ => initModel).Nodes.getD i none =
        ({ initModel with
            Nodes := [some [("Name", Val.vnull)], some [("Name", Val.vnull)]]
            PivotPoints := [some [jzero, jzero, jzero]] } : Model).Nodes.getD i none) :=
  c5_finalize_pivot_assignment _ _
    (match finalize { initModel with
        Nodes := [some [("Name", Val.vnull)], some [("Name", Val.vnull)]]
        PivotPoints := [some [jzero, jzero, jzero]] } with
      | Res.ok _ s1 => s1
      | _ => []) (by decide)

/-- C6 (counterexample): inserting a single space before the first top-level
keyword changes the Scene: the driver's keyword reader fails on the leading
space and parsing stops immediately, so `FormatVersion 900` is never read and
the default Version 800 is returned; without the space the Version is 900.
Additionally, a `//` comment inserted between two tokens inside a block is a
syntax error: comments are only skipped at the top level of the driver loop,
`parseSpace` does not skip them. -/
theorem c6_counterexample :
    (parseOk (" Version \x7b FormatVersion 900, \x7d")).map Model.Version =
        some (Val.vnum (JsNum.fin 800 0)) ∧
      (parseOk ("Version \x7b FormatVersion 900, \x7d")).map Model.Version =
        some (Val.vnum (JsNum.fin 900 0)) ∧
      mdlParse ("Version \x7b // c\n FormatVersion 900, \x7d") =
        PResult.syntaxErr 10 ("") := by decide

/-- C6 (amended): trivia insertion is NOT tolerated at every token boundary
(see the counterexample), but a `//` comment inserted at the head of the
top-level driver position is: for any comment whose first character after
`//` is arbitrary (the source skips it unexamined), whose text contains no
newline, and which ends in a newline followed by the rest of the input, the
parse yields the very same Scene as without the comment. -/
theorem c6_top_level_comment_insertion (c : Char) (txt rest : List Char) (htxt : '\n' ∉ txt)
    (hrest : rest ≠ []) {m : Model}
    (h : mdlParse (String.mk rest) = PResult.scene m) :
    mdlParse (String.mk ('/' :: '/' :: c :: (txt ++ '\n' :: rest))) = PResult.scene m := by
  obtain ⟨r, t, hrt⟩ : ∃ r t, rest = r :: t := by
    cases rest with
    | nil => exact absurd rfl hrest
    | cons a b => exact ⟨a, b, rfl⟩
  subst hrt
  have hcm : parseComment ('/' :: '/' :: c :: (txt ++ '\n' :: (r :: t))) = some (r :: t) := by
    simp only [parseComment]
    rw [dropWhile_append_all (p := fun x => ¬ (x = '\n'))
      (fun x hx => by simp; intro he; subst he; exact htxt hx) (r :: t) (by simp)]
  simp only [mdlParse] at h ⊢
  cases hc : parseCore (r :: t) with
  | ok m0 s0 =>
    rw [hc] at h
    simp at h
    subst h
    unfold parseCore at hc
    obtain ⟨m1, s1, htop, hfin⟩ := andThen_eq_ok hc
    have hskip : skipComments (('/' :: '/' :: c :: (txt ++ '\n' :: (r :: t))).length + 1)
        ('/' :: '/' :: c :: (txt ++ '\n' :: (r :: t))) =
        skipComments ((r :: t).length + 1) (r :: t) := by
      conv_lhs => rw [skipComments]
      rw [hcm]
      exact skipComments_congr _ (by simp [List.length_append]; omega) (by omega)
    have hrest1 : topGo ((r :: t).length + 1) initModel (r :: t) = .ok m1 s1 := htop
    rw [topGo] at hrest1
    on_goal 2 => simp
    have hres : topGo (('/' :: '/' :: c :: (txt ++ '\n' :: (r :: t))).length + 1) initModel
        ('/' :: '/' :: c :: (txt ++ '\n' :: (r :: t))) = .ok m1 s1 := by
      rw [topGo]
      on_goal 2 => simp
      simp only
      rw [hskip]
      simp only at hrest1
      obtain ⟨kw?, s2, hkw, hbody⟩ := andThen_eq_ok hrest1
      rw [hkw, andThen_ok]
      cases kw? with
      | none => exact hbody
      | some kw =>
        simp only at hbody ⊢
        by_cases hmem : kw ∈ parserNames ∨ kw ∈ protoNames
        · rw [if_pos hmem] at hbody ⊢
          obtain ⟨m2, s3, hdis, hrec⟩ := andThen_eq_ok hbody
          rw [hdis, andThen_ok]
          by_cases hg : s3.length < (r :: t).length
          · rw [if_pos hg] at hrec
            rw [if_pos (by simp only [List.length_cons, List.length_append] at hg ⊢; omega)]
            rw [topGo_fuel_eq (('/' :: '/' :: c :: (txt ++ '\n' :: (r :: t))).length)
              (by simp only [List.length_cons, List.length_append] at hg ⊢; omega) hg]
            exact hrec
          · rw [if_neg hg] at hrec
            exact Res.noConfusion hrec
        · rw [if_neg hmem] at hbody ⊢
          by_cases hg : (parseUnknownBlock s2).length < (r :: t).length
          · rw [if_pos hg] at hbody
            rw [if_pos (by simp only [List.length_cons, List.length_append] at hg ⊢; omega)]
            rw [topGo_fuel_eq (('/' :: '/' :: c :: (txt ++ '\n' :: (r :: t))).length)
              (by simp only [List.length_cons, List.length_append] at hg ⊢; omega) hg]
            exact hbody
          · rw [if_neg hg] at hbody
            exact Res.noConfusion hbody
    unfold parseCore
    rw [hres, andThen_ok, hfin]
  | err n ms => rw [hc] at h; simp at h
  | jerr ms => rw [hc] at h; simp at h
  | div => rw [hc] at h; simp at h
  | oof => rw [hc] at h; simp at h

theorem c6_top_level_comment_insertion_witness :
    mdlParse (String.mk ('/' :: '/' :: 'x' :: (" hi".data ++ '\n' ::
        "Version \x7b FormatVersion 900, \x7d".data))) =
      PResult.scene (match mdlParse (String.mk ("Version \x7b FormatVersion 900, \x7d".data)) with
        | PResult.scene m => m
        | _ => initModel) :=
  c6_top_level_comment_insertion 'x' " hi".data ("Version \x7b FormatVersion 900, \x7d".data)
    (by decide) (by decide) (by decide)

/-- C7 (counterexample): `toString` is not one of the twenty recognized
keywords and its block has matched braces, yet parsing is NOT "as if the block
were absent": the driver's membership test `keyword in parsers` finds the
inherited `Object.prototype.toString`, calls it (a no-op), and the next loop
iteration stops at the block's `{`; the following `Version` block is never
parsed (Version stays 800), whereas with the `toString` block absent the
Version is 900. -/
theorem c7_counterexample :
    (parseOk ("toString \x7b \x7d Version \x7b FormatVersion 900, \x7d")).map
        Model.Version = some (Val.vnum (JsNum.fin 800 0)) ∧
      (parseOk ("Version \x7b FormatVersion 900, \x7d")).map Model.Version =
        some (Val.vnum (JsNum.fin 900 0)) := by decide

/-- C7 (amended): a top-level block whose keyword is neither one of the twenty
registered parser names NOR one of the scannable `Object.prototype` member
names (the counterexample shows those are dispatched as silent no-ops, not
skipped as blocks) is skipped with its whole balanced-brace body, and the rest
of the input parses exactly as if the block were absent. -/
theorem c7_unknown_block_skipped (K inner rest : List Char) (hK : isKwToken K = true)
    (hn1 : String.mk K ∉ parserNames) (hn2 : String.mk K ∉ protoNames)
    (hbal : Bal inner) (hdr : dropSpace rest = rest) :
    parseCore (K ++ ' ' :: '{' :: (inner ++ '}' :: rest)) = parseCore rest := by
  obtain ⟨c0, t0, hk0⟩ : ∃ c0 t0, K = c0 :: t0 := by
    cases K with
    | nil => simp [isKwToken] at hK
    | cons a b => exact ⟨a, b, rfl⟩
  have hkw1 : isKwFirst c0 = true := by
    subst hk0
    simp only [isKwToken, Bool.decide_and, Bool.and_eq_true, decide_eq_true_eq] at hK
    exact hK.1
  have hc0 : ¬ c0 = '/' := by
    intro he
    rw [he] at hkw1
    simp [isKwFirst] at hkw1
  unfold parseCore
  have hX : K ++ ' ' :: '{' :: (inner ++ '}' :: rest) =
      c0 :: (t0 ++ ' ' :: '{' :: (inner ++ '}' :: rest)) := by
    subst hk0; simp
  rw [hX]
  rw [topGo]
  on_goal 2 => simp
  simp only
  have hskip : skipComments ((c0 :: (t0 ++ ' ' :: '{' :: (inner ++ '}' :: rest))).length + 1)
      (c0 :: (t0 ++ ' ' :: '{' :: (inner ++ '}' :: rest))) =
      c0 :: (t0 ++ ' ' :: '{' :: (inner ++ '}' :: rest)) := by
    rw [skipComments, parseComment_not_slash hc0]
  rw [hskip]
  have hkw : parseKeyword (c0 :: (t0 ++ ' ' :: '{' :: (inner ++ '}' :: rest))) =
      .ok (some (String.mk K)) ('{' :: (inner ++ '}' :: rest)) := by
    rw [show c0 :: (t0 ++ ' ' :: '{' :: (inner ++ '}' :: rest)) =
      K ++ ' ' :: '{' :: (inner ++ '}' :: rest) from by rw [hX]]
    rw [parseKeyword_token hK _ (by decide)]
    rfl
  rw [hkw, andThen_ok]
  simp only
  rw [if_neg (by intro hor; rcases hor with h | h; exact hn1 h; exact hn2 h)]
  have hub : parseUnknownBlock ('{' :: (inner ++ '}' :: rest)) = rest := by
    unfold parseUnknownBlock
    rw [show List.dropWhile (fun c => ¬ (c = '{')) ('{' :: (inner ++ '}' :: rest)) =
      '{' :: (inner ++ '}' :: rest) from by simp [List.dropWhile_cons]]
    simp only
    rw [skipScan_bal hbal 0 rest, if_pos rfl]
    exact hdr
  rw [hub]
  rw [if_pos (by simp [List.length_append]; omega)]
  rw [topGo_fuel_eq _ (by simp [List.length_append]; omega) (Nat.lt_succ_self rest.length)]

theorem c7_unknown_block_skipped_witness :
    parseCore ("Foo".data ++ ' ' :: '{' :: (" x \x7b y \x7d ".data ++ '}' ::
        "Version \x7b FormatVersion 900, \x7d".data)) =
      parseCore ("Version \x7b FormatVersion 900, \x7d".data) :=
  c7_unknown_block_skipped "Foo".data (" x \x7b y \x7d ".data)
    ("Version \x7b FormatVersion 900, \x7d".data)
    (by decide) (by decide) (by decide)
    (Bal.ch ' ' _ (by decide) (by decide)
      (Bal.ch 'x' _ (by decide) (by decide)
        (Bal.ch ' ' _ (by decide) (by decide)
          (Bal.nest [' ', 'y', ' '] [' ']
            (Bal.ch ' ' _ (by decide) (by decide)
              (Bal.ch 'y' _ (by decide) (by decide)
                (Bal.ch ' ' [] (by decide) (by decide) Bal.nil)))
            (Bal.ch ' ' [] (by decide) (by decide) Bal.nil)))))
    (by decide)

/-- C8 (confirmed): for any list of LayerShading flag keywords (Unshaded=1,
SphereEnvMap=2, TwoSided=16, Unfogged=32, NoDepthTest=64, NoDepthSet=128)
forming the body of a Layer block, the resulting Layer's `Shading` field is
exactly the bitwise OR of the keywords' enumeration values, and a bit is set
in that OR exactly when some listed keyword's value has it set (no other bits
are ever set). -/
theorem c8_layer_shading_or (ls : List ShKw) :
    parseLayer ('\x7b' :: (renderFlags ls ++ ['\x7d'])) =
      .ok (objSet layer0 "Shading" (Val.vnum (JsNum.fin ((orFold ls : Nat) : Int) 0))) [] ∧
    (∀ i : Nat, (orFold ls).testBit i = true ↔ ∃ k ∈ ls, (shVal k).testBit i = true) := by
  constructor
  · unfold parseLayer
    rw [show strictParseSymbol '\x7b' ('\x7b' :: (renderFlags ls ++ ['\x7d'])) =
      .ok () (dropSpace (renderFlags ls ++ ['\x7d'])) from rfl]
    rw [andThen_ok, renderFlags_nonspace]
    rw [show layer0 = objSet layer0 "Shading" (Val.vnum (JsNum.fin ((0 : Nat) : Int) 0)) from by decide]
    rw [shLoop ls 0 (by norm_num)]
    rfl
  · intro i
    rw [show orFold ls = ls.foldl (fun a k => Nat.lor a (shVal k)) 0 from rfl]
    rw [orFold_testBit_gen ls 0 i]
    simp

/-- C9 (counterexample): an unknown keyword inside a Materials block aborts
the parse with a plain `Error` (`throw new Error('Unknown material property '
+ keyword)`) which carries NO byte offset — unlike `throwError`, which formats
`SyntaxError, near ${state.pos}`.  The claim's "syntax error carrying the byte
offset" is refuted; no Scene is returned. -/
theorem c9_counterexample :
    mdlParse ("Materials 1 \x7b Material \x7b Foo 1, \x7d \x7d") =
      PResult.plainErr ("Unknown material property Foo") := by decide

/-- C9 (amended): a keyword outside the fixed keyword set inside a Materials
block or a TextureAnims block aborts the parse with a PLAIN `Error` whose
message names the keyword (`Unknown material property K` /
`Unknown texture anim property K`) and carries NO byte offset (it is
`PResult.plainErr`, not `PResult.syntaxErr`), and no partial Scene is
returned. -/
theorem c9_plain_error_no_offset (K : List Char) (hK : isKwToken K = true)
    (h1 : ¬ String.mk K = "Layer") (h2 : ¬ String.mk K = "PriorityPlane")
    (h3 : ¬ String.mk K = "ConstantColor") (h4 : ¬ String.mk K = "SortPrimsFarZ")
    (h5 : ¬ String.mk K = "FullResolution") (h6 : ¬ String.mk K = "Translation")
    (h7 : ¬ String.mk K = "Rotation") (h8 : ¬ String.mk K = "Scaling") :
    mdlParse (String.mk ("Materials 1 \x7b Material \x7b ".data ++ K ++ [' '])) =
      PResult.plainErr ("Unknown material property " ++ String.mk K) ∧
    mdlParse (String.mk ("TextureAnims 1 \x7b TVertexAnim \x7b ".data ++ K ++ [' '])) =
      PResult.plainErr ("Unknown texture anim property " ++ String.mk K) := by
  obtain ⟨c, t, hKc⟩ : ∃ c t, K = c :: t := by
    cases K with
    | nil => simp [isKwToken] at hK
    | cons a b => exact ⟨a, b, rfl⟩
  subst hKc
  have hkf : isKwFirst c = true := by
    simp only [isKwToken, Bool.decide_and, Bool.and_eq_true, decide_eq_true_eq] at hK
    exact hK.1
  have hko : ∀ x ∈ t, isKwOther x = true := by
    simp only [isKwToken, Bool.decide_and, Bool.and_eq_true, decide_eq_true_eq] at hK
    exact fun x hx => (List.all_eq_true.mp hK.2) x hx
  constructor
  · simp only [mdlParse, parseCore]
    simp only [List.cons_append, List.nil_append]
    rw [topGo]
    on_goal 2 => simp
    simp only [skipComments, parseComment]
    simp [parseKeyword, dropSpace, List.takeWhile_cons, List.dropWhile_cons, isKwFirst,
      isKwOther, isSpaceJS, andThen_ok, parserNames, protoNames]
    simp only [dispatchKw, reduceCtorEq, String.reduceEq, if_false, if_true, ite_true,
      ite_false]
    simp only [parseMaterials]
    simp [parseNumber, strictParseSymbol, dropSpace, List.takeWhile_cons, List.dropWhile_cons,
      isSpaceJS, isNumFirst, isNumOther, andThen_ok]
    rw [runLoop_eq]
    simp [headIs, parseKeyword, dropSpace, List.takeWhile_cons, List.dropWhile_cons,
      isKwFirst, isKwOther, isSpaceJS, andThen_ok, strictParseSymbol]
    rw [if_neg (show ¬ (c = ' ' ∨ c = '\t' ∨ c = '\n' ∨ c = '\x0d' ∨ c = '\x0b' ∨ c = '\x0c') from by
      intro hor
      have hsp : isSpaceJS c = true := by
        simp only [isSpaceJS, Bool.decide_or, Bool.or_eq_true, decide_eq_true_eq]
        tauto
      rw [isKwFirst_not_space hkf] at hsp
      exact Bool.noConfusion hsp)]
    rw [runLoop_eq]
    simp only [headIs]
    rw [show decide ((c :: (t ++ [' '])).head? = some '}') = false from by
      simp only [List.head?]
      apply decide_eq_false
      intro hh
      injection hh with hh
      subst hh
      simp [isKwFirst] at hkf]
    simp only [Bool.false_eq_true, if_false]
    rw [if_pos (show 'a' ≤ c ∧ c ≤ 'z' ∨ 'A' ≤ c ∧ c ≤ 'Z' from by
      simpa [isKwFirst] using hkf)]
    rw [dropWhile_append_all hko [] (by decide)]
    rw [takeWhile_append_all hko [] (by decide)]
    dsimp only
    simp only [andThen_ok]
    rw [if_neg h1, if_neg h2]
    rw [if_neg (by intro hor; rcases hor with h | h | h; exact h3 h; exact h4 h; exact h5 h)]
    simp
  · simp only [mdlParse, parseCore]
    simp only [List.cons_append, List.nil_append]
    rw [topGo]
    on_goal 2 => simp
    simp only [skipComments, parseComment]
    simp [parseKeyword, dropSpace, List.takeWhile_cons, List.dropWhile_cons, isKwFirst,
      isKwOther, isSpaceJS, andThen_ok, parserNames, protoNames]
    simp only [dispatchKw, reduceCtorEq, String.reduceEq, if_false, if_true, ite_true,
      ite_false]
    simp only [parseTextureAnims]
    simp [parseNumber, strictParseSymbol, dropSpace, List.takeWhile_cons, List.dropWhile_cons,
      isSpaceJS, isNumFirst, isNumOther, andThen_ok]
    rw [runLoop_eq]
    simp [headIs, parseKeyword, dropSpace, List.takeWhile_cons, List.dropWhile_cons,
      isKwFirst, isKwOther, isSpaceJS, andThen_ok, strictParseSymbol]
    rw [if_neg (show ¬ (c = ' ' ∨ c = '\t' ∨ c = '\n' ∨ c = '\x0d' ∨ c = '\x0b' ∨ c = '\x0c') from by
      intro hor
      have hsp : isSpaceJS c = true := by
        simp only [isSpaceJS, Bool.decide_or, Bool.or_eq_true, decide_eq_true_eq]
        tauto
      rw [isKwFirst_not_space hkf] at hsp
      exact Bool.noConfusion hsp)]
    rw [runLoop_eq]
    simp only [headIs]
    rw [show decide ((c :: (t ++ [' '])).head? = some '}') = false from by
      simp only [List.head?]
      apply decide_eq_false
      intro hh
      injection hh with hh
      subst hh
      simp [isKwFirst] at hkf]
    simp only [Bool.false_eq_true, if_false]
    rw [if_pos (show 'a' ≤ c ∧ c ≤ 'z' ∨ 'A' ≤ c ∧ c ≤ 'Z' from by
      simpa [isKwFirst] using hkf)]
    rw [dropWhile_append_all hko [] (by decide)]
    rw [takeWhile_append_all hko [] (by decide)]
    dsimp only
    simp only [andThen_ok]
    rw [if_neg (by intro hor; rcases hor with h | h | h; exact h6 h; exact h7 h; exact h8 h)]
    simp

theorem c9_plain_error_no_offset_witness :
    (mdlParse (String.mk ("Materials 1 \x7b Material \x7b ".data ++ "Foo".data ++ [' '])) =
      PResult.plainErr ("Unknown material property " ++ String.mk "Foo".data)) ∧
    (mdlParse (String.mk ("TextureAnims 1 \x7b TVertexAnim \x7b ".data ++ "Foo".data ++ [' '])) =
      PResult.plainErr ("Unknown texture anim property " ++ String.mk "Foo".data)) :=
  c9_plain_error_no_offset "Foo".data (by decide) (by decide) (by decide) (by decide) (by decide)
    (by decide) (by decide) (by decide) (by decide)

/-- C10 (counterexample): a Bone block containing the loose key `Flags 0`
overwrites the `Flags` field through the handler's generic key fallback
(`node[keyword] = val`); the resulting node record carries Flags 0, which has
zero node-type tag bits — not exactly one — refuting "regardless of the keys
present in the node's source block". -/
theorem c10_counterexample :
    (parseOk ("Bone \"b\" \x7b Flags 0, \x7d")).map
          (fun m => m.Bones.map (fun o => objGet o "Flags")) =
        some [some (Val.vnum (JsNum.fin 0 0))] ∧
      tagBitCount 0 = 0 := by decide

/-- C10 (amended): each node handler initialises `Flags` with exactly one
node-type tag bit, and the flag keywords a Bone/Helper/Attachment body can
carry (billboard family, `DontInherit \x7b ... \x7d`) only OR in behavioural
bits below 256, disjoint from the tag bits — so for ANY list of such flag
constructs the parsed node's Flags has exactly one tag bit set; likewise the
minimal blocks of the five other node kinds.  The counterexample shows the
claim's "regardless of the keys present" fails for a literal `Flags` key. -/
theorem c10_node_tag_bit (ls : List NFItem) :
    ((mdlParse (String.mk ("Bone \"b\" \x7b ".data ++ (nfRenderAll ls ++ ['\x7d']))) =
      PResult.scene { initModel with Bones := [objSet (node0 "Bone" (some "b")) "Flags"
        (Val.vnum (JsNum.fin ((ls.foldl (fun a k => Nat.lor a (nfVal k))
          (nodeTypeVal "Bone") : Nat) : Int) 0))] }) ∧
      tagBitCount (ls.foldl (fun a k => Nat.lor a (nfVal k)) (nodeTypeVal "Bone")) = 1) ∧
    ((mdlParse (String.mk ("Helper \"b\" \x7b ".data ++ (nfRenderAll ls ++ ['\x7d']))) =
      PResult.scene { initModel with Helpers := [objSet (node0 "Helper" (some "b")) "Flags"
        (Val.vnum (JsNum.fin ((ls.foldl (fun a k => Nat.lor a (nfVal k))
          (nodeTypeVal "Helper") : Nat) : Int) 0))] }) ∧
      tagBitCount (ls.foldl (fun a k => Nat.lor a (nfVal k)) (nodeTypeVal "Helper")) = 1) ∧
    ((mdlParse (String.mk ("Attachment \"b\" \x7b ".data ++ (nfRenderAll ls ++ ['\x7d']))) =
      PResult.scene { initModel with Attachments := [objSet (node0 "Attachment" (some "b")) "Flags"
        (Val.vnum (JsNum.fin ((ls.foldl (fun a k => Nat.lor a (nfVal k))
          (nodeTypeVal "Attachment") : Nat) : Int) 0))] }) ∧
      tagBitCount (ls.foldl (fun a k => Nat.lor a (nfVal k)) (nodeTypeVal "Attachment")) = 1) ∧
    ((parseOk ("EventObject \"e\" \x7b \x7d")).map
        (fun m => m.EventObjects.map (fun o => objGet o "Flags")) =
        some [some (Val.vnum (JsNum.fin 2048 0))] ∧ tagBitCount 2048 = 1) ∧
    ((parseOk ("CollisionShape \"c\" \x7b \x7d")).map
        (fun m => m.CollisionShapes.map (fun o => objGet o "Flags")) =
        some [some (Val.vnum (JsNum.fin 4096 0))] ∧ tagBitCount 4096 = 1) ∧
    ((parseOk ("ParticleEmitter2 \"p\" \x7b \x7d")).map
        (fun m => m.ParticleEmitters2.map (fun o => objGet o "Flags")) =
        some [some (Val.vnum (JsNum.fin 8192 0))] ∧ tagBitCount 8192 = 1) ∧
    ((parseOk ("Light \"l\" \x7b \x7d")).map
        (fun m => m.Lights.map (fun o => objGet o "Flags")) =
        some [some (Val.vnum (JsNum.fin 16384 0))] ∧ tagBitCount 16384 = 1) ∧
    ((parseOk ("RibbonEmitter \"r\" \x7b \x7d")).map
        (fun m => m.RibbonEmitters.map (fun o => objGet o "Flags")) =
        some [some (Val.vnum (JsNum.fin 32768 0))] ∧ tagBitCount 32768 = 1) := by
  refine ⟨⟨?_, ?_⟩, ⟨?_, ?_⟩, ⟨?_, ?_⟩, by decide, by decide, by decide, by decide, by decide⟩
  · have h := bone_flags_eval ls
    simp only [List.cons_append, List.nil_append] at h
    simp only [mdlParse]
    simp only [List.cons_append, List.nil_append]
    rw [h]
  · rw [foldl_lor_eq]
    exact tagBitCount_lor_low (by decide) (nfFold_lt ls)
  · have h := helper_flags_eval ls
    simp only [List.cons_append, List.nil_append] at h
    simp only [mdlParse]
    simp only [List.cons_append, List.nil_append]
    rw [h]
  · rw [foldl_lor_eq]
    exact tagBitCount_lor_low (by decide) (nfFold_lt ls)
  · have h := attachment_flags_eval ls
    simp only [List.cons_append, List.nil_append] at h
    simp only [mdlParse]
    simp only [List.cons_append, List.nil_append]
    rw [h]
  · rw [foldl_lor_eq]
    exact tagBitCount_lor_low (by decide) (nfFold_lt ls)

end Mdl
